import Mathlib

/-!
# Playlist service of `mid-web-project`

A shallow embedding of the playlist routes of `src/server/server.js` (an Express
application that keeps one JSON document per user on disk) together with the
properties stated for them.

* JSON members that may be absent are `Option`s; `undefined` is `none`. The
  members the routes compare or test (`id`, `userId`, `name`, `videoId`, ...)
  are strings when present.
* `Date.now()` is a natural number handed to the route by its caller (the clock).
* The file system is seen through three functions of the normalised path: the
  playlist document a file holds, whether a file holds JSON without a
  `playlists` array (the user list), and whether `fs.writeFile` succeeds there.
  `JSON.stringify` followed by `JSON.parse` is the identity on the documents
  modelled here; a file that cannot be read or parsed (a missing file in
  particular) holds no document.
* A JavaScript Number that holds a non-negative integer is a natural number, or
  `Infinity`; JavaScript holds the integers below `2 ^ 53` exactly, which covers
  every reading of `Date.now()`, and rounds larger ones to the nearest Number.
* `path.join` is modelled after the POSIX implementation of Node's `path` module.
* A route is a function from the server state and the request to the response
  and the next server state; an exception caught by the `catch` branch of a
  route is its 500 response with the state unchanged.
-/

namespace MidWeb

/-! ## JavaScript helpers -/

/-- JavaScript truthiness of a string member that may be absent:
`undefined` and the empty string are falsy, every other string is truthy. -/
def truthy : Option String → Bool
  | some s => !(s == "")
  | none => false

/-- The code points removed by `String.prototype.trim`: ECMAScript `WhiteSpace`
and `LineTerminator`. -/
def isJsWhiteSpace (c : Char) : Bool :=
  let n := c.toNat
  n == 0x09 || n == 0x0A || n == 0x0B || n == 0x0C || n == 0x0D || n == 0x20 ||
  n == 0xA0 || n == 0x1680 || (0x2000 ≤ n && n ≤ 0x200A) || n == 0x2028 ||
  n == 0x2029 || n == 0x202F || n == 0x205F || n == 0x3000 || n == 0xFEFF

/-- `String.prototype.trim` on the list of characters of a string. -/
def jsTrimChars (cs : List Char) : List Char :=
  ((cs.dropWhile isJsWhiteSpace).reverse.dropWhile isJsWhiteSpace).reverse

/-- `s.trim()`. -/
def jsTrim (s : String) : String :=
  String.mk (jsTrimChars s.data)

/-- Whether `pat` is an initial segment of `cs`. -/
def startsWithChars : List Char → List Char → Bool
  | [], _ => true
  | _ :: _, [] => false
  | p :: ps, c :: cs => p == c && startsWithChars ps cs

/-- `s.replace(pat, rep)` with a string pattern: only the first occurrence of
`pat` is replaced. -/
def jsReplaceFirstChars (pat rep : List Char) : List Char → List Char
  | [] => if pat.isEmpty then rep else []
  | c :: cs =>
    if startsWithChars pat (c :: cs) then rep ++ (c :: cs).drop pat.length
    else c :: jsReplaceFirstChars pat rep cs

/-- `s.replace(pat, rep)` on strings. -/
def jsReplaceFirst (s pat rep : String) : String :=
  String.mk (jsReplaceFirstChars pat.data rep.data s.data)

/-- `n.toString()` for a non-negative integer: its decimal numeral. -/
def jsNumToString (n : Nat) : String :=
  String.mk (Nat.toDigits 10 n)

/-! ## Node `path.join` (POSIX) -/

/-- Split a path at every `/`. -/
def splitOnSlash : List Char → List (List Char)
  | [] => [[]]
  | c :: cs =>
    match splitOnSlash cs with
    | [] => [[c]]
    | seg :: rest => if c = '/' then [] :: seg :: rest else (c :: seg) :: rest

/-- Segment-level reading of Node's `normalizeString`: empty segments and `.`
are dropped, `..` removes the preceding segment when there is one that is not
itself `..`, and is kept only when `allowAboveRoot`. The stack is reversed. -/
def normalizeSegments (allowAboveRoot : Bool) :
    List (List Char) → List (List Char) → List (List Char)
  | stack, [] => stack.reverse
  | stack, seg :: rest =>
    if seg = [] ∨ seg = ['.'] then normalizeSegments allowAboveRoot stack rest
    else if seg = ['.', '.'] then
      match stack with
      | [] =>
        normalizeSegments allowAboveRoot (if allowAboveRoot then [seg] else []) rest
      | top :: below =>
        if top = ['.', '.'] then
          normalizeSegments allowAboveRoot
            (if allowAboveRoot then seg :: top :: below else top :: below) rest
        else normalizeSegments allowAboveRoot below rest
    else normalizeSegments allowAboveRoot (seg :: stack) rest

/-- Join segments with `/`. -/
def joinWithSlash : List (List Char) → List Char
  | [] => []
  | [seg] => seg
  | seg :: rest => seg ++ '/' :: joinWithSlash rest

/-- Node's `path.posix.normalize`. -/
def pathNormalize (path : List Char) : List Char :=
  if path = [] then ['.']
  else
    let isAbsolute := path.head? == some '/'
    let trailingSeparator := path.getLast? == some '/'
    let body := joinWithSlash (normalizeSegments (!isAbsolute) [] (splitOnSlash path))
    if body = [] then
      if isAbsolute then ['/'] else if trailingSeparator then ['.', '/'] else ['.']
    else
      (if isAbsolute then ['/'] else []) ++ body ++ (if trailingSeparator then ['/'] else [])

/-- Node's `path.posix.join`: the non-empty arguments are joined with `/` and
the result is normalised; no non-empty argument gives `.`. -/
def pathJoin (parts : List String) : String :=
  let joined := joinWithSlash ((parts.filter (fun p => !(p == ""))).map String.data)
  if joined = [] then "." else String.mk (pathNormalize joined)

/-! ## Data model -/

/-- An insertion time as it can appear in a stored song: the number written by
`Date.now()` or a string such as the one written by `toISOString()`. -/
inductive Timestamp where
  | millis (n : Nat)
  | iso (s : String)
  deriving DecidableEq, Repr

/-- A song object as the routes and the pages read and write it. -/
structure Song where
  videoId : Option String := none
  id : Option String := none
  type : Option String := none
  title : Option String := none
  channelTitle : Option String := none
  thumbnail : Option String := none
  fileUrl : Option String := none
  duration : Option String := none
  viewCount : Option String := none
  rating : Option Nat := none
  addedAt : Option Timestamp := none
  uploadedAt : Option String := none
  deriving DecidableEq, Repr

/-- A playlist object: `id`, `userId`, `name`, `songs`. -/
structure Playlist where
  id : Option String := none
  userId : Option String := none
  name : Option String := none
  songs : Option (List Song) := none
  deriving DecidableEq, Repr

/-- The per-user document `{ playlists: [...] }`. -/
structure PlaylistData where
  playlists : List Playlist
  deriving DecidableEq, Repr

/-- The server: the directory of `server.js` (`__dirname`) and the disk, by path.
`files` gives the parsed content of a file that holds an object with a
`playlists` array; `others` tells the files whose parsed content has no
`playlists` array (`data/users.json`, an array of users); `writable` tells
where `fs.writeFile` succeeds (the directory of the path exists). -/
structure Server where
  dirname : String
  files : String → Option PlaylistData
  others : String → Bool
  writable : String → Bool

/-- A JSON response: HTTP status, the `success` member, the `error` or
`message` text, and the payload members the routes send. -/
structure Response where
  status : Nat
  success : Bool := false
  text : String := ""
  playlists : Option (List Playlist) := none
  playlist : Option Playlist := none
  song : Option Song := none
  deriving DecidableEq, Repr

/-- The result kinds of the error taxonomy. -/
inductive Outcome where
  | success
  | validationError
  | notFound
  | forbidden
  | conflict
  | internalError
  deriving DecidableEq, Repr

/-- Reading of a response in the error taxonomy: 404 is NotFound, 403 is
Forbidden, 400 is Conflict for the duplicate-item message and ValidationError
otherwise, 500 is the internal error of the `catch` branch. -/
def Response.kind (r : Response) : Outcome :=
  if r.status = 200 then .success
  else if r.status = 404 then .notFound
  else if r.status = 403 then .forbidden
  else if r.status = 400 then
    if r.text = "Item already exists in playlist" then .conflict else .validationError
  else .internalError

/-! ## Document store -/

/-- `DATA_DIR = path.join(__dirname, 'data')`. -/
def DATA_DIR (dirname : String) : String :=
  pathJoin [dirname, "data"]

/-- `PLAYLISTS_DIR = path.join(DATA_DIR, 'playlists')`. -/
def PLAYLISTS_DIR (dirname : String) : String :=
  pathJoin [DATA_DIR dirname, "playlists"]

/-- `USERS_FILE = path.join(DATA_DIR, 'users.json')`. -/
def USERS_FILE (dirname : String) : String :=
  pathJoin [DATA_DIR dirname, "users.json"]

/-- `UPLOADS_DIR = path.join(__dirname, 'uploads')`. -/
def UPLOADS_DIR (dirname : String) : String :=
  pathJoin [dirname, "uploads"]

/-- `getUserPlaylistFile(username)`. -/
def getUserPlaylistFile (srv : Server) (username : String) : String :=
  pathJoin [PLAYLISTS_DIR srv.dirname, username ++ ".json"]

/-- `readUserPlaylist(username)`, read as a collection: the parsed file, or
`{ playlists: [] }` when reading or parsing fails. For a file whose parsed
content has no `playlists` array the list is `playlistData.playlists || []`,
the empty list, and `hasPlaylists` is false. -/
def readUserPlaylist (srv : Server) (username : String) : PlaylistData :=
  match srv.files (getUserPlaylistFile srv username) with
  | some data => data
  | none => { playlists := [] }

/-- Whether `playlistData.playlists` is an array for the value that
`readUserPlaylist(username)` returns; where it is not, `playlistData.playlists.find`
and `playlistData.playlists.length` throw. -/
def hasPlaylists (srv : Server) (username : String) : Bool :=
  match srv.files (getUserPlaylistFile srv username) with
  | some _ => true
  | none => !srv.others (getUserPlaylistFile srv username)

/-- Whether `await writeUserPlaylist(username, ...)` returns; otherwise it throws
and nothing is written. -/
def writeSucceeds (srv : Server) (username : String) : Bool :=
  srv.writable (getUserPlaylistFile srv username)

/-- The disk after a `writeUserPlaylist(username, playlistData)` that returns:
the whole file is replaced. -/
def writeUserPlaylist (srv : Server) (username : String) (playlistData : PlaylistData) :
    Server :=
  { srv with
    files := fun path =>
      if path = getUserPlaylistFile srv username then some playlistData else srv.files path
    others := fun path =>
      if path = getUserPlaylistFile srv username then false else srv.others path }

/-- The segments of `path.dirname(path)` for a normalised path. -/
def parentSegments (path : String) : List (List Char) :=
  (splitOnSlash path.data).dropLast

/-- The server right after `ensureDirectories()`: the user list `[]` is the only
file, and the directories are `DATA_DIR`, `PLAYLISTS_DIR`, `UPLOADS_DIR` and the
directories above them. -/
def emptyServer (dirname : String) : Server :=
  { dirname := dirname
    files := fun _ => none
    others := fun path => path == USERS_FILE dirname
    writable := fun path =>
      (parentSegments path).isPrefixOf (splitOnSlash (PLAYLISTS_DIR dirname).data) ||
        (parentSegments path).isPrefixOf (splitOnSlash (UPLOADS_DIR dirname).data) }

/-! ## Playlist routes -/

/-- Replace the first playlist satisfying `pred` by its image under `f`: the
effect of mutating the object returned by `playlists.find(pred)` in place. -/
def modifyFirst (pred : Playlist → Bool) (f : Playlist → Playlist) :
    List Playlist → List Playlist
  | [] => []
  | p :: ps => if pred p then f p :: ps else p :: modifyFirst pred f ps

/-- `GET /api/playlists`: every stored playlist, with `userId` filled in by
`playlist.userId || username`. Nothing is written. -/
def listPlaylists (srv : Server) (username : String) : Response × Server :=
  let playlistData := readUserPlaylist srv username
  let playlists := playlistData.playlists.map fun playlist =>
    { playlist with
      userId := if truthy playlist.userId then playlist.userId else some username }
  ({ status := 200, playlists := some playlists }, srv)

/-- The test `!playlist.name || playlist.name.trim() === ''`. -/
def nameIsEmpty (playlist : Playlist) : Bool :=
  match playlist.name with
  | none => true
  | some name => name == "" || jsTrim name == ""

/-- The validation loop of `POST /api/playlists` from loop index `i` on:
`none` when a name is empty, otherwise the playlists with `userId` set to the
caller and a missing `id` set to `Date.now().toString()`, where `clock i` is the
clock reading in iteration `i`. -/
def stampPlaylists (username : String) (clock : Nat → Nat) :
    Nat → List Playlist → Option (List Playlist)
  | _, [] => some []
  | i, playlist :: rest =>
    if nameIsEmpty playlist then none
    else
      match stampPlaylists username clock (i + 1) rest with
      | none => none
      | some rest' =>
        some ({ playlist with
                userId := some username
                id := if truthy playlist.id then playlist.id
                      else some (jsNumToString (clock i)) } :: rest')

/-- `POST /api/playlists`: `playlists` is the body member of that name, `none`
when it is missing or not an array. -/
def replaceAll (srv : Server) (username : String) (playlists : Option (List Playlist))
    (clock : Nat → Nat) : Response × Server :=
  match playlists with
  | none => ({ status := 400, text := "Playlists must be an array" }, srv)
  | some playlists =>
    match stampPlaylists username clock 0 playlists with
    | none => ({ status := 400, text := "Playlist name cannot be empty" }, srv)
    | some stamped =>
      if !writeSucceeds srv username then
        ({ status := 500, text := "Error saving playlists" }, srv)
      else
        ({ status := 200, success := true, text := "Playlists saved successfully" },
          writeUserPlaylist srv username { playlists := stamped })

/-- `POST /api/playlists/:id/items`: `item` is the request body and `now` the
reading of `Date.now()`. A document without `playlists`, a playlist without
`songs` and a failing write throw, which the `catch` branch answers with 500. -/
def addItem (srv : Server) (username playlistId : String) (item : Song) (now : Nat) :
    Response × Server :=
  if !truthy item.videoId then ({ status := 400, text := "Item must have videoId" }, srv)
  else if !hasPlaylists srv username then
    ({ status := 500, text := "Error adding item to playlist" }, srv)
  else
    let playlistData := readUserPlaylist srv username
    match playlistData.playlists.find? (fun p => p.id == some playlistId) with
    | none => ({ status := 404, text := "Playlist not found" }, srv)
    | some playlist =>
      if playlist.userId ≠ some username then
        ({ status := 403, text := "Playlist does not belong to user" }, srv)
      else
        match playlist.songs with
        | none => ({ status := 500, text := "Error adding item to playlist" }, srv)
        | some songs =>
          if songs.any (fun s => s.videoId == item.videoId) then
            ({ status := 400, text := "Item already exists in playlist" }, srv)
          else if !writeSucceeds srv username then
            ({ status := 500, text := "Error adding item to playlist" }, srv)
          else
            let updated : Playlist :=
              { playlist with
                songs := some (songs ++ [{ item with addedAt := some (.millis now) }]) }
            ({ status := 200, success := true,
               text := "Item added to playlist successfully", playlist := some updated },
              writeUserPlaylist srv username
                { playlists :=
                    modifyFirst (fun p => p.id == some playlistId) (fun _ => updated)
                      playlistData.playlists })

/-- `DELETE /api/playlists/:id/items/:videoId`. -/
def removeItem (srv : Server) (username playlistId videoId : String) : Response × Server :=
  if !hasPlaylists srv username then
    ({ status := 500, text := "Error deleting item from playlist" }, srv)
  else
    let playlistData := readUserPlaylist srv username
    match playlistData.playlists.find? (fun p => p.id == some playlistId) with
    | none => ({ status := 404, text := "Playlist not found" }, srv)
    | some playlist =>
      if playlist.userId ≠ some username then
        ({ status := 403, text := "Playlist does not belong to user" }, srv)
      else
        match playlist.songs with
        | none => ({ status := 500, text := "Error deleting item from playlist" }, srv)
        | some songs =>
          let kept := songs.filter (fun s => s.videoId != some videoId)
          if kept.length = songs.length then
            ({ status := 404, text := "Item not found in playlist" }, srv)
          else if !writeSucceeds srv username then
            ({ status := 500, text := "Error deleting item from playlist" }, srv)
          else
            let updated : Playlist := { playlist with songs := some kept }
            ({ status := 200, success := true,
               text := "Item deleted from playlist successfully", playlist := some updated },
              writeUserPlaylist srv username
                { playlists :=
                    modifyFirst (fun p => p.id == some playlistId) (fun _ => updated)
                      playlistData.playlists })

/-- `DELETE /api/playlists/:id`. -/
def deletePlaylist (srv : Server) (username playlistId : String) : Response × Server :=
  if !hasPlaylists srv username then
    ({ status := 500, text := "Error deleting playlist" }, srv)
  else
    let playlistData := readUserPlaylist srv username
    let kept := playlistData.playlists.filter
      (fun p => p.id != some playlistId || p.userId != some username)
    if kept.length = playlistData.playlists.length then
      ({ status := 404, text := "Playlist not found or does not belong to user" }, srv)
    else if !writeSucceeds srv username then
      ({ status := 500, text := "Error deleting playlist" }, srv)
    else
      ({ status := 200, success := true, text := "Playlist deleted successfully" },
        writeUserPlaylist srv username { playlists := kept })

/-- The members of `req.file` that the upload route reads. -/
structure UploadedFile where
  filename : String
  originalname : String
  deriving DecidableEq, Repr

/-- The text fields of the upload form. -/
structure UploadBody where
  title : Option String := none
  artist : Option String := none
  duration : Option String := none
  playlistId : Option String := none
  deriving DecidableEq, Repr

/-- `a || b` on string members that may be absent. -/
def orElse (a b : Option String) : Option String :=
  if truthy a then a else b

/-- The object `songData` built by `POST /api/upload/mp3`; `now` is the reading
of `Date.now()` and `isoNow` the value of `new Date().toISOString()`. -/
def songData (file : UploadedFile) (body : UploadBody) (now : Nat) (isoNow : String) : Song :=
  { id := some (jsNumToString now)
    type := some "mp3"
    title := orElse body.title (some (jsReplaceFirst file.originalname ".mp3" ""))
    channelTitle := orElse body.artist (some "Unknown Artist")
    thumbnail := some "/uploads/default-music.png"
    fileUrl := some ("/uploads/" ++ file.filename)
    duration := orElse body.duration (some "0:00")
    viewCount := some "0"
    rating := some 0
    uploadedAt := some isoNow }

/-- Append `song` to the `songs` of a playlist, `none` when the playlist has no
`songs` (the `push` throws). -/
def pushSong (song : Song) (playlist : Playlist) : Option Playlist :=
  match playlist.songs with
  | none => none
  | some songs => some { playlist with songs := some (songs ++ [song]) }

/-- `POST /api/upload/mp3`: `file` is `req.file`, `nowSong` and `nowPlaylist`
are the readings of `Date.now()` for the song id and for the id of a playlist
created on the way. A document without `playlists`, a target without `songs`
and a failing write throw, which the `catch` branch answers with 500. -/
def uploadAndAttach (srv : Server) (username : String) (file : Option UploadedFile)
    (body : UploadBody) (nowSong nowPlaylist : Nat) (isoNow : String) : Response × Server :=
  match file with
  | none => ({ status := 400, text := "No file uploaded" }, srv)
  | some file =>
    if !hasPlaylists srv username then
      ({ status := 500, text := "Error uploading file" }, srv)
    else
    let song := songData file body nowSong isoNow
    let playlistData := readUserPlaylist srv username
    let playlists :=
      if playlistData.playlists.length = 0 then
        playlistData.playlists ++
          [{ id := some (jsNumToString nowPlaylist), name := some "My Playlist", songs := some [] }]
      else playlistData.playlists
    match playlists with
    | [] => ({ status := 500, text := "Error uploading file" }, srv)
    | first :: rest =>
      let playlistId := orElse body.playlistId first.id
      let target :=
        match (first :: rest).find? (fun p => p.id == playlistId) with
        | some playlist => playlist
        | none => first
      match pushSong song target with
      | none => ({ status := 500, text := "Error uploading file" }, srv)
      | some updated =>
        let written :=
          if ((first :: rest).find? (fun p => p.id == playlistId)).isSome then
            modifyFirst (fun p => p.id == playlistId) (fun _ => updated) (first :: rest)
          else updated :: rest
        if !writeSucceeds srv username then
          ({ status := 500, text := "Error uploading file" }, srv)
        else
          ({ status := 200, success := true, text := "File uploaded and added to playlist",
             song := some song },
            writeUserPlaylist srv username { playlists := written })

/-! ## Requests and runs -/

/-- An authenticated request to one of the playlist routes, with the clock
readings the route takes while serving it. -/
inductive Request where
  | list (username : String)
  | replace (username : String) (playlists : Option (List Playlist)) (clock : Nat → Nat)
  | add (username playlistId : String) (item : Song) (now : Nat)
  | remove (username playlistId videoId : String)
  | delete (username playlistId : String)
  | upload (username : String) (file : Option UploadedFile) (body : UploadBody)
      (nowSong nowPlaylist : Nat) (isoNow : String)

/-- Serve one request. -/
def handle (srv : Server) : Request → Response × Server
  | .list u => listPlaylists srv u
  | .replace u playlists clock => replaceAll srv u playlists clock
  | .add u pid item now => addItem srv u pid item now
  | .remove u pid vid => removeItem srv u pid vid
  | .delete u pid => deletePlaylist srv u pid
  | .upload u file body nowSong nowPlaylist isoNow =>
    uploadAndAttach srv u file body nowSong nowPlaylist isoNow

/-- Serve a sequence of requests one after the other. -/
def run (srv : Server) : List Request → Server
  | [] => srv
  | req :: reqs => run (handle srv req).2 reqs

/-! ## Properties of stored collections -/

/-- The identifier the playlist page uses for a song, `song.videoId || song.id`
(`deleteSong` in `playlists.js`): the `videoId` of a catalog item, the generated
`id` of an upload. -/
def stableId (song : Song) : Option String :=
  orElse song.videoId song.id

/-- No two songs of the sequence share a stable identifier. -/
def UniqueStableIds (songs : List Song) : Prop :=
  songs.Pairwise fun a b => truthy (stableId a) = true → stableId a ≠ stableId b

/-- No two songs of the sequence share a `videoId`. -/
def UniqueVideoIds (songs : List Song) : Prop :=
  songs.Pairwise fun a b => truthy a.videoId = true → a.videoId ≠ b.videoId

/-- Every playlist of the list that has a song sequence satisfies `uniq` on it. -/
def ItemsUnique (uniq : List Song → Prop) (playlists : List Playlist) : Prop :=
  ∀ p ∈ playlists, ∀ songs, p.songs = some songs → uniq songs

/-- Every stored collection satisfies `ItemsUnique uniq`. -/
def StoreItemsUnique (uniq : List Song → Prop) (srv : Server) : Prop :=
  ∀ username, ItemsUnique uniq (readUserPlaylist srv username).playlists

/-- Every playlist stored in an owner's collection carries that owner as `userId`. -/
def OwnerTagged (srv : Server) : Prop :=
  ∀ username, ∀ p ∈ (readUserPlaylist srv username).playlists, p.userId = some username

/-- The playlists a `DELETE /api/playlists/:id` request of `username` removes. -/
def deleteMatches (username playlistId : String) (p : Playlist) : Bool :=
  p.id == some playlistId && p.userId == some username

/-- A request that stores no playlist listing a `videoId` twice: every request
except a `POST /api/playlists` whose batch contains such a playlist. -/
def Request.Deduplicated : Request → Prop
  | .replace _ (some batch) _ => ItemsUnique UniqueVideoIds batch
  | _ => True

/-! ## Concrete states -/

/-- The playlist of the scenario: alice's empty playlist "Gym" with id "1". -/
def gymPlaylist : Playlist :=
  { id := some "1", userId := some "alice", name := some "Gym", songs := some [] }

/-- The state reached from the empty store when alice saves `gymPlaylist`. -/
def gymServer : Server :=
  run (emptyServer "/srv/app/server")
    [.replace "alice" (some [{ id := some "1", name := some "Gym", songs := some [] }])
      (fun _ => 1700)]

/-- The item of the scenario. -/
def songV9 : Song :=
  { videoId := some "v9", title := some "Song" }

/-- An uploaded file. -/
def demoFile : UploadedFile :=
  { filename := "mp3file-1700-42.mp3", originalname := "song.mp3" }

/-- A second uploaded file. -/
def demoFile2 : UploadedFile :=
  { filename := "mp3file-1700-77.mp3", originalname := "tune.mp3" }

/-- The state after alice, who has no playlist yet, uploads a file. -/
def uploadServer : Server :=
  run (emptyServer "/srv/app/server")
    [.upload "alice" (some demoFile) {} 1700 1700 "2026-01-01T00:00:00.000Z"]

/-- The state after alice saves a playlist that lists the same video twice. -/
def duplicateServer : Server :=
  run (emptyServer "/srv/app/server")
    [.replace "alice"
      (some [{ id := some "1", name := some "Mix", songs := some [songV9, songV9] }])
      (fun _ => 1700)]

/-- The state after alice uploads two files within the same millisecond. -/
def doubleUploadServer : Server :=
  run (emptyServer "/srv/app/server")
    [.upload "alice" (some demoFile) {} 1700 1700 "2026-01-01T00:00:00.000Z",
     .upload "alice" (some demoFile2) {} 1700 1700 "2026-01-01T00:00:00.000Z"]

/-- The state after alice saves two playlists with the same id. -/
def twinServer : Server :=
  run (emptyServer "/srv/app/server")
    [.replace "alice"
      (some [{ id := some "1", name := some "Gym", songs := some [] },
             { id := some "1", name := some "Run", songs := some [] }])
      (fun _ => 1700)]

/-- The state after the user registered as `./bob` saves a playlist: the
document lands in the file of `bob`. -/
def aliasServer : Server :=
  run (emptyServer "/srv/app/server")
    [.replace "./bob" (some [{ id := some "1", name := some "Gym", songs := some [] }])
      (fun _ => 1700)]

/-! ## Playlist page -/

/-- The key `song.addedAt || song.uploadedAt || 0` that `sortSongs('date')` in
`playlists.js` subtracts: a number or a string, `0` and the empty string being
falsy. -/
def dateKey (song : Song) : Timestamp :=
  let fallback : Timestamp :=
    match song.uploadedAt with
    | some s => if s = "" then .millis 0 else .iso s
    | none => .millis 0
  match song.addedAt with
  | some (.millis n) => if n = 0 then fallback else .millis n
  | some (.iso s) => if s = "" then fallback else .iso s
  | none => fallback

/-! ## Further concrete states -/

/-- The state after alice uploads a file into her playlist "Gym". -/
def gymUploadServer : Server :=
  (uploadAndAttach gymServer "alice" (some demoFile) { playlistId := some "1" } 1700 1700
    "2026-01-01T00:00:00.000Z").2

/-- The state after alice adds the song `v9` to her playlist "Gym". -/
def gymSongServer : Server :=
  (addItem gymServer "alice" "1" songV9 1800).2

/-- A file whose base name itself contains `.mp3`. -/
def remixFile : UploadedFile :=
  { filename := "mp3file-1700-42.mp3", originalname := "my.mp3.remix.mp3" }

/-- The playlist "Run" of alice, holding the song `v9`. -/
def runPlaylist : Playlist :=
  { id := some "2", userId := some "alice", name := some "Run", songs := some [songV9] }

/-- The state after alice saves the playlists "Gym" and "Run". -/
def twoPlaylistServer : Server :=
  run (emptyServer "/srv/app/server")
    [.replace "alice"
      (some [{ id := some "1", name := some "Gym", songs := some [] },
             { id := some "2", name := some "Run", songs := some [songV9] }])
      (fun _ => 1700)]

/-! ## Registration -/

/-- `s.length`: the number of UTF-16 code units of a string. -/
def jsLength (s : String) : Nat :=
  (s.data.map fun c => if c.toNat < 0x10000 then 1 else 2).sum

/-- The class `[a-zA-Zא-ת]`: Latin letters and the Hebrew letters U+05D0 to
U+05EA. -/
def isLetterChar (c : Char) : Bool :=
  let n := c.toNat
  (0x61 ≤ n && n ≤ 0x7A) || (0x41 ≤ n && n ≤ 0x5A) || (0x05D0 ≤ n && n ≤ 0x05EA)

/-- The class `[0-9]`, also `\d`. -/
def isDigitChar (c : Char) : Bool :=
  let n := c.toNat
  0x30 ≤ n && n ≤ 0x39

/-- The class `[^a-zA-Z0-9א-ת]`. -/
def isSpecialChar (c : Char) : Bool :=
  !(isLetterChar c || isDigitChar c)

/-- The object returned by `validatePassword` in `register.js`. -/
structure PasswordVerdict where
  isValid : Bool
  message : Option String := none
  deriving DecidableEq, Repr

/-- `validatePassword(password)` of `register.js`. -/
def validatePassword (password : String) : PasswordVerdict :=
  if jsLength password < 6 then
    { isValid := false, message := some "Password must contain at least 6 characters" }
  else if !password.data.any isLetterChar then
    { isValid := false, message := some "Password must contain at least one letter" }
  else if !password.data.any isDigitChar then
    { isValid := false, message := some "Password must contain at least one number" }
  else if !password.data.any isSpecialChar then
    { isValid := false,
      message := some "Password must contain at least one non-alphanumeric character" }
  else { isValid := true }

/-- The password validation of `POST /api/auth/register`: the `error` text of the
400 answer, `none` when every test passes. -/
def passwordError (password : String) : Option String :=
  if jsLength password < 6 then
    some ("Password must be at least 6 characters (current: " ++
      jsNumToString (jsLength password) ++ ")")
  else if !password.data.any isLetterChar then
    some "Password must contain at least one letter"
  else if !password.data.any isDigitChar then
    some "Password must contain at least one number"
  else if !password.data.any isSpecialChar then
    some ("Password must contain at least one non-alphanumeric character " ++
      "(e.g., !, @, #, $, etc.)")
  else none

/-- A record of `users.json`. -/
structure User where
  id : String
  username : String
  password : String
  firstName : String
  imageUrl : String
  deriving DecidableEq, Repr

/-- The body of a registration request. -/
structure RegisterBody where
  username : Option String := none
  password : Option String := none
  firstName : Option String := none
  imageUrl : Option String := none
  deriving DecidableEq, Repr

/-- `missingFields.join(', ')`. -/
def joinWithComma : List String → String
  | [] => ""
  | [s] => s
  | s :: rest => s ++ ", " ++ joinWithComma rest

/-- `POST /api/auth/register` on the list stored in `users.json`. `validUrl` says
for which strings `new URL` does not throw, `hashedPassword` is the result of
`bcrypt.hash`, `now` the reading of `Date.now()`. -/
def register (validUrl : String → Bool) (hashedPassword : String) (users : List User)
    (body : RegisterBody) (now : Nat) : Response × List User :=
  if !truthy body.username || !truthy body.password || !truthy body.firstName then
    ({ status := 400,
       text := "All fields are required. Missing: " ++
         joinWithComma
           ((if truthy body.username then [] else ["username"]) ++
            (if truthy body.password then [] else ["password"]) ++
            (if truthy body.firstName then [] else ["firstName"])) }, users)
  else
    let username := body.username.getD ""
    let password := body.password.getD ""
    let firstName := body.firstName.getD ""
    let imageUrl := body.imageUrl.getD ""
    let imageGiven : Bool := truthy body.imageUrl && !(jsTrim imageUrl == "")
    if imageGiven && !validUrl imageUrl then
      ({ status := 400, text := "Invalid image URL format" }, users)
    else
      match passwordError password with
      | some error => ({ status := 400, text := error }, users)
      | none =>
        match users.find? (fun u => u.username == username) with
        | some _ =>
          ({ status := 400,
             text := "Username \"" ++ username ++
               "\" already exists. Please choose a different username." }, users)
        | none =>
          ({ status := 200, success := true, text := "User registered successfully" },
            users ++
              [{ id := jsNumToString now
                 username := username
                 password := hashedPassword
                 firstName := firstName
                 imageUrl :=
                   if imageGiven then jsTrim imageUrl
                   else "https://via.placeholder.com/150" }])

/-! ## Search results -/

/-- The integer written by a string of decimal digits. -/
def decimalValue (cs : List Char) : Nat :=
  cs.foldl (fun acc c => acc * 10 + (c.toNat - 0x30)) 0

/-- The least exponent `e`, searched upwards within `fuel` steps, for which
`n / 2 ^ e` fits the 53 bits of a significand. -/
def doubleShift (n : Nat) : Nat → Nat → Option Nat
  | 0, _ => none
  | fuel + 1, e => if n / 2 ^ e < 2 ^ 53 then some e else doubleShift n fuel (e + 1)

/-- The Number nearest to the integer `n`: `n` itself below `2 ^ 53`, otherwise
`n` rounded to 53 significant bits, a tie going to the even significand; `none`
is `Infinity`, the result from `2 ^ 1024 - 2 ^ 970` on. -/
def toDouble (n : Nat) : Option Nat :=
  match doubleShift n 972 0 with
  | none => none
  | some e =>
    let q := n / 2 ^ e
    let r := n % 2 ^ e
    let m :=
      if 2 * r < 2 ^ e then q
      else if 2 ^ e < 2 * r then q + 1
      else if q % 2 = 0 then q else q + 1
    if e = 971 ∧ m = 2 ^ 53 then none else some (m * 2 ^ e)

/-- `parseInt(s)` on a string that starts with a decimal digit: the Number
nearest to the value of the leading digits, as Node computes it. -/
def jsParseInt (cs : List Char) : Option Nat :=
  toDouble (decimalValue (cs.takeWhile isDigitChar))

/-- The decimal with the fewest significant digits, `k` or more, that reads back
as the Number `n`, which has `len` digits: of the two `k`-digit neighbours of `n`
the one that reads back as `n`, the nearer one when both do, the one with the
even last digit when they are equally near. -/
def shortestDecimal (n len : Nat) : Nat → Nat → Nat
  | 0, _ => n
  | fuel + 1, k =>
    let scale := 10 ^ (len - k)
    let lo := n / scale
    let below := lo * scale
    let above := (lo + 1) * scale
    let okBelow := toDouble below == some n
    let okAbove := toDouble above == some n
    if okBelow && okAbove then
      if n - below < above - n then below
      else if above - n < n - below then above
      else if lo % 2 = 0 then below else above
    else if okBelow then below
    else if okAbove then above
    else shortestDecimal n len fuel (k + 1)

/-- `String(x)` for a Number that holds a non-negative integer or `Infinity`:
the decimal numeral below `2 ^ 53`; above, the shortest decimal that reads back
as `x`, written out up to 21 digits and in exponent notation beyond. -/
def numberToString : Option Nat → List Char
  | none => "Infinity".data
  | some n =>
    if n < 2 ^ 53 then Nat.toDigits 10 n
    else
      let digits := Nat.toDigits 10 (shortestDecimal n (Nat.toDigits 10 n).length 17 1)
      if digits.length ≤ 21 then digits
      else
        match (digits.reverse.dropWhile (fun c => c == '0')).reverse with
        | [] => digits
        | d :: rest =>
          (if rest.isEmpty then [d] else d :: '.' :: rest) ++ ['e', '+'] ++
            Nat.toDigits 10 (digits.length - 1)

/-- The test `x > 0` on such a Number. -/
def isPositive : Option Nat → Bool
  | none => true
  | some n => decide (0 < n)

/-- `s.padStart(2, '0')`. -/
def jsPadStart2 (cs : List Char) : List Char :=
  if cs.length < 2 then List.replicate (2 - cs.length) '0' ++ cs else cs

/-- The text after the leftmost `PT` of a string, where the pattern
`/PT(\d+H)?(\d+M)?(\d+S)?/` starts to match; `none` when there is no `PT`. -/
def afterFirstPT : List Char → Option (List Char)
  | [] => none
  | c :: cs =>
    if startsWithChars ['P', 'T'] (c :: cs) then some ((c :: cs).drop 2)
    else afterFirstPT cs

/-- One optional group `(\d+U)?` at the start of `cs`: the captured text, when
digits followed by the unit letter stand there, and the text that follows. -/
def matchUnitGroup (unit : Char) (cs : List Char) : Option (List Char) × List Char :=
  match cs.dropWhile isDigitChar with
  | [] => (none, cs)
  | u :: rest =>
    if !(cs.takeWhile isDigitChar).isEmpty && u == unit then
      (some (cs.takeWhile isDigitChar ++ [u]), rest)
    else (none, cs)

/-- The expression `(match[i] || '').replace(U, '') || '0'`. -/
def unitDigits (unit : Char) (group : Option (List Char)) : List Char :=
  let text := jsReplaceFirstChars [unit] [] (group.getD [])
  if text.isEmpty then ['0'] else text

/-- `formatDuration(duration)` of the search route: `none` is `null`. -/
def formatDuration (duration : Option String) : Option String :=
  match duration with
  | none => none
  | some d =>
    if d == "" then none
    else
      match afterFirstPT d.data with
      | none => none
      | some rest =>
        let g1 := matchUnitGroup 'H' rest
        let g2 := matchUnitGroup 'M' g1.2
        let g3 := matchUnitGroup 'S' g2.2
        let h := jsParseInt (unitDigits 'H' g1.1)
        let m := jsParseInt (unitDigits 'M' g2.1)
        let s := jsParseInt (unitDigits 'S' g3.1)
        if isPositive h then
          some (String.mk (numberToString h ++ [':'] ++ jsPadStart2 (numberToString m) ++
            [':'] ++ jsPadStart2 (numberToString s)))
        else
          some (String.mk (numberToString m ++ [':'] ++ jsPadStart2 (numberToString s)))

/-- `(count / unit).toFixed(1)` for an integer `count` below `2 ^ 53`, which a
Number holds exactly, and `unit` 1000 or 1000000: the numeral with one fraction
digit nearest to the quotient. The division is off by less than the distance of
the quotient to the next exact half, so only when the quotient lies exactly
between two such numerals does its binary value decide; `tieUp` is the choice
of the upper one. -/
def toFixed1 (tieUp : Bool) (count unit : Nat) : String :=
  let q := 10 * count / unit
  let r := 10 * count % unit
  let n := if 2 * r < unit then q else if unit < 2 * r then q + 1 else if tieUp then q + 1 else q
  jsNumToString (n / 10) ++ "." ++ jsNumToString (n % 10)

/-- `formatViewCount(count)` of the search route, for the counts below `2 ^ 53`;
`count` is an integer, the value of `parseInt`. -/
def formatViewCount (tieUp : Nat → Bool) (count : Nat) : String :=
  if count = 0 then "0"
  else if 1000000 ≤ count then toFixed1 (tieUp count) count 1000000 ++ "M"
  else if 1000 ≤ count then toFixed1 (tieUp count) count 1000 ++ "K"
  else jsNumToString count

/-- A decimal numeral: a non-empty string of digits. -/
def isNumeral (cs : List Char) : Bool :=
  !cs.isEmpty && cs.all isDigitChar

/-- One component of a duration text: the numeral followed by the unit letter,
nothing when the component is omitted. -/
def unitText (unit : Char) (numeral : Option (List Char)) : List Char :=
  match numeral with
  | some ds => ds ++ [unit]
  | none => []

/-- The duration text `PT[hH][mM][sS]` whose components are written by the given
numerals. -/
def isoDuration (h m s : Option (List Char)) : String :=
  String.mk (['P', 'T'] ++ unitText 'H' h ++ unitText 'M' m ++ unitText 'S' s)

/-- The number a component stands for: the value of its numeral, 0 when the
component is omitted. -/
def componentValue (numeral : Option (List Char)) : Nat :=
  match numeral with
  | some ds => decimalValue ds
  | none => 0

/-- A number written with at least two digits. -/
def twoDigits (n : Nat) : String :=
  if n < 10 then "0" ++ jsNumToString n else jsNumToString n

/-- The text `h:MM:SS` when `h > 0` and `m:SS` otherwise. -/
def clockText (h m s : Nat) : String :=
  if 0 < h then jsNumToString h ++ ":" ++ twoDigits m ++ ":" ++ twoDigits s
  else jsNumToString m ++ ":" ++ twoDigits s

/-! ## Rows of the playlist page -/

/-- `s.includes(sub)`. -/
def jsIncludesChars (sub : List Char) : List Char → Bool
  | [] => sub.isEmpty
  | c :: cs => startsWithChars sub (c :: cs) || jsIncludesChars sub cs

/-- The test of `filterSongs` for one song, `none` when `song.title` is missing
and `toLowerCase` throws. `toLowerCase` is `String.prototype.toLowerCase`. -/
def songMatches (toLowerCase : String → String) (query : String) (song : Song) :
    Option Bool :=
  match song.title with
  | none => none
  | some title =>
    some (jsIncludesChars (toLowerCase query).data (toLowerCase title).data ||
      (match song.channelTitle with
       | some channelTitle =>
         !(channelTitle == "") &&
           jsIncludesChars (toLowerCase query).data (toLowerCase channelTitle).data
       | none => false))

/-- The list `filterSongs(query)` hands to `displaySongs`, `none` when the filter
throws. `currentSongs` is left as it is. -/
def filterSongs (toLowerCase : String → String) (query : String) :
    List Song → Option (List Song)
  | [] => some []
  | song :: rest =>
    match songMatches toLowerCase query song, filterSongs toLowerCase query rest with
    | some keep, some kept => some (if keep then song :: kept else kept)
    | _, _ => none

/-- Insertion into a list in descending order of `rating || 0`, before the songs
of equal rating. -/
def insertByRating (song : Song) : List Song → List Song
  | [] => [song]
  | b :: rest =>
    if b.rating.getD 0 ≤ song.rating.getD 0 then song :: b :: rest
    else b :: insertByRating song rest

/-- The list `sortSongs('rating')` hands to `displaySongs`: a copy of
`currentSongs` in the stable descending order of `rating || 0`. -/
def sortSongsByRating : List Song → List Song
  | [] => []
  | song :: rest => insertByRating song (sortSongsByRating rest)

/-- The song shown in the row with `data-song-index` `index` after
`displaySongs(songs)`. -/
def displayedSong (songs : List Song) (index : Nat) : Option Song :=
  songs[index]?

/-- The song `currentSongs[index]` on which the play handler, `deleteSong(index)`
and `setRating(index, rating)` act. -/
def handledSong (currentSongs : List Song) (index : Nat) : Option Song :=
  currentSongs[index]?

/-- `toLowerCase` on strings of ASCII characters. -/
def asciiLower (s : String) : String :=
  String.mk (s.data.map Char.toLower)

/-- The server's error text for the rule behind a message of `validatePassword`. -/
def serverTextFor (password : String) (clientMessage : String) : String :=
  if clientMessage = "Password must contain at least 6 characters" then
    "Password must be at least 6 characters (current: " ++
      jsNumToString (jsLength password) ++ ")"
  else if clientMessage = "Password must contain at least one non-alphanumeric character" then
    "Password must contain at least one non-alphanumeric character " ++
      "(e.g., !, @, #, $, etc.)"
  else clientMessage

/-! ## States and inputs for registration, search results and rows -/

/-- The state after alice saves two playlists without id within one millisecond. -/
def sameClockServer : Server :=
  run (emptyServer "/srv/app/server")
    [.replace "alice"
      (some [{ name := some "Gym", songs := some [] }, { name := some "Run", songs := some [] }])
      (fun _ => 1700)]

/-- The state after alice saves a playlist without `songs`. -/
def noSongsServer : Server :=
  run (emptyServer "/srv/app/server")
    [.replace "alice" (some [{ id := some "1", name := some "Gym" }]) (fun _ => 1700)]

/-- The state of `gymServer` on a disk where no write succeeds any more. -/
def readOnlyGymServer : Server :=
  { gymServer with writable := fun _ => false }

/-- A registration request for `username`. -/
def registerBody (username : String) : RegisterBody :=
  { username := some username, password := some "abc12!", firstName := some "Bob" }

/-- Two songs of a playlist page. -/
def alphaSong : Song :=
  { videoId := some "a1", title := some "Alpha", rating := some 1 }

/-- The second song of the page. -/
def betaSong : Song :=
  { videoId := some "b2", title := some "Beta", rating := some 5 }

/-! ## Properties of the routes -/

theorem toDigitsCore_ne_nil (b : Nat) : ∀ (fuel n : Nat) (ds : List Char),
    ds ≠ [] → Nat.toDigitsCore b fuel n ds ≠ [] := by
  intro fuel
  induction fuel with
  | zero => intro n ds h; simpa [Nat.toDigitsCore] using h
  | succ k ih =>
    intro n ds _
    simp only [Nat.toDigitsCore]
    split
    · simp
    · exact ih _ _ (by simp)

theorem jsNumToString_ne_empty (n : Nat) : jsNumToString n ≠ "" := by
  intro h
  have h1 : Nat.toDigits 10 n = [] := by
    have := congrArg String.data h
    simpa [jsNumToString] using this
  unfold Nat.toDigits at h1
  simp only [Nat.toDigitsCore] at h1
  split at h1
  · simp at h1
  · exact toDigitsCore_ne_nil 10 _ _ _ (by simp) h1

theorem truthy_jsNumToString (n : Nat) : truthy (some (jsNumToString n)) = true := by
  simp [truthy, jsNumToString_ne_empty]

@[simp] theorem writeUserPlaylist_dirname (srv : Server) (u : String) (d : PlaylistData) :
    (writeUserPlaylist srv u d).dirname = srv.dirname := by
  unfold writeUserPlaylist
  rfl

@[simp] theorem getUserPlaylistFile_write (srv : Server) (u v : String) (d : PlaylistData) :
    getUserPlaylistFile (writeUserPlaylist srv u d) v = getUserPlaylistFile srv v := by
  unfold getUserPlaylistFile
  rw [writeUserPlaylist_dirname]

@[simp] theorem read_write_same (srv : Server) (u : String) (d : PlaylistData) :
    readUserPlaylist (writeUserPlaylist srv u d) u = d := by
  unfold readUserPlaylist
  rw [getUserPlaylistFile_write]
  simp [writeUserPlaylist]

theorem read_write_other (srv : Server) (u v : String) (d : PlaylistData)
    (h : getUserPlaylistFile srv v ≠ getUserPlaylistFile srv u) :
    readUserPlaylist (writeUserPlaylist srv u d) v = readUserPlaylist srv v := by
  unfold readUserPlaylist
  rw [getUserPlaylistFile_write]
  simp [writeUserPlaylist, h]

theorem hasPlaylists_of_ne_nil (srv : Server) (u : String)
    (h : (readUserPlaylist srv u).playlists ≠ []) : hasPlaylists srv u = true := by
  unfold readUserPlaylist at h
  unfold hasPlaylists
  cases hf : srv.files (getUserPlaylistFile srv u) with
  | none => rw [hf] at h; exact absurd rfl h
  | some d => rfl

theorem hasPlaylists_of_find {srv : Server} {u : String} {pred : Playlist → Bool}
    {p : Playlist} (h : (readUserPlaylist srv u).playlists.find? pred = some p) :
    hasPlaylists srv u = true := by
  apply hasPlaylists_of_ne_nil
  intro hnil
  rw [hnil] at h
  simp at h

theorem read_of_not_hasPlaylists (srv : Server) (u : String)
    (h : hasPlaylists srv u = false) : readUserPlaylist srv u = { playlists := [] } := by
  unfold hasPlaylists at h
  unfold readUserPlaylist
  cases hf : srv.files (getUserPlaylistFile srv u) with
  | none => rfl
  | some d => rw [hf] at h; exact absurd h (by simp)

@[simp] theorem hasPlaylists_write_same (srv : Server) (u : String) (d : PlaylistData) :
    hasPlaylists (writeUserPlaylist srv u d) u = true := by
  unfold hasPlaylists
  rw [getUserPlaylistFile_write]
  simp [writeUserPlaylist]

theorem hasPlaylists_write_of_key_eq (srv : Server) (u v : String) (d : PlaylistData)
    (h : getUserPlaylistFile srv v = getUserPlaylistFile srv u) :
    hasPlaylists (writeUserPlaylist srv u d) v = true := by
  unfold hasPlaylists
  rw [getUserPlaylistFile_write]
  simp [writeUserPlaylist, h]

theorem hasPlaylists_write_other (srv : Server) (u v : String) (d : PlaylistData)
    (h : getUserPlaylistFile srv v ≠ getUserPlaylistFile srv u) :
    hasPlaylists (writeUserPlaylist srv u d) v = hasPlaylists srv v := by
  unfold hasPlaylists
  rw [getUserPlaylistFile_write]
  simp [writeUserPlaylist, h]

@[simp] theorem writeSucceeds_write (srv : Server) (u v : String) (d : PlaylistData) :
    writeSucceeds (writeUserPlaylist srv u d) v = writeSucceeds srv v := by
  unfold writeSucceeds
  rw [getUserPlaylistFile_write]
  rfl

theorem find?_modifyFirst (pred : Playlist → Bool) (f : Playlist → Playlist)
    (hf : ∀ p, pred p = true → pred (f p) = true) (l : List Playlist) :
    (modifyFirst pred f l).find? pred = (l.find? pred).map f := by
  induction l with
  | nil => rfl
  | cons p ps ih =>
    by_cases hp : pred p = true
    · simp [modifyFirst, hp, List.find?, hf p hp]
    · simp [modifyFirst, hp, List.find?, ih]

theorem length_modifyFirst (pred : Playlist → Bool) (f : Playlist → Playlist)
    (l : List Playlist) : (modifyFirst pred f l).length = l.length := by
  induction l with
  | nil => rfl
  | cons p ps ih => by_cases hp : pred p = true <;> simp [modifyFirst, hp, ih]

theorem find?_pred_true (pred : Playlist → Bool) {l : List Playlist} {p : Playlist}
    (h : l.find? pred = some p) : pred p = true := by
  have := List.find?_some h
  exact this

theorem addItem_success_eq (srv : Server) (username playlistId : String) (item : Song)
    (now : Nat) (playlist : Playlist) (songs : List Song)
    (hid : truthy item.videoId = true)
    (hfind : (readUserPlaylist srv username).playlists.find?
      (fun p => p.id == some playlistId) = some playlist)
    (hown : playlist.userId = some username)
    (hsongs : playlist.songs = some songs)
    (hnew : ∀ s ∈ songs, s.videoId ≠ item.videoId)
    (hwrite : writeSucceeds srv username = true) :
    addItem srv username playlistId item now =
      ({ status := 200, success := true, text := "Item added to playlist successfully",
         playlist := some { playlist with
           songs := some (songs ++ [{ item with addedAt := some (.millis now) }]) } },
        writeUserPlaylist srv username
          { playlists := modifyFirst (fun p => p.id == some playlistId)
              (fun _ => { playlist with
                songs := some (songs ++ [{ item with addedAt := some (.millis now) }]) })
              (readUserPlaylist srv username).playlists }) := by
  have hany : songs.any (fun s => s.videoId == item.videoId) = false := by
    rw [List.any_eq_false]
    intro s hs
    simpa using hnew s hs
  unfold addItem
  simp only [hid, hfind, hown, hsongs, hany, hasPlaylists_of_find hfind, hwrite]
  simp

theorem addItem_stored (srv : Server) (username playlistId : String) (item : Song)
    (now : Nat) (playlist : Playlist) (songs : List Song)
    (hid : truthy item.videoId = true)
    (hfind : (readUserPlaylist srv username).playlists.find?
      (fun p => p.id == some playlistId) = some playlist)
    (hown : playlist.userId = some username)
    (hsongs : playlist.songs = some songs)
    (hnew : ∀ s ∈ songs, s.videoId ≠ item.videoId)
    (hwrite : writeSucceeds srv username = true) :
    (readUserPlaylist (addItem srv username playlistId item now).2 username).playlists =
      modifyFirst (fun p => p.id == some playlistId)
        (fun _ => { playlist with
          songs := some (songs ++ [{ item with addedAt := some (.millis now) }]) })
        (readUserPlaylist srv username).playlists := by
  rw [addItem_success_eq srv username playlistId item now playlist songs hid hfind hown
    hsongs hnew hwrite]
  simp only [read_write_same]

theorem addItem_stored_find (srv : Server) (username playlistId : String) (item : Song)
    (now : Nat) (playlist : Playlist) (songs : List Song)
    (hid : truthy item.videoId = true)
    (hfind : (readUserPlaylist srv username).playlists.find?
      (fun p => p.id == some playlistId) = some playlist)
    (hown : playlist.userId = some username)
    (hsongs : playlist.songs = some songs)
    (hnew : ∀ s ∈ songs, s.videoId ≠ item.videoId)
    (hwrite : writeSucceeds srv username = true) :
    (readUserPlaylist (addItem srv username playlistId item now).2 username).playlists.find?
        (fun p => p.id == some playlistId) =
      some { playlist with
        songs := some (songs ++ [{ item with addedAt := some (.millis now) }]) } := by
  have hpid : (playlist.id == some playlistId) = true :=
    find?_pred_true (fun p => p.id == some playlistId) hfind
  rw [addItem_stored srv username playlistId item now playlist songs hid hfind hown hsongs
    hnew hwrite, find?_modifyFirst _ _ (fun _ _ => hpid), hfind]
  rfl

/-- Claim C1 as amended. When the item carries a non-empty `videoId`, the first
playlist of the caller's collection with the requested id is owned by the caller
and has a song sequence in which no song carries that `videoId`, and the
document can be written, then `addItem` answers with success and the updated
playlist, stores the collection in which that playlist has the item appended as
its last song with `addedAt` set to the clock reading `now` that the route takes
(every other member of the item as supplied), and `listPlaylists` right
afterwards shows that playlist with exactly one song of that `videoId`, whose
`addedAt` is that reading. -/
theorem addItem_appends_item (srv : Server) (username playlistId : String) (item : Song)
    (now : Nat) (playlist : Playlist) (songs : List Song)
    (hid : truthy item.videoId = true)
    (hfind : (readUserPlaylist srv username).playlists.find?
      (fun p => p.id == some playlistId) = some playlist)
    (hown : playlist.userId = some username)
    (hsongs : playlist.songs = some songs)
    (hnew : ∀ s ∈ songs, s.videoId ≠ item.videoId)
    (hwrite : writeSucceeds srv username = true) :
    (addItem srv username playlistId item now).1.kind = Outcome.success ∧
    (addItem srv username playlistId item now).1.playlist =
      some { playlist with
        songs := some (songs ++ [{ item with addedAt := some (.millis now) }]) } ∧
    (readUserPlaylist (addItem srv username playlistId item now).2 username).playlists =
      modifyFirst (fun p => p.id == some playlistId)
        (fun _ => { playlist with
          songs := some (songs ++ [{ item with addedAt := some (.millis now) }]) })
        (readUserPlaylist srv username).playlists ∧
    (readUserPlaylist (addItem srv username playlistId item now).2 username).playlists.find?
        (fun p => p.id == some playlistId) =
      some { playlist with
        songs := some (songs ++ [{ item with addedAt := some (.millis now) }]) } ∧
    ∃ shown shownPlaylist shownSongs,
      (listPlaylists (addItem srv username playlistId item now).2 username).1.playlists =
        some shown ∧
      shown.find? (fun p => p.id == some playlistId) = some shownPlaylist ∧
      shownPlaylist.songs = some shownSongs ∧
      shownSongs.getLast? = some { item with addedAt := some (.millis now) } ∧
      shownSongs.countP (fun s => s.videoId == item.videoId) = 1 ∧
      ∀ s ∈ shownSongs, s.videoId = item.videoId →
        s = { item with addedAt := some (.millis now) } := by
  have hstored := addItem_stored srv username playlistId item now playlist songs hid hfind
    hown hsongs hnew hwrite
  have hfound := addItem_stored_find srv username playlistId item now playlist songs hid
    hfind hown hsongs hnew hwrite
  refine ⟨?_, ?_, hstored, hfound, ?_⟩
  · rw [addItem_success_eq srv username playlistId item now playlist songs hid hfind hown
      hsongs hnew hwrite]
    rfl
  · rw [addItem_success_eq srv username playlistId item now playlist songs hid hfind hown
      hsongs hnew hwrite]
  · refine ⟨_, { playlist with
        songs := some (songs ++ [{ item with addedAt := some (.millis now) }]) },
      songs ++ [{ item with addedAt := some (.millis now) }], rfl, ?_, rfl, ?_, ?_, ?_⟩
    · rw [List.find?_map]
      have : ((fun p : Playlist => p.id == some playlistId) ∘ fun playlist : Playlist =>
          { playlist with
            userId := if truthy playlist.userId then playlist.userId else some username }) =
          fun p => p.id == some playlistId := by
        funext p; rfl
      rw [this, hfound]
      simp only [Option.map_some', hown]
      by_cases hu : truthy (some username) = true
      · simp [hu]
      · simp [hu]
    · simp
    · rw [List.countP_append]
      have h0 : List.countP (fun s => s.videoId == item.videoId) songs = 0 := by
        rw [List.countP_eq_zero]
        intro s hs
        simpa using hnew s hs
      rw [h0]
      simp [List.countP_cons]
    · intro s hs hv
      rcases List.mem_append.mp hs with h | h
      · exact absurd hv (hnew s h)
      · rw [List.mem_singleton] at h
        exact h

theorem addItem_success_inv (srv : Server) (username playlistId : String) (item : Song)
    (now : Nat) (hok : (addItem srv username playlistId item now).1.kind = Outcome.success) :
    ∃ playlist songs, truthy item.videoId = true ∧
      (readUserPlaylist srv username).playlists.find?
        (fun p => p.id == some playlistId) = some playlist ∧
      playlist.userId = some username ∧ playlist.songs = some songs ∧
      (∀ s ∈ songs, s.videoId ≠ item.videoId) ∧ writeSucceeds srv username = true := by
  unfold addItem at hok
  by_cases hid : truthy item.videoId = true
  · by_cases hhas : hasPlaylists srv username = true
    · simp only [hid, hhas] at hok
      cases hfind : (readUserPlaylist srv username).playlists.find?
          (fun p => p.id == some playlistId) with
      | none => simp [hfind, Response.kind] at hok
      | some playlist =>
        simp only [hfind] at hok
        by_cases hown : playlist.userId = some username
        · cases hsongs : playlist.songs with
          | none => simp [hown, hsongs, Response.kind] at hok
          | some songs =>
            by_cases hany : songs.any (fun s => s.videoId == item.videoId) = true
            · simp [hown, hsongs, hany, Response.kind] at hok
            · by_cases hwrite : writeSucceeds srv username = true
              · refine ⟨playlist, songs, hid, rfl, hown, hsongs, ?_, hwrite⟩
                intro s hs hv
                apply hany
                rw [List.any_eq_true]
                exact ⟨s, hs, by simp [hv]⟩
              · simp [hown, hsongs, hany, hwrite, Response.kind] at hok
        · simp [hown, Response.kind] at hok
    · simp [hid, hhas, Response.kind] at hok
  · simp [hid, Response.kind] at hok

/-- Claim C2. After a successful `addItem`, a second `addItem` on the same
playlist with an item of the same `videoId` answers 400 "Item already exists in
playlist" (Conflict) and leaves the server, hence the stored collection and the
item count of the playlist, exactly as they were before the second call. -/
theorem addItem_twice_conflict (srv : Server) (username playlistId : String)
    (item item2 : Song) (now now2 : Nat)
    (hok : (addItem srv username playlistId item now).1.kind = Outcome.success)
    (hsame : item2.videoId = item.videoId) :
    (addItem (addItem srv username playlistId item now).2 username playlistId item2 now2).1 =
      { status := 400, text := "Item already exists in playlist" } ∧
    (addItem (addItem srv username playlistId item now).2 username playlistId item2
      now2).1.kind = Outcome.conflict ∧
    (addItem (addItem srv username playlistId item now).2 username playlistId item2 now2).2 =
      (addItem srv username playlistId item now).2 ∧
    readUserPlaylist
        (addItem (addItem srv username playlistId item now).2 username playlistId item2
          now2).2 username =
      readUserPlaylist (addItem srv username playlistId item now).2 username := by
  obtain ⟨playlist, songs, hid, hfind, hown, hsongs, hnew, hwrite⟩ :=
    addItem_success_inv srv username playlistId item now hok
  have hfound := addItem_stored_find srv username playlistId item now playlist songs hid
    hfind hown hsongs hnew hwrite
  have hkey : addItem (addItem srv username playlistId item now).2 username playlistId item2
      now2 = ({ status := 400, text := "Item already exists in playlist" },
        (addItem srv username playlistId item now).2) := by
    generalize (addItem srv username playlistId item now).2 = srv1 at hfound ⊢
    unfold addItem
    have hid2 : truthy item2.videoId = true := by rw [hsame]; exact hid
    simp only [hid2, hfound, hown, hasPlaylists_of_find hfound]
    simp [hsame]
  rw [hkey]
  exact ⟨rfl, rfl, rfl, rfl⟩

theorem jsTrim_of_all_whitespace (name : String)
    (h : ∀ c ∈ name.data, isJsWhiteSpace c = true) : jsTrim name = "" := by
  have h1 : name.data.dropWhile isJsWhiteSpace = [] := by
    rw [List.dropWhile_eq_nil_iff]
    exact h
  unfold jsTrim jsTrimChars
  rw [h1]
  rfl

theorem stampPlaylists_none_of_empty_name (username : String) (clock : Nat → Nat) :
    ∀ (l : List Playlist) (i : Nat), (∃ p ∈ l, nameIsEmpty p = true) →
      stampPlaylists username clock i l = none := by
  intro l
  induction l with
  | nil => intro i h; simp at h
  | cons q qs ih =>
    intro i h
    unfold stampPlaylists
    by_cases hq : nameIsEmpty q = true
    · simp [hq]
    · have hrest : ∃ p ∈ qs, nameIsEmpty p = true := by
        obtain ⟨p, hp, hpe⟩ := h
        rcases List.mem_cons.mp hp with rfl | hmem
        · exact absurd hpe hq
        · exact ⟨p, hmem, hpe⟩
      simp [hq, ih (i + 1) hrest]

theorem stampPlaylists_some_of_valid (username : String) (clock : Nat → Nat) :
    ∀ (l : List Playlist) (i : Nat), (∀ p ∈ l, nameIsEmpty p = false) →
      ∃ stamped, stampPlaylists username clock i l = some stamped := by
  intro l
  induction l with
  | nil => intro i _; exact ⟨[], rfl⟩
  | cons q qs ih =>
    intro i h
    obtain ⟨rest, hrest⟩ := ih (i + 1) (fun p hp => h p (List.mem_cons_of_mem _ hp))
    have hq : nameIsEmpty q = false := h q (List.mem_cons_self _ _)
    unfold stampPlaylists
    simp [hq, hrest]

theorem stampPlaylists_spec (username : String) (clock : Nat → Nat) :
    ∀ (l : List Playlist) (i : Nat) (stamped : List Playlist),
      stampPlaylists username clock i l = some stamped →
      stamped.length = l.length ∧
      ∀ (k : Nat) (p : Playlist), l[k]? = some p →
        stamped[k]? = some ({ p with
          userId := some username
          id := if truthy p.id then p.id else some (jsNumToString (clock (i + k))) } :
            Playlist) := by
  intro l
  induction l with
  | nil =>
    intro i stamped h
    simp [stampPlaylists] at h
    subst h
    simp
  | cons q qs ih =>
    intro i stamped h
    unfold stampPlaylists at h
    by_cases hq : nameIsEmpty q = true
    · simp [hq] at h
    · simp only [hq] at h
      cases hrest : stampPlaylists username clock (i + 1) qs with
      | none => simp [hrest] at h
      | some rest =>
        simp only [hrest] at h
        have h2 := ih (i + 1) rest hrest
        simp at h
        subst h
        refine ⟨by simp [h2.1], ?_⟩
        intro k p hk
        cases k with
        | zero =>
          simp at hk
          subst hk
          simp
        | succ k =>
          simp at hk
          have := h2.2 k p hk
          simp only [List.getElem?_cons_succ]
          rw [this]
          have e : i + 1 + k = i + (k + 1) := by omega
          rw [e]

theorem nameIsEmpty_of_blank (p : Playlist)
    (h : p.name = none ∨ ∃ name, p.name = some name ∧
      ∀ c ∈ name.data, isJsWhiteSpace c = true) : nameIsEmpty p = true := by
  unfold nameIsEmpty
  rcases h with h | ⟨name, hn, hall⟩
  · simp [h]
  · simp [hn, jsTrim_of_all_whitespace name hall]

/-- Claim C6. When some playlist of the batch, wherever it sits, has a missing,
empty or whitespace-only name, `replaceAll` answers 400 "Playlist name cannot be
empty" (ValidationError) and leaves the server, hence every stored collection,
exactly as it was. -/
theorem replaceAll_rejects_blank_name (srv : Server) (username : String)
    (batch : List Playlist) (clock : Nat → Nat) (bad : Playlist) (hmem : bad ∈ batch)
    (hbad : bad.name = none ∨ ∃ name, bad.name = some name ∧
      ∀ c ∈ name.data, isJsWhiteSpace c = true) :
    (replaceAll srv username (some batch) clock).1 =
      { status := 400, text := "Playlist name cannot be empty" } ∧
    (replaceAll srv username (some batch) clock).1.kind = Outcome.validationError ∧
    (replaceAll srv username (some batch) clock).2 = srv ∧
    ∀ owner, readUserPlaylist (replaceAll srv username (some batch) clock).2 owner =
      readUserPlaylist srv owner := by
  have hnone : stampPlaylists username clock 0 batch = none :=
    stampPlaylists_none_of_empty_name username clock batch 0
      ⟨bad, hmem, nameIsEmpty_of_blank bad hbad⟩
  have hkey : replaceAll srv username (some batch) clock =
      ({ status := 400, text := "Playlist name cannot be empty" }, srv) := by
    unfold replaceAll
    simp only [hnone]
  rw [hkey]
  exact ⟨rfl, rfl, rfl, fun _ => rfl⟩

theorem replaceAll_eq_of_stamped (srv : Server) (username : String)
    (batch stamped : List Playlist) (clock : Nat → Nat)
    (hst : stampPlaylists username clock 0 batch = some stamped)
    (hwrite : writeSucceeds srv username = true) :
    replaceAll srv username (some batch) clock =
      ({ status := 200, success := true, text := "Playlists saved successfully" },
        writeUserPlaylist srv username { playlists := stamped }) := by
  unfold replaceAll
  simp only [hst, hwrite]
  rfl

theorem replaceAll_success_inv (srv : Server) (username : String)
    (batch : List Playlist) (clock : Nat → Nat)
    (hok : (replaceAll srv username (some batch) clock).1.kind = Outcome.success) :
    (∃ stamped, stampPlaylists username clock 0 batch = some stamped) ∧
      writeSucceeds srv username = true := by
  unfold replaceAll at hok
  cases hst : stampPlaylists username clock 0 batch with
  | none => simp [hst, Response.kind] at hok
  | some stamped =>
    by_cases hwrite : writeSucceeds srv username = true
    · exact ⟨⟨stamped, rfl⟩, hwrite⟩
    · simp [hst, hwrite, Response.kind] at hok

/-- Claim C7. For a batch in which every playlist passes the name check,
`replaceAll` succeeds exactly when the write does, and a successful
`replaceAll` stores a collection of the same length whose playlist at each
position has the caller as `userId` whatever was supplied, a non-empty `id`
(the supplied one when non-empty, otherwise the decimal clock reading of that
loop iteration), and the supplied `name` and `songs`. -/
theorem replaceAll_stamps_owner_and_id (srv : Server) (username : String)
    (batch : List Playlist) (clock : Nat → Nat)
    (hvalid : ∀ p ∈ batch, nameIsEmpty p = false) :
    ((replaceAll srv username (some batch) clock).1.kind = Outcome.success ↔
      writeSucceeds srv username = true) ∧
    ((replaceAll srv username (some batch) clock).1.kind = Outcome.success →
      (readUserPlaylist (replaceAll srv username (some batch) clock).2
        username).playlists.length = batch.length ∧
      ∀ (k : Nat) (p : Playlist), batch[k]? = some p →
        ∃ q, (readUserPlaylist (replaceAll srv username (some batch) clock).2
            username).playlists[k]? = some q ∧
          q.userId = some username ∧ truthy q.id = true ∧
          (truthy p.id = true → q.id = p.id) ∧
          (truthy p.id = false → q.id = some (jsNumToString (clock k))) ∧
          q.name = p.name ∧ q.songs = p.songs) := by
  obtain ⟨stamped, hst⟩ := stampPlaylists_some_of_valid username clock batch 0 hvalid
  have hspec := stampPlaylists_spec username clock batch 0 stamped hst
  refine ⟨⟨fun hok => (replaceAll_success_inv srv username batch clock hok).2,
    fun hwrite => by
      rw [replaceAll_eq_of_stamped srv username batch stamped clock hst hwrite]
      rfl⟩, fun hok => ?_⟩
  have hwrite := (replaceAll_success_inv srv username batch clock hok).2
  rw [replaceAll_eq_of_stamped srv username batch stamped clock hst hwrite]
  refine ⟨?_, ?_⟩
  · simp only [read_write_same]
    exact hspec.1
  · intro k p hk
    simp only [read_write_same]
    refine ⟨_, hspec.2 k p hk, rfl, ?_, ?_, ?_, rfl, rfl⟩
    · by_cases hp : truthy p.id = true
      · simp [hp]
      · simp [hp, truthy_jsNumToString]
    · intro hp
      simp [hp]
    · intro hp
      simp [hp]

/-- Claim C8. After a successful `replaceAll` of batch `X`, `listPlaylists` returns
a list of the same length whose playlist at each position is the one of `X` with
`userId` set to the caller and a missing `id` replaced by the generated one;
`name` and `songs` are those of `X`, in the order of `X`. -/
theorem replaceAll_then_list_roundtrip (srv : Server) (username : String)
    (batch : List Playlist) (clock : Nat → Nat)
    (hok : (replaceAll srv username (some batch) clock).1.kind = Outcome.success) :
    ∃ shown,
      (listPlaylists (replaceAll srv username (some batch) clock).2 username).1.playlists =
        some shown ∧
      shown.length = batch.length ∧
      ∀ (k : Nat) (p : Playlist), batch[k]? = some p →
        shown[k]? = some ({ p with
          userId := some username
          id := if truthy p.id then p.id else some (jsNumToString (clock k)) } :
            Playlist) := by
  cases hst : stampPlaylists username clock 0 batch with
  | none =>
    unfold replaceAll at hok
    simp [hst, Response.kind] at hok
  | some stamped =>
    have hspec := stampPlaylists_spec username clock batch 0 stamped hst
    have hkey := replaceAll_eq_of_stamped srv username batch stamped clock hst
      (replaceAll_success_inv srv username batch clock hok).2
    rw [hkey]
    unfold listPlaylists
    simp only [read_write_same]
    refine ⟨_, rfl, by simp [hspec.1], ?_⟩
    intro k p hk
    rw [List.getElem?_map, hspec.2 k p hk]
    simp only [Option.map_some', Nat.zero_add]
    by_cases hu : truthy (some username) = true <;> simp [hu]

theorem deletePlaylist_filter_eq (username playlistId : String) (l : List Playlist) :
    l.filter (fun p => p.id != some playlistId || p.userId != some username) =
      l.filter (fun p => !deleteMatches username playlistId p) := by
  apply List.filter_congr
  intro p _
  unfold deleteMatches
  cases h1 : (p.id == some playlistId) <;> cases h2 : (p.userId == some username) <;>
    simp [bne, h1, h2]

theorem filter_length_eq_iff (f : Playlist → Bool) (l : List Playlist) :
    (l.filter (fun p => !f p)).length = l.length ↔ ∀ p ∈ l, f p = false := by
  rw [List.filter_length_eq_length]
  simp

theorem filter_not_length_add_countP (f : Playlist → Bool) (l : List Playlist) :
    (l.filter (fun p => !f p)).length + l.countP f = l.length := by
  induction l with
  | nil => rfl
  | cons p ps ih =>
    by_cases hp : f p = true
    · simp [List.filter_cons, List.countP_cons, hp]
      omega
    · simp [List.filter_cons, List.countP_cons, hp]
      omega

theorem deletePlaylist_eq_of_no_match (srv : Server) (username playlistId : String)
    (hhas : hasPlaylists srv username = true)
    (h : ∀ p ∈ (readUserPlaylist srv username).playlists,
      deleteMatches username playlistId p = false) :
    deletePlaylist srv username playlistId =
      ({ status := 404, text := "Playlist not found or does not belong to user" }, srv) := by
  unfold deletePlaylist
  simp only [deletePlaylist_filter_eq, hhas]
  rw [if_neg (by simp), if_pos ((filter_length_eq_iff _ _).mpr h)]

theorem deletePlaylist_eq_of_match (srv : Server) (username playlistId : String)
    (hwrite : writeSucceeds srv username = true)
    (h : ∃ p ∈ (readUserPlaylist srv username).playlists,
      deleteMatches username playlistId p = true) :
    deletePlaylist srv username playlistId =
      ({ status := 200, success := true, text := "Playlist deleted successfully" },
        writeUserPlaylist srv username
          { playlists := (readUserPlaylist srv username).playlists.filter
              (fun p => !deleteMatches username playlistId p) }) := by
  have hhas : hasPlaylists srv username = true := by
    obtain ⟨p, hp, _⟩ := h
    exact hasPlaylists_of_ne_nil srv username (List.ne_nil_of_mem hp)
  unfold deletePlaylist
  simp only [deletePlaylist_filter_eq, hhas, hwrite]
  rw [if_neg (by simp), if_neg, if_neg (by simp)]
  intro hlen
  obtain ⟨p, hp, hm⟩ := h
  have := (filter_length_eq_iff _ _).mp hlen p hp
  rw [hm] at this
  exact Bool.noConfusion this

theorem deleteMatches_iff (username playlistId : String) (p : Playlist) :
    deleteMatches username playlistId p = true ↔
      p.id = some playlistId ∧ p.userId = some username := by
  simp [deleteMatches]

/-- Claim C9 as amended. When the caller's document is absent or holds a
collection and can be written, `deletePlaylist` succeeds exactly when the caller's
collection has a playlist with the given id and the caller as `userId`; on
success the stored collection is the previous one without the playlists that
have that id and that `userId`, the others unchanged and in order, and exactly
one playlist is gone when exactly one matched; otherwise the answer is NotFound
and nothing is written. -/
theorem deletePlaylist_removes_matching (srv : Server) (username playlistId : String)
    (hhas : hasPlaylists srv username = true)
    (hwrite : writeSucceeds srv username = true) :
    ((deletePlaylist srv username playlistId).1.kind = Outcome.success ↔
      ∃ p ∈ (readUserPlaylist srv username).playlists,
        p.id = some playlistId ∧ p.userId = some username) ∧
    ((deletePlaylist srv username playlistId).1.kind = Outcome.success →
      (readUserPlaylist (deletePlaylist srv username playlistId).2 username).playlists =
        (readUserPlaylist srv username).playlists.filter
          (fun p => !deleteMatches username playlistId p) ∧
      ((readUserPlaylist srv username).playlists.countP
          (deleteMatches username playlistId) = 1 →
        (readUserPlaylist (deletePlaylist srv username playlistId).2
          username).playlists.length + 1 =
          (readUserPlaylist srv username).playlists.length)) ∧
    ((deletePlaylist srv username playlistId).1.kind ≠ Outcome.success →
      (deletePlaylist srv username playlistId).1.kind = Outcome.notFound ∧
      (deletePlaylist srv username playlistId).2 = srv) := by
  by_cases h : ∃ p ∈ (readUserPlaylist srv username).playlists,
      deleteMatches username playlistId p = true
  · have hex : ∃ p ∈ (readUserPlaylist srv username).playlists,
        p.id = some playlistId ∧ p.userId = some username := by
      obtain ⟨p, hp, hm⟩ := h
      exact ⟨p, hp, (deleteMatches_iff _ _ _).mp hm⟩
    rw [deletePlaylist_eq_of_match srv username playlistId hwrite h]
    refine ⟨⟨fun _ => hex, fun _ => rfl⟩, fun _ => ⟨?_, ?_⟩, fun hne => absurd rfl hne⟩
    · simp only [read_write_same]
    · intro hone
      simp only [read_write_same]
      have := filter_not_length_add_countP (deleteMatches username playlistId)
        (readUserPlaylist srv username).playlists
      omega
  · have hno : ∀ p ∈ (readUserPlaylist srv username).playlists,
        deleteMatches username playlistId p = false := by
      intro p hp
      cases hm : deleteMatches username playlistId p
      · rfl
      · exact absurd ⟨p, hp, hm⟩ h
    rw [deletePlaylist_eq_of_no_match srv username playlistId hhas hno]
    refine ⟨⟨fun hk => ?_, fun hex => ?_⟩, fun hk => ?_, fun _ => ⟨rfl, rfl⟩⟩
    · exact absurd hk (by simp [Response.kind])
    · obtain ⟨p, hp, hm⟩ := hex
      exact absurd ⟨p, hp, (deleteMatches_iff _ _ _).mpr hm⟩ h
    · exact absurd hk (by simp [Response.kind])

/-- Claim C10 as amended. For a caller whose document is absent or holds a
collection, the answer of `deletePlaylist` on a server where no playlist has the
id at all equals its answer on a server where playlists with that id exist but
none of them has the caller as `userId`: 404 with the same message, and in both
cases the server is left as it was. -/
theorem deletePlaylist_notFound_uniform (srv1 srv2 : Server) (caller playlistId : String)
    (hhas1 : hasPlaylists srv1 caller = true)
    (hhas2 : hasPlaylists srv2 caller = true)
    (habsent : ∀ owner, ∀ p ∈ (readUserPlaylist srv1 owner).playlists,
      p.id ≠ some playlistId)
    (_hexists : ∃ owner, ∃ p ∈ (readUserPlaylist srv2 owner).playlists,
      p.id = some playlistId)
    (hforeign : ∀ owner, ∀ p ∈ (readUserPlaylist srv2 owner).playlists,
      p.id = some playlistId → p.userId ≠ some caller) :
    (deletePlaylist srv1 caller playlistId).1 = (deletePlaylist srv2 caller playlistId).1 ∧
    (deletePlaylist srv2 caller playlistId).1 =
      { status := 404, text := "Playlist not found or does not belong to user" } ∧
    (deletePlaylist srv2 caller playlistId).1.kind = Outcome.notFound ∧
    (deletePlaylist srv1 caller playlistId).2 = srv1 ∧
    (deletePlaylist srv2 caller playlistId).2 = srv2 := by
  have h1 : ∀ p ∈ (readUserPlaylist srv1 caller).playlists,
      deleteMatches caller playlistId p = false := by
    intro p hp
    cases hm : deleteMatches caller playlistId p
    · rfl
    · exact absurd ((deleteMatches_iff _ _ _).mp hm).1 (habsent caller p hp)
  have h2 : ∀ p ∈ (readUserPlaylist srv2 caller).playlists,
      deleteMatches caller playlistId p = false := by
    intro p hp
    cases hm : deleteMatches caller playlistId p
    · rfl
    · have := (deleteMatches_iff _ _ _).mp hm
      exact absurd this.2 (hforeign caller p hp this.1)
  rw [deletePlaylist_eq_of_no_match srv1 caller playlistId hhas1 h1,
    deletePlaylist_eq_of_no_match srv2 caller playlistId hhas2 h2]
  exact ⟨rfl, rfl, rfl, rfl, rfl⟩

theorem addItem_server (srv : Server) (username playlistId : String) (item : Song)
    (now : Nat) :
    (addItem srv username playlistId item now).2 = srv ∨
      ∃ d, (addItem srv username playlistId item now).2 = writeUserPlaylist srv username d := by
  unfold addItem
  dsimp only
  repeat' split
  all_goals first
    | exact Or.inl (by with_reducible rfl)
    | exact Or.inr ⟨_, by with_reducible rfl⟩

theorem removeItem_server (srv : Server) (username playlistId videoId : String) :
    (removeItem srv username playlistId videoId).2 = srv ∨
      ∃ d, (removeItem srv username playlistId videoId).2 =
        writeUserPlaylist srv username d := by
  unfold removeItem
  dsimp only
  repeat' split
  all_goals first
    | exact Or.inl (by with_reducible rfl)
    | exact Or.inr ⟨_, by with_reducible rfl⟩

theorem deletePlaylist_server (srv : Server) (username playlistId : String) :
    (deletePlaylist srv username playlistId).2 = srv ∨
      ∃ d, (deletePlaylist srv username playlistId).2 = writeUserPlaylist srv username d := by
  unfold deletePlaylist
  dsimp only
  repeat' split
  all_goals first
    | exact Or.inl (by with_reducible rfl)
    | exact Or.inr ⟨_, by with_reducible rfl⟩

theorem read_other_of_server_cases (srv srv2 : Server) (a b : String)
    (hkey : getUserPlaylistFile srv b ≠ getUserPlaylistFile srv a)
    (h : srv2 = srv ∨ ∃ d, srv2 = writeUserPlaylist srv a d) :
    readUserPlaylist srv2 b = readUserPlaylist srv b := by
  rcases h with h | ⟨d, h⟩
  · rw [h]
  · rw [h, read_write_other srv a b d hkey]

theorem find?_id_eq {l : List Playlist} {playlistId : String} {p : Playlist}
    (h : l.find? (fun p => p.id == some playlistId) = some p) :
    p ∈ l ∧ p.id = some playlistId := by
  refine ⟨List.mem_of_find?_eq_some h, ?_⟩
  have := find?_pred_true (fun p => p.id == some playlistId) h
  simpa using this

theorem addItem_foreign (srv : Server) (a playlistId : String) (item : Song) (now : Nat)
    (hhas : hasPlaylists srv a = true)
    (hforeign : ∀ p ∈ (readUserPlaylist srv a).playlists,
      p.id = some playlistId → p.userId ≠ some a) :
    (addItem srv a playlistId item now).2 = srv ∧
    (truthy item.videoId = true →
      (addItem srv a playlistId item now).1.kind = Outcome.notFound ∨
      (addItem srv a playlistId item now).1.kind = Outcome.forbidden) ∧
    (truthy item.videoId = false →
      (addItem srv a playlistId item now).1.kind = Outcome.validationError) := by
  unfold addItem
  by_cases hid : truthy item.videoId = true
  · simp only [hid, hhas]
    cases hfind : (readUserPlaylist srv a).playlists.find?
        (fun p => p.id == some playlistId) with
    | none => simp [Response.kind]
    | some playlist =>
      have hp := find?_id_eq hfind
      have hne := hforeign playlist hp.1 hp.2
      simp [hne, Response.kind]
  · simp [hid, Response.kind]

theorem removeItem_foreign (srv : Server) (a playlistId videoId : String)
    (hhas : hasPlaylists srv a = true)
    (hforeign : ∀ p ∈ (readUserPlaylist srv a).playlists,
      p.id = some playlistId → p.userId ≠ some a) :
    (removeItem srv a playlistId videoId).2 = srv ∧
    ((removeItem srv a playlistId videoId).1.kind = Outcome.notFound ∨
      (removeItem srv a playlistId videoId).1.kind = Outcome.forbidden) := by
  unfold removeItem
  simp only [hhas]
  cases hfind : (readUserPlaylist srv a).playlists.find?
      (fun p => p.id == some playlistId) with
  | none => simp [Response.kind]
  | some playlist =>
    have hp := find?_id_eq hfind
    have hne := hforeign playlist hp.1 hp.2
    simp [hne, Response.kind]

/-- Claim C5 as amended. For owners `a` and `b` stored under different files, no
`deletePlaylist`, `addItem` or `removeItem` call of `a` changes the collection
stored for `b`. When moreover the document of `a` is absent or holds a
collection and the id names no playlist owned by `a` in the collection of `a`,
`deletePlaylist` answers NotFound, `removeItem` NotFound or Forbidden, `addItem`
NotFound or Forbidden for an item with a `videoId` and ValidationError for one
without, and none of the three writes anything. -/
theorem other_owner_isolated (srv : Server) (a b playlistId videoId : String) (item : Song)
    (now : Nat) (hkey : getUserPlaylistFile srv b ≠ getUserPlaylistFile srv a) :
    readUserPlaylist (deletePlaylist srv a playlistId).2 b = readUserPlaylist srv b ∧
    readUserPlaylist (addItem srv a playlistId item now).2 b = readUserPlaylist srv b ∧
    readUserPlaylist (removeItem srv a playlistId videoId).2 b = readUserPlaylist srv b ∧
    (hasPlaylists srv a = true →
      (∀ p ∈ (readUserPlaylist srv a).playlists,
        p.id = some playlistId → p.userId ≠ some a) →
      (deletePlaylist srv a playlistId).1.kind = Outcome.notFound ∧
      ((removeItem srv a playlistId videoId).1.kind = Outcome.notFound ∨
        (removeItem srv a playlistId videoId).1.kind = Outcome.forbidden) ∧
      (truthy item.videoId = true →
        (addItem srv a playlistId item now).1.kind = Outcome.notFound ∨
        (addItem srv a playlistId item now).1.kind = Outcome.forbidden) ∧
      (truthy item.videoId = false →
        (addItem srv a playlistId item now).1.kind = Outcome.validationError) ∧
      (deletePlaylist srv a playlistId).2 = srv ∧
      (removeItem srv a playlistId videoId).2 = srv ∧
      (addItem srv a playlistId item now).2 = srv) := by
  refine ⟨read_other_of_server_cases srv _ a b hkey (deletePlaylist_server srv a playlistId),
    read_other_of_server_cases srv _ a b hkey (addItem_server srv a playlistId item now),
    read_other_of_server_cases srv _ a b hkey (removeItem_server srv a playlistId videoId),
    ?_⟩
  intro hhas hforeign
  have hno : ∀ p ∈ (readUserPlaylist srv a).playlists,
      deleteMatches a playlistId p = false := by
    intro p hp
    cases hm : deleteMatches a playlistId p
    · rfl
    · have := (deleteMatches_iff _ _ _).mp hm
      exact absurd this.2 (hforeign p hp this.1)
  have hadd := addItem_foreign srv a playlistId item now hhas hforeign
  have hrem := removeItem_foreign srv a playlistId videoId hhas hforeign
  refine ⟨?_, hrem.2, hadd.2.1, hadd.2.2, ?_, hrem.1, hadd.1⟩
  · rw [deletePlaylist_eq_of_no_match srv a playlistId hhas hno]
    rfl
  · rw [deletePlaylist_eq_of_no_match srv a playlistId hhas hno]

/-- Claim C5 fails as stated: `addItem` by bob on alice's playlist with an item
lacking a `videoId` answers ValidationError, neither NotFound nor Forbidden; and
the distinct users `./bob` and `bob` share one file, so a `deletePlaylist` by
`./bob` succeeds and changes the collection stored for `bob`. -/
theorem isolation_fails_on_invalid_item_and_shared_file :
    ((addItem gymServer "bob" "1" { title := some "Song" } 1800).1.kind =
        Outcome.validationError ∧
      (readUserPlaylist gymServer "alice").playlists = [gymPlaylist]) ∧
    ("./bob" ≠ "bob" ∧
      (readUserPlaylist aliasServer "bob").playlists =
        [{ id := some "1", userId := some "./bob", name := some "Gym", songs := some [] }] ∧
      (deletePlaylist aliasServer "./bob" "1").1.kind = Outcome.success ∧
      (readUserPlaylist (deletePlaylist aliasServer "./bob" "1").2 "bob").playlists = []) := by
  decide

theorem read_write_of_key_eq (srv : Server) (u v : String) (d : PlaylistData)
    (h : getUserPlaylistFile srv v = getUserPlaylistFile srv u) :
    readUserPlaylist (writeUserPlaylist srv u d) v = d := by
  unfold readUserPlaylist
  rw [getUserPlaylistFile_write]
  simp [writeUserPlaylist, h]

theorem read_emptyServer (dirname username : String) :
    readUserPlaylist (emptyServer dirname) username = { playlists := [] } := by
  unfold readUserPlaylist emptyServer
  rfl

theorem storeItemsUnique_write (uniq : List Song → Prop) (srv : Server) (u : String)
    (d : PlaylistData) (hsrv : StoreItemsUnique uniq srv)
    (hd : ItemsUnique uniq d.playlists) :
    StoreItemsUnique uniq (writeUserPlaylist srv u d) := by
  intro v
  by_cases hk : getUserPlaylistFile srv v = getUserPlaylistFile srv u
  · rw [read_write_of_key_eq srv u v d hk]
    exact hd
  · rw [read_write_other srv u v d hk]
    exact hsrv v

theorem itemsUnique_modifyFirst (uniq : List Song → Prop) (pred : Playlist → Bool)
    (updated : Playlist) (l : List Playlist) (hl : ItemsUnique uniq l)
    (hu : ∀ songs, updated.songs = some songs → uniq songs) :
    ItemsUnique uniq (modifyFirst pred (fun _ => updated) l) := by
  induction l with
  | nil => exact hl
  | cons q qs ih =>
    have hqs : ItemsUnique uniq qs := fun p hp => hl p (List.mem_cons_of_mem _ hp)
    intro p hp
    unfold modifyFirst at hp
    by_cases hq : pred q = true
    · simp only [hq, if_true] at hp
      rcases List.mem_cons.mp hp with rfl | h
      · exact hu
      · exact hqs p h
    · simp only [hq] at hp
      rcases List.mem_cons.mp hp with rfl | h
      · exact hl p (List.mem_cons_self _ _)
      · exact ih hqs p h

theorem itemsUnique_filter (uniq : List Song → Prop) (f : Playlist → Bool)
    (l : List Playlist) (hl : ItemsUnique uniq l) : ItemsUnique uniq (l.filter f) :=
  fun p hp => hl p (List.mem_of_mem_filter hp)

theorem uniqueVideoIds_append (songs : List Song) (song : Song)
    (h : UniqueVideoIds songs)
    (hnew : ∀ a ∈ songs, truthy a.videoId = true → a.videoId ≠ song.videoId) :
    UniqueVideoIds (songs ++ [song]) := by
  unfold UniqueVideoIds at h ⊢
  rw [List.pairwise_append]
  refine ⟨h, List.pairwise_singleton _ _, ?_⟩
  intro a ha b hb
  rw [List.mem_singleton] at hb
  subst hb
  exact hnew a ha

theorem uniqueVideoIds_filter (songs : List Song) (f : Song → Bool)
    (h : UniqueVideoIds songs) : UniqueVideoIds (songs.filter f) :=
  List.Pairwise.sublist (List.filter_sublist songs) h

theorem itemsUnique_stamped (uniq : List Song → Prop) (username : String)
    (clock : Nat → Nat) (batch stamped : List Playlist) (i : Nat)
    (hst : stampPlaylists username clock i batch = some stamped)
    (hb : ItemsUnique uniq batch) : ItemsUnique uniq stamped := by
  have hspec := stampPlaylists_spec username clock batch i stamped hst
  intro q hq songs hsongs
  obtain ⟨k, hk⟩ := List.mem_iff_getElem?.mp hq
  have hlt : k < batch.length := by
    have := (List.getElem?_eq_some.mp hk).1
    omega
  have hbk : batch[k]? = some batch[k] := List.getElem?_eq_getElem hlt
  have := hspec.2 k _ hbk
  rw [hk] at this
  injection this with this
  subst this
  exact hb _ (List.getElem_mem hlt) songs hsongs

theorem replaceAll_preserves_unique (srv : Server) (username : String)
    (playlists : Option (List Playlist)) (clock : Nat → Nat)
    (hsrv : StoreItemsUnique UniqueVideoIds srv)
    (hreq : (Request.replace username playlists clock).Deduplicated) :
    StoreItemsUnique UniqueVideoIds (replaceAll srv username playlists clock).2 := by
  unfold replaceAll
  cases playlists with
  | none => exact hsrv
  | some batch =>
    dsimp only
    cases hst : stampPlaylists username clock 0 batch with
    | none => exact hsrv
    | some stamped =>
      dsimp only
      split
      · exact hsrv
      · exact storeItemsUnique_write _ srv username _ hsrv
          (itemsUnique_stamped _ username clock batch stamped 0 hst hreq)

theorem addItem_preserves_unique (srv : Server) (username playlistId : String) (item : Song)
    (now : Nat) (hsrv : StoreItemsUnique UniqueVideoIds srv) :
    StoreItemsUnique UniqueVideoIds (addItem srv username playlistId item now).2 := by
  by_cases hok : (addItem srv username playlistId item now).1.kind = Outcome.success
  · obtain ⟨playlist, songs, hid, hfind, hown, hsongs, hnew, hwrite⟩ :=
      addItem_success_inv srv username playlistId item now hok
    rw [addItem_success_eq srv username playlistId item now playlist songs hid hfind hown
      hsongs hnew hwrite]
    apply storeItemsUnique_write _ srv username _ hsrv
    apply itemsUnique_modifyFirst _ _ _ _ (hsrv username)
    intro songs2 h2
    simp only [Option.some.injEq] at h2
    subst h2
    apply uniqueVideoIds_append
    · exact hsrv username playlist (find?_id_eq hfind).1 songs hsongs
    · intro a ha _
      exact hnew a ha
  · have hsame : (addItem srv username playlistId item now).2 = srv := by
      revert hok
      unfold addItem
      dsimp only
      repeat' split
      all_goals first
        | (intro _; with_reducible rfl)
        | (intro h; exact absurd rfl h)
    rw [hsame]
    exact hsrv

theorem removeItem_preserves_unique (srv : Server) (username playlistId videoId : String)
    (hsrv : StoreItemsUnique UniqueVideoIds srv) :
    StoreItemsUnique UniqueVideoIds (removeItem srv username playlistId videoId).2 := by
  unfold removeItem
  split
  · exact hsrv
  · dsimp only
    cases hfind : (readUserPlaylist srv username).playlists.find?
        (fun p => p.id == some playlistId) with
    | none => exact hsrv
    | some playlist =>
      dsimp only
      split
      · exact hsrv
      · cases hsongs : playlist.songs with
        | none => exact hsrv
        | some songs =>
          dsimp only
          split
          · exact hsrv
          · split
            · exact hsrv
            · apply storeItemsUnique_write _ srv username _ hsrv
              apply itemsUnique_modifyFirst _ _ _ _ (hsrv username)
              intro songs2 h2
              simp only [Option.some.injEq] at h2
              subst h2
              exact uniqueVideoIds_filter songs _
                (hsrv username playlist (find?_id_eq hfind).1 songs hsongs)

theorem deletePlaylist_preserves_unique (srv : Server) (username playlistId : String)
    (hsrv : StoreItemsUnique UniqueVideoIds srv) :
    StoreItemsUnique UniqueVideoIds (deletePlaylist srv username playlistId).2 := by
  unfold deletePlaylist
  split
  · exact hsrv
  · dsimp only
    split
    · exact hsrv
    · split
      · exact hsrv
      · exact storeItemsUnique_write _ srv username _ hsrv
          (itemsUnique_filter _ _ _ (hsrv username))

theorem pushSong_unique (song : Song) (playlist updated : Playlist)
    (hvid : song.videoId = none)
    (hp : ∀ songs, playlist.songs = some songs → UniqueVideoIds songs)
    (hpush : pushSong song playlist = some updated) :
    ∀ songs, updated.songs = some songs → UniqueVideoIds songs := by
  unfold pushSong at hpush
  cases hs : playlist.songs with
  | none => simp [hs] at hpush
  | some old =>
    simp only [hs, Option.some.injEq] at hpush
    subst hpush
    intro songs h2
    simp only [Option.some.injEq] at h2
    subst h2
    apply uniqueVideoIds_append old song (hp old hs)
    intro a _ ha
    rw [hvid]
    intro h
    rw [h] at ha
    exact Bool.noConfusion ha

theorem uploadAndAttach_preserves_unique (srv : Server) (username : String)
    (file : Option UploadedFile) (body : UploadBody) (nowSong nowPlaylist : Nat)
    (isoNow : String) (hsrv : StoreItemsUnique UniqueVideoIds srv) :
    StoreItemsUnique UniqueVideoIds
      (uploadAndAttach srv username file body nowSong nowPlaylist isoNow).2 := by
  unfold uploadAndAttach
  cases file with
  | none => exact hsrv
  | some file =>
    dsimp only
    split
    · exact hsrv
    have hall : ItemsUnique UniqueVideoIds
        (if (readUserPlaylist srv username).playlists.length = 0 then
          (readUserPlaylist srv username).playlists ++
            [{ id := some (jsNumToString nowPlaylist), name := some "My Playlist",
               songs := some [] }]
        else (readUserPlaylist srv username).playlists) := by
      split
      · intro p hp songs hs
        rcases List.mem_append.mp hp with h | h
        · exact hsrv username p h songs hs
        · rw [List.mem_singleton] at h
          subst h
          simp only [Option.some.injEq] at hs
          subst hs
          exact List.Pairwise.nil
      · exact hsrv username
    generalize (if (readUserPlaylist srv username).playlists.length = 0 then
          (readUserPlaylist srv username).playlists ++
            [{ id := some (jsNumToString nowPlaylist), name := some "My Playlist",
               songs := some [] }]
        else (readUserPlaylist srv username).playlists) = playlists at hall
    cases playlists with
    | nil => exact hsrv
    | cons first rest =>
      dsimp only
      have htarget : ∀ songs,
          (match (first :: rest).find?
              (fun (p : Playlist) => p.id == orElse body.playlistId first.id) with
            | some playlist => playlist
            | none => first).songs = some songs → UniqueVideoIds songs := by
        cases hf : (first :: rest).find?
            (fun (p : Playlist) => p.id == orElse body.playlistId first.id) with
        | none => exact hall first (List.mem_cons_self _ _)
        | some playlist => exact hall playlist (List.mem_of_find?_eq_some hf)
      split
      · exact hsrv
      · rename_i updated hpush
        have hupd := pushSong_unique _ _ updated rfl htarget hpush
        split
        · exact hsrv
        apply storeItemsUnique_write _ srv username _ hsrv
        dsimp only
        split
        · exact itemsUnique_modifyFirst _ _ _ _ hall hupd
        · intro p hp
          rcases List.mem_cons.mp hp with rfl | h
          · exact hupd
          · exact hall p (List.mem_cons_of_mem _ h)

theorem handle_preserves_unique (srv : Server) (req : Request)
    (hsrv : StoreItemsUnique UniqueVideoIds srv) (hreq : req.Deduplicated) :
    StoreItemsUnique UniqueVideoIds (handle srv req).2 := by
  cases req with
  | list u => exact hsrv
  | replace u playlists clock => exact replaceAll_preserves_unique srv u playlists clock hsrv hreq
  | add u pid item now => exact addItem_preserves_unique srv u pid item now hsrv
  | remove u pid vid => exact removeItem_preserves_unique srv u pid vid hsrv
  | delete u pid => exact deletePlaylist_preserves_unique srv u pid hsrv
  | upload u file body nowSong nowPlaylist isoNow =>
    exact uploadAndAttach_preserves_unique srv u file body nowSong nowPlaylist isoNow hsrv

theorem run_preserves_unique (reqs : List Request) :
    ∀ srv : Server, StoreItemsUnique UniqueVideoIds srv →
      (∀ req ∈ reqs, req.Deduplicated) →
      StoreItemsUnique UniqueVideoIds (run srv reqs) := by
  induction reqs with
  | nil => intro srv hsrv _; exact hsrv
  | cons req rest ih =>
    intro srv hsrv hreqs
    unfold run
    exact ih _ (handle_preserves_unique srv req hsrv (hreqs req (List.mem_cons_self _ _)))
      (fun r hr => hreqs r (List.mem_cons_of_mem _ hr))

/-- Claim C4 as amended. In every state reached from the empty store by requests
to the six routes, where every `POST /api/playlists` batch already lists no
`videoId` twice within a playlist, no two songs of a stored playlist share a
non-empty `videoId`. -/
theorem videoIds_unique_in_reachable_states (dirname : String) (reqs : List Request)
    (hreqs : ∀ req ∈ reqs, req.Deduplicated) :
    StoreItemsUnique UniqueVideoIds (run (emptyServer dirname) reqs) := by
  apply run_preserves_unique reqs _ _ hreqs
  intro username
  rw [read_emptyServer]
  intro p hp
  exact absurd hp (List.not_mem_nil p)

theorem gymServer_eq : gymServer =
    writeUserPlaylist (emptyServer "/srv/app/server") "alice" { playlists := [gymPlaylist] } := by
  rfl

theorem gymServer_read (owner : String) :
    (readUserPlaylist gymServer owner).playlists = [gymPlaylist] ∨
      (readUserPlaylist gymServer owner).playlists = [] := by
  rw [gymServer_eq]
  by_cases hk : getUserPlaylistFile (emptyServer "/srv/app/server") owner =
      getUserPlaylistFile (emptyServer "/srv/app/server") "alice"
  · rw [read_write_of_key_eq _ _ _ _ hk]
    exact Or.inl rfl
  · rw [read_write_other _ _ _ _ hk, read_emptyServer]
    exact Or.inr rfl

/-- Claim C1 at the scenario: alice adds the song `v9` to her empty playlist "Gym". -/
theorem addItem_appends_item_witness :
    (addItem gymServer "alice" "1" songV9 1800).1.kind = Outcome.success ∧
    (readUserPlaylist (addItem gymServer "alice" "1" songV9 1800).2 "alice").playlists.find?
        (fun p => p.id == some "1") =
      some { gymPlaylist with
        songs := some ([] ++ [{ songV9 with addedAt := some (.millis 1800) }]) } :=
  have h := addItem_appends_item gymServer "alice" "1" songV9 1800 gymPlaylist []
    (by decide) (by decide) (by decide) (by decide) (by simp) (by decide)
  ⟨h.1, h.2.2.2.1⟩

/-- Claim C2 at the scenario: adding `v9` to "Gym" a second time is a Conflict. -/
theorem addItem_twice_conflict_witness :
    (addItem (addItem gymServer "alice" "1" songV9 1800).2 "alice" "1" songV9 1801).1.kind =
      Outcome.conflict ∧
    readUserPlaylist
        (addItem (addItem gymServer "alice" "1" songV9 1800).2 "alice" "1" songV9 1801).2
        "alice" =
      readUserPlaylist (addItem gymServer "alice" "1" songV9 1800).2 "alice" :=
  have h := addItem_twice_conflict gymServer "alice" "1" songV9 songV9 1800 1801
    (by decide) (by decide)
  ⟨h.2.1, h.2.2.2⟩

/-- Claim C3 evaluated at the failing input: after alice, who has no playlist,
uploads a file, her stored collection consists of a playlist without `userId`,
so the store is not owner-tagged, and `addItem` answers her with Forbidden for
that playlist. -/
theorem upload_creates_untagged_playlist :
    (readUserPlaylist uploadServer "alice").playlists.map (fun p => p.userId) = [none] ∧
    ¬ OwnerTagged uploadServer ∧
    (addItem uploadServer "alice" "1700" songV9 1800).1.kind = Outcome.forbidden := by
  refine ⟨by decide, ?_, by decide⟩
  intro h
  have h1 := h "alice"
    { id := some "1700", name := some "My Playlist"
      songs := some [songData demoFile {} 1700 "2026-01-01T00:00:00.000Z"] } (by decide)
  exact absurd h1 (by decide)

/-- Claim C4 fails as stated: saving a playlist that lists the same video twice,
and two uploads served within the same millisecond, both reach a state in which
two songs of one playlist share a stable identifier. -/
theorem duplicate_items_reachable :
    ¬ StoreItemsUnique UniqueStableIds duplicateServer ∧
    ¬ StoreItemsUnique UniqueStableIds doubleUploadServer := by
  constructor
  · intro h
    have h1 := h "alice"
      { id := some "1", userId := some "alice", name := some "Mix"
        songs := some [songV9, songV9] } (by decide) [songV9, songV9] rfl
    revert h1
    unfold UniqueStableIds
    decide
  · intro h
    have h1 := h "alice"
      { id := some "1700", name := some "My Playlist"
        songs := some [songData demoFile {} 1700 "2026-01-01T00:00:00.000Z",
          songData demoFile2 {} 1700 "2026-01-01T00:00:00.000Z"] } (by decide) _ rfl
    revert h1
    unfold UniqueStableIds
    decide

/-- Claim C4 as amended, at a run through save, add, upload, remove and delete. -/
theorem videoIds_unique_in_reachable_states_witness :
    StoreItemsUnique UniqueVideoIds
      (run (emptyServer "/srv/app/server")
        [.replace "alice" (some [{ id := some "1", name := some "Gym", songs := some [] }])
          (fun _ => 1700),
         .add "alice" "1" songV9 1800,
         .upload "alice" (some demoFile) {} 1900 1900 "2026-01-01T00:00:00.000Z",
         .remove "alice" "1" "v9",
         .delete "alice" "1"]) :=
  videoIds_unique_in_reachable_states "/srv/app/server" _ (by
    intro req hreq
    simp only [List.mem_cons, List.mem_singleton, List.not_mem_nil, or_false] at hreq
    rcases hreq with rfl | rfl | rfl | rfl | rfl
    · intro p hp songs hs
      rw [List.mem_singleton] at hp
      subst hp
      simp only [Option.some.injEq] at hs
      subst hs
      exact List.Pairwise.nil
    all_goals trivial)

/-- Claim C5 as amended, at the scenario: bob cannot touch alice's playlist "1". -/
theorem other_owner_isolated_witness :
    readUserPlaylist (deletePlaylist gymServer "bob" "1").2 "alice" =
      readUserPlaylist gymServer "alice" ∧
    readUserPlaylist (addItem gymServer "bob" "1" songV9 1800).2 "alice" =
      readUserPlaylist gymServer "alice" ∧
    readUserPlaylist (removeItem gymServer "bob" "1" "v9").2 "alice" =
      readUserPlaylist gymServer "alice" ∧
    (deletePlaylist gymServer "bob" "1").1.kind = Outcome.notFound :=
  have h := other_owner_isolated gymServer "bob" "alice" "1" "v9" songV9 1800 (by decide)
  ⟨h.1, h.2.1, h.2.2.1, (h.2.2.2 (by decide) (by decide)).1⟩

/-- Claim C6 at a batch whose second playlist is named by a space and a tab. -/
theorem replaceAll_rejects_blank_name_witness :
    (replaceAll gymServer "alice"
      (some [{ id := some "2", name := some "Run" }, { id := some "3", name := some " \t" }])
      (fun _ => 1800)).1.kind = Outcome.validationError ∧
    readUserPlaylist (replaceAll gymServer "alice"
      (some [{ id := some "2", name := some "Run" }, { id := some "3", name := some " \t" }])
      (fun _ => 1800)).2 "alice" = readUserPlaylist gymServer "alice" :=
  have h := replaceAll_rejects_blank_name gymServer "alice"
    [{ id := some "2", name := some "Run" }, { id := some "3", name := some " \t" }]
    (fun _ => 1800) { id := some "3", name := some " \t" } (by decide)
    (Or.inr ⟨" \t", rfl, by decide⟩)
  ⟨h.2.1, h.2.2.2 "alice"⟩

/-- Claim C7 at a batch with a forged owner and a playlist without id. -/
theorem replaceAll_stamps_owner_and_id_witness :
    (replaceAll gymServer "alice"
      (some [{ id := some "2", userId := some "mallory", name := some "Run" },
             { name := some "Walk", songs := some [songV9] }])
      (fun i => 1800 + i)).1.kind = Outcome.success ∧
    (readUserPlaylist (replaceAll gymServer "alice"
      (some [{ id := some "2", userId := some "mallory", name := some "Run" },
             { name := some "Walk", songs := some [songV9] }])
      (fun i => 1800 + i)).2 "alice").playlists.length = 2 :=
  have h := replaceAll_stamps_owner_and_id gymServer "alice"
    [{ id := some "2", userId := some "mallory", name := some "Run" },
     { name := some "Walk", songs := some [songV9] }]
    (fun i => 1800 + i) (by decide)
  ⟨h.1.mpr (by decide), (h.2 (h.1.mpr (by decide))).1⟩

/-- Claim C8 at a batch with a forged owner and a playlist without id. -/
theorem replaceAll_then_list_roundtrip_witness :
    ∃ shown,
      (listPlaylists (replaceAll gymServer "alice"
        (some [{ id := some "2", userId := some "mallory", name := some "Run" },
               { name := some "Walk", songs := some [songV9] }])
        (fun i => 1800 + i)).2 "alice").1.playlists = some shown ∧
      shown.length = 2 :=
  have h := replaceAll_then_list_roundtrip gymServer "alice"
    [{ id := some "2", userId := some "mallory", name := some "Run" },
     { name := some "Walk", songs := some [songV9] }]
    (fun i => 1800 + i) (by decide)
  h.elim fun shown hs => ⟨shown, hs.1, hs.2.1⟩

/-- Claim C9 fails as stated: when alice has saved two playlists with the same id,
one `deletePlaylist` succeeds and removes both. -/
theorem deletePlaylist_removes_every_match :
    (readUserPlaylist twinServer "alice").playlists.length = 2 ∧
    (deletePlaylist twinServer "alice" "1").1.kind = Outcome.success ∧
    (readUserPlaylist (deletePlaylist twinServer "alice" "1").2 "alice").playlists.length = 0 := by
  decide

/-- Claim C9 as amended, at the scenario: alice deletes her only playlist "1". -/
theorem deletePlaylist_removes_matching_witness :
    (deletePlaylist gymServer "alice" "1").1.kind = Outcome.success ∧
    (readUserPlaylist (deletePlaylist gymServer "alice" "1").2 "alice").playlists.length + 1 =
      (readUserPlaylist gymServer "alice").playlists.length :=
  have h := deletePlaylist_removes_matching gymServer "alice" "1" (by decide) (by decide)
  have hok := h.1.mpr ⟨gymPlaylist, by decide, rfl, rfl⟩
  ⟨hok, (h.2.1 hok).2 (by decide)⟩

/-- Claim C10 at the scenario: bob deletes "1" on the empty store and on the store
where "1" belongs to alice. -/
theorem deletePlaylist_notFound_uniform_witness :
    (deletePlaylist (emptyServer "/srv/app/server") "bob" "1").1 =
      (deletePlaylist gymServer "bob" "1").1 ∧
    (deletePlaylist gymServer "bob" "1").1.kind = Outcome.notFound :=
  have h := deletePlaylist_notFound_uniform (emptyServer "/srv/app/server") gymServer "bob" "1"
    (by decide) (by decide)
    (by
      intro owner p hp
      rw [read_emptyServer] at hp
      exact absurd hp (List.not_mem_nil p))
    ⟨"alice", gymPlaylist, by decide, rfl⟩
    (by
      intro owner p hp _
      rcases gymServer_read owner with h | h
      · rw [h, List.mem_singleton] at hp
        subst hp
        decide
      · rw [h] at hp
        exact absurd hp (List.not_mem_nil p))
  ⟨h.1, h.2.2.1⟩

/-! ## Removal, error results, listing and uploads -/

theorem removeItem_eq_of_absent (srv : Server) (username playlistId videoId : String)
    (playlist : Playlist) (songs : List Song)
    (hfind : (readUserPlaylist srv username).playlists.find?
      (fun p => p.id == some playlistId) = some playlist)
    (hown : playlist.userId = some username)
    (hsongs : playlist.songs = some songs)
    (habsent : ∀ s ∈ songs, s.videoId ≠ some videoId) :
    removeItem srv username playlistId videoId =
      ({ status := 404, text := "Item not found in playlist" }, srv) := by
  have hlen : (songs.filter (fun s => s.videoId != some videoId)).length = songs.length := by
    rw [List.filter_length_eq_length]
    intro s hs
    simpa using habsent s hs
  unfold removeItem
  simp only [hfind, hown, hsongs, hasPlaylists_of_find hfind]
  simp [hlen]

theorem removeItem_eq_of_present (srv : Server) (username playlistId videoId : String)
    (playlist : Playlist) (songs : List Song)
    (hfind : (readUserPlaylist srv username).playlists.find?
      (fun p => p.id == some playlistId) = some playlist)
    (hown : playlist.userId = some username)
    (hsongs : playlist.songs = some songs)
    (hpresent : ∃ s ∈ songs, s.videoId = some videoId)
    (hwrite : writeSucceeds srv username = true) :
    removeItem srv username playlistId videoId =
      ({ status := 200, success := true, text := "Item deleted from playlist successfully",
         playlist := some { playlist with
           songs := some (songs.filter (fun s => s.videoId != some videoId)) } },
        writeUserPlaylist srv username
          { playlists := modifyFirst (fun p => p.id == some playlistId)
              (fun _ => { playlist with
                songs := some (songs.filter (fun s => s.videoId != some videoId)) })
              (readUserPlaylist srv username).playlists }) := by
  have hlen : ¬ (songs.filter (fun s => s.videoId != some videoId)).length = songs.length := by
    rw [List.filter_length_eq_length]
    intro hall
    obtain ⟨s, hs, hv⟩ := hpresent
    have := hall s hs
    simp [hv] at this
  unfold removeItem
  simp only [hfind, hown, hsongs, hasPlaylists_of_find hfind, hwrite]
  simp [hlen]

/-- Claim C11 as amended. For the first playlist of the caller's collection with
the requested id, owned by the caller and holding a song sequence: when no song
carries the `videoId` of the request, `removeItem` answers 404 "Item not found in
playlist" (NotFound) and writes nothing; otherwise, when the document can be
written, it succeeds, returns the updated playlist and stores, in place of that playlist, the one whose songs are the
previous songs without those carrying that `videoId`, the remaining songs in
their order; removing the same `videoId` again then answers NotFound. -/
theorem removeItem_removes_matching (srv : Server) (username playlistId videoId : String)
    (playlist : Playlist) (songs : List Song)
    (hfind : (readUserPlaylist srv username).playlists.find?
      (fun p => p.id == some playlistId) = some playlist)
    (hown : playlist.userId = some username)
    (hsongs : playlist.songs = some songs) :
    ((∀ s ∈ songs, s.videoId ≠ some videoId) →
      (removeItem srv username playlistId videoId).1 =
        { status := 404, text := "Item not found in playlist" } ∧
      (removeItem srv username playlistId videoId).1.kind = Outcome.notFound ∧
      (removeItem srv username playlistId videoId).2 = srv) ∧
    ((∃ s ∈ songs, s.videoId = some videoId) → writeSucceeds srv username = true →
      (removeItem srv username playlistId videoId).1.kind = Outcome.success ∧
      (removeItem srv username playlistId videoId).1.playlist =
        some { playlist with
          songs := some (songs.filter (fun s => s.videoId != some videoId)) } ∧
      (readUserPlaylist (removeItem srv username playlistId videoId).2 username).playlists =
        modifyFirst (fun p => p.id == some playlistId)
          (fun _ => { playlist with
            songs := some (songs.filter (fun s => s.videoId != some videoId)) })
          (readUserPlaylist srv username).playlists ∧
      (readUserPlaylist (removeItem srv username playlistId videoId).2
          username).playlists.find? (fun p => p.id == some playlistId) =
        some { playlist with
          songs := some (songs.filter (fun s => s.videoId != some videoId)) } ∧
      (songs.filter (fun s => s.videoId != some videoId)).Sublist songs ∧
      (∀ s, s ∈ songs.filter (fun s => s.videoId != some videoId) ↔
        s ∈ songs ∧ s.videoId ≠ some videoId) ∧
      (removeItem (removeItem srv username playlistId videoId).2 username playlistId
        videoId).1 = { status := 404, text := "Item not found in playlist" } ∧
      (removeItem (removeItem srv username playlistId videoId).2 username playlistId
        videoId).1.kind = Outcome.notFound) := by
  constructor
  · intro habsent
    rw [removeItem_eq_of_absent srv username playlistId videoId playlist songs hfind hown
      hsongs habsent]
    exact ⟨rfl, rfl, rfl⟩
  · intro hpresent hwrite
    have hpid : (playlist.id == some playlistId) = true :=
      find?_pred_true (fun p => p.id == some playlistId) hfind
    have heq := removeItem_eq_of_present srv username playlistId videoId playlist songs hfind
      hown hsongs hpresent hwrite
    have hstored : (readUserPlaylist (removeItem srv username playlistId videoId).2
        username).playlists =
        modifyFirst (fun p => p.id == some playlistId)
          (fun _ => { playlist with
            songs := some (songs.filter (fun s => s.videoId != some videoId)) })
          (readUserPlaylist srv username).playlists := by
      rw [heq]
      simp only [read_write_same]
    have hfound : (readUserPlaylist (removeItem srv username playlistId videoId).2
        username).playlists.find? (fun p => p.id == some playlistId) =
        some { playlist with
          songs := some (songs.filter (fun s => s.videoId != some videoId)) } := by
      rw [hstored, find?_modifyFirst _ _ (fun _ _ => hpid), hfind]
      rfl
    have hagain := removeItem_eq_of_absent (removeItem srv username playlistId videoId).2
      username playlistId videoId
      { playlist with songs := some (songs.filter (fun s => s.videoId != some videoId)) }
      (songs.filter (fun s => s.videoId != some videoId)) hfound hown rfl
      (by
        intro s hs
        have := (List.mem_filter.mp hs).2
        simpa using this)
    refine ⟨?_, ?_, hstored, hfound, List.filter_sublist songs, ?_, ?_, ?_⟩
    · rw [heq]
      rfl
    · rw [heq]
    · intro s
      rw [List.mem_filter]
      simp
    · rw [hagain]
    · rw [hagain]
      rfl

/-- Claim C13 as amended. `addItem` answers ValidationError exactly when the item
has no non-empty `videoId`, with the store left alone whatever it holds; for an
item with a `videoId` and a caller whose document is absent or holds a
collection it answers NotFound exactly when no playlist of the caller's
collection has the given id, and, when there is one, Forbidden exactly when the
first playlist with that id has a `userId` other than the caller. -/
theorem addItem_error_decision (srv : Server) (username playlistId : String) (item : Song)
    (now : Nat) :
    ((addItem srv username playlistId item now).1.kind = Outcome.validationError ↔
      truthy item.videoId = false) ∧
    (truthy item.videoId = false →
      (addItem srv username playlistId item now).1 =
        { status := 400, text := "Item must have videoId" } ∧
      (addItem srv username playlistId item now).2 = srv) ∧
    (truthy item.videoId = true → hasPlaylists srv username = true →
      ((addItem srv username playlistId item now).1.kind = Outcome.notFound ↔
        ∀ p ∈ (readUserPlaylist srv username).playlists, p.id ≠ some playlistId) ∧
      ∀ playlist, (readUserPlaylist srv username).playlists.find?
          (fun p => p.id == some playlistId) = some playlist →
        ((addItem srv username playlistId item now).1.kind = Outcome.forbidden ↔
          playlist.userId ≠ some username)) := by
  unfold addItem
  by_cases hid : truthy item.videoId = true
  · simp only [hid]
    refine ⟨?_, fun h => absurd h (by simp), fun _ hhas => ?_⟩
    · simp only [Bool.not_true, Bool.false_eq_true, if_false]
      repeat' split
      all_goals simp [Response.kind]
    · simp only [hhas, Bool.not_true, Bool.false_eq_true, if_false]
      cases hfind : (readUserPlaylist srv username).playlists.find?
          (fun p => p.id == some playlistId) with
      | none =>
        refine ⟨?_, fun playlist h => Option.noConfusion h⟩
        have := List.find?_eq_none.mp hfind
        simp only [Response.kind]
        simpa using this
      | some playlist =>
        have hp := find?_id_eq hfind
        constructor
        · constructor
          · dsimp only
            repeat' split
            all_goals simp [Response.kind]
          · intro hall
            exact absurd hp.2 (hall playlist hp.1)
        · intro playlist2 h2
          injection h2 with h2
          subst h2
          dsimp only
          repeat' split
          all_goals simp_all [Response.kind]
  · have hid2 : truthy item.videoId = false := by
      cases h : truthy item.videoId
      · rfl
      · exact absurd h hid
    simp [hid2, Response.kind]

theorem addItem_fail_server (srv : Server) (username playlistId : String) (item : Song)
    (now : Nat) (h : (addItem srv username playlistId item now).1.kind ≠ Outcome.success) :
    (addItem srv username playlistId item now).2 = srv := by
  revert h
  unfold addItem
  dsimp only
  repeat' split
  all_goals first
    | (intro _; with_reducible rfl)
    | (intro h; exact absurd rfl h)

theorem removeItem_fail_server (srv : Server) (username playlistId videoId : String)
    (h : (removeItem srv username playlistId videoId).1.kind ≠ Outcome.success) :
    (removeItem srv username playlistId videoId).2 = srv := by
  revert h
  unfold removeItem
  dsimp only
  repeat' split
  all_goals first
    | (intro _; with_reducible rfl)
    | (intro h; exact absurd rfl h)

theorem deletePlaylist_fail_server (srv : Server) (username playlistId : String)
    (h : (deletePlaylist srv username playlistId).1.kind ≠ Outcome.success) :
    (deletePlaylist srv username playlistId).2 = srv := by
  revert h
  unfold deletePlaylist
  dsimp only
  repeat' split
  all_goals first
    | (intro _; with_reducible rfl)
    | (intro h; exact absurd rfl h)

/-- Claim C14. Whenever `addItem`, `removeItem` or `deletePlaylist` answers anything
but success (ValidationError, NotFound, Forbidden, Conflict, or the 500 of the
`catch` branch), the server, and with it the caller's stored collection, is
exactly what it was before the call. -/
theorem failed_call_writes_nothing (srv : Server) (username playlistId videoId : String)
    (item : Song) (now : Nat) :
    ((addItem srv username playlistId item now).1.kind ≠ Outcome.success →
      (addItem srv username playlistId item now).2 = srv ∧
      readUserPlaylist (addItem srv username playlistId item now).2 username =
        readUserPlaylist srv username) ∧
    ((removeItem srv username playlistId videoId).1.kind ≠ Outcome.success →
      (removeItem srv username playlistId videoId).2 = srv ∧
      readUserPlaylist (removeItem srv username playlistId videoId).2 username =
        readUserPlaylist srv username) ∧
    ((deletePlaylist srv username playlistId).1.kind ≠ Outcome.success →
      (deletePlaylist srv username playlistId).2 = srv ∧
      readUserPlaylist (deletePlaylist srv username playlistId).2 username =
        readUserPlaylist srv username) := by
  refine ⟨fun h => ?_, fun h => ?_, fun h => ?_⟩
  · have := addItem_fail_server srv username playlistId item now h
    exact ⟨this, by rw [this]⟩
  · have := removeItem_fail_server srv username playlistId videoId h
    exact ⟨this, by rw [this]⟩
  · have := deletePlaylist_fail_server srv username playlistId h
    exact ⟨this, by rw [this]⟩

/-- Claim C15. `listPlaylists` succeeds, leaves the server as it is and returns a
list of the length of the stored collection whose playlist at each position is
the stored one with the same `id`, `name` and `songs`; a `userId` that is missing
(absent, or falsy as `playlist.userId || username` tests it) is replaced by the
caller's username and any other `userId` is kept as stored. -/
theorem listPlaylists_backfills_owner (srv : Server) (username : String) :
    (listPlaylists srv username).1.kind = Outcome.success ∧
    (listPlaylists srv username).2 = srv ∧
    ∃ shown, (listPlaylists srv username).1.playlists = some shown ∧
      shown.length = (readUserPlaylist srv username).playlists.length ∧
      ∀ (k : Nat) (p : Playlist), (readUserPlaylist srv username).playlists[k]? = some p →
        ∃ q, shown[k]? = some q ∧ q.id = p.id ∧ q.name = p.name ∧ q.songs = p.songs ∧
          (p.userId = none → q.userId = some username) ∧
          (truthy p.userId = false → q.userId = some username) ∧
          (truthy p.userId = true → q.userId = p.userId) := by
  unfold listPlaylists
  refine ⟨rfl, rfl, _, rfl, by simp, ?_⟩
  intro k p hk
  rw [List.getElem?_map, hk]
  refine ⟨_, rfl, rfl, rfl, rfl, ?_, ?_, ?_⟩
  · intro h
    simp [h, truthy]
  · intro h
    simp [h]
  · intro h
    simp [h]

theorem modifyFirst_positions (pred : Playlist → Bool) (f : Playlist → Playlist) :
    ∀ (l : List Playlist) (t : Playlist), l.find? pred = some t →
      ∃ k, l[k]? = some t ∧
        (∀ (i : Nat) (p : Playlist), i < k → l[i]? = some p → pred p = false) ∧
        (modifyFirst pred f l)[k]? = some (f t) ∧
        ∀ j, j ≠ k → (modifyFirst pred f l)[j]? = l[j]? := by
  intro l
  induction l with
  | nil => intro t h; simp at h
  | cons q qs ih =>
    intro t h
    by_cases hq : pred q = true
    · have ht : q = t := by simpa [List.find?, hq] using h
      subst ht
      refine ⟨0, by simp, ?_, by simp [modifyFirst, hq], ?_⟩
      · intro i p hi
        exact absurd hi (Nat.not_lt_zero i)
      · intro j hj
        cases j with
        | zero => exact absurd rfl hj
        | succ j => simp [modifyFirst, hq]
    · have hq2 : pred q = false := by
        cases hp : pred q
        · rfl
        · exact absurd hp hq
      have h2 : qs.find? pred = some t := by simpa [List.find?, hq2] using h
      obtain ⟨k, hk, hbefore, hmod, hother⟩ := ih t h2
      refine ⟨k + 1, by simpa using hk, ?_, by simpa [modifyFirst, hq2] using hmod, ?_⟩
      · intro i p hi hp
        cases i with
        | zero =>
          have : q = p := by simpa using hp
          rw [← this]
          exact hq2
        | succ i => exact hbefore i p (by omega) (by simpa using hp)
      · intro j hj
        cases j with
        | zero => simp [modifyFirst, hq2]
        | succ j =>
          have := hother j (by omega)
          simpa [modifyFirst, hq2] using this

theorem uploadAndAttach_eq (srv : Server) (username : String) (file : UploadedFile)
    (body : UploadBody) (nowSong nowPlaylist : Nat) (isoNow : String)
    (first : Playlist) (rest : List Playlist) (updated : Playlist)
    (hpls : (if (readUserPlaylist srv username).playlists.length = 0 then
        (readUserPlaylist srv username).playlists ++
          [{ id := some (jsNumToString nowPlaylist), name := some "My Playlist",
             songs := some [] }]
      else (readUserPlaylist srv username).playlists) = first :: rest)
    (hpush : pushSong (songData file body nowSong isoNow)
      (((first :: rest).find?
        (fun (p : Playlist) => p.id == orElse body.playlistId first.id)).getD first) =
      some updated)
    (hhas : hasPlaylists srv username = true)
    (hwrite : writeSucceeds srv username = true) :
    uploadAndAttach srv username (some file) body nowSong nowPlaylist isoNow =
      ({ status := 200, success := true, text := "File uploaded and added to playlist",
         song := some (songData file body nowSong isoNow) },
        writeUserPlaylist srv username
          { playlists :=
              if ((first :: rest).find?
                  (fun (p : Playlist) => p.id == orElse body.playlistId first.id)).isSome then
                modifyFirst (fun p => p.id == orElse body.playlistId first.id)
                  (fun _ => updated) (first :: rest)
              else updated :: rest }) := by
  unfold uploadAndAttach
  simp only [hhas, hwrite, Bool.not_true, Bool.false_eq_true, if_false]
  rw [hpls]
  dsimp only
  cases hf : (first :: rest).find?
      (fun (p : Playlist) => p.id == orElse body.playlistId first.id) with
  | none =>
    rw [hf] at hpush
    simp only [Option.getD_none] at hpush
    simp only [hpush]
  | some playlist =>
    rw [hf] at hpush
    simp only [Option.getD_some] at hpush
    simp only [hpush]

/-- Claim C16 as amended. When the caller's document is absent or holds a
collection, that collection has no playlist and the document can be written, an
upload succeeds, returns the built song, and stores exactly one playlist, named
"My Playlist", whose songs are exactly that song. -/
theorem uploadAndAttach_creates_my_playlist (srv : Server) (username : String)
    (file : UploadedFile) (body : UploadBody) (nowSong nowPlaylist : Nat) (isoNow : String)
    (hhas : hasPlaylists srv username = true)
    (hempty : (readUserPlaylist srv username).playlists = [])
    (hwrite : writeSucceeds srv username = true) :
    (uploadAndAttach srv username (some file) body nowSong nowPlaylist isoNow).1.kind =
      Outcome.success ∧
    (uploadAndAttach srv username (some file) body nowSong nowPlaylist isoNow).1.song =
      some (songData file body nowSong isoNow) ∧
    (readUserPlaylist
        (uploadAndAttach srv username (some file) body nowSong nowPlaylist isoNow).2
        username).playlists =
      [{ id := some (jsNumToString nowPlaylist), name := some "My Playlist",
         songs := some [songData file body nowSong isoNow] }] := by
  have hpls : (if (readUserPlaylist srv username).playlists.length = 0 then
        (readUserPlaylist srv username).playlists ++
          [{ id := some (jsNumToString nowPlaylist), name := some "My Playlist",
             songs := some [] }]
      else (readUserPlaylist srv username).playlists) =
      ({ id := some (jsNumToString nowPlaylist), name := some "My Playlist",
         songs := some [] } : Playlist) :: [] := by
    rw [hempty]
    rfl
  have hget : ∀ (pred : Playlist → Bool) (q : Playlist), ([q].find? pred).getD q = q := by
    intro pred q
    by_cases hq : pred q = true <;> simp [List.find?, hq]
  have heq := uploadAndAttach_eq srv username file body nowSong nowPlaylist isoNow _ []
    { id := some (jsNumToString nowPlaylist), name := some "My Playlist",
      songs := some [songData file body nowSong isoNow] } hpls
    (by rw [hget]; rfl) hhas hwrite
  rw [heq]
  refine ⟨rfl, rfl, ?_⟩
  simp only [read_write_same]
  split
  · rename_i h
    have hp : (fun (p : Playlist) => p.id ==
        orElse body.playlistId (some (jsNumToString nowPlaylist)))
        { id := some (jsNumToString nowPlaylist), name := some "My Playlist",
          songs := some [] } = true := by
      by_contra hne
      simp [List.find?, hne] at h
    simp only [modifyFirst, hp, if_true]
  · rfl

/-- Claim C17 as amended. When the caller's collection is `first :: rest`, the
target is the first playlist of the collection carrying the id of the form field
`playlistId` when that field is given and that playlist is stored for the caller
with the caller as `userId`, and `first` when the field is missing or no
playlist of the collection carries the id. If the target has a song sequence
and the document can be written, the upload succeeds and
the stored collection differs from the previous one at exactly one position,
that of the target, where the built song is appended after the existing songs;
the length and every other position are unchanged. -/
theorem uploadAndAttach_appends_to_target (srv : Server) (username : String)
    (file : UploadedFile) (body : UploadBody) (nowSong nowPlaylist : Nat) (isoNow : String)
    (first : Playlist) (rest : List Playlist) (target : Playlist) (songs : List Song)
    (hstored : (readUserPlaylist srv username).playlists = first :: rest)
    (htarget : (truthy body.playlistId = true ∧
        (first :: rest).find? (fun p => p.id == body.playlistId) = some target ∧
        target.userId = some username) ∨
      ((truthy body.playlistId = false ∨
        (first :: rest).find? (fun p => p.id == body.playlistId) = none) ∧ target = first))
    (hsongs : target.songs = some songs)
    (hwrite : writeSucceeds srv username = true) :
    (uploadAndAttach srv username (some file) body nowSong nowPlaylist isoNow).1.kind =
      Outcome.success ∧
    (uploadAndAttach srv username (some file) body nowSong nowPlaylist isoNow).1.song =
      some (songData file body nowSong isoNow) ∧
    ∃ k, (first :: rest)[k]? = some target ∧
      (∀ (i : Nat) (p : Playlist), i < k → (first :: rest)[i]? = some p →
        p.id ≠ body.playlistId) ∧
      ((truthy body.playlistId = false ∨
        (first :: rest).find? (fun p => p.id == body.playlistId) = none) → k = 0) ∧
      (readUserPlaylist
          (uploadAndAttach srv username (some file) body nowSong nowPlaylist isoNow).2
          username).playlists[k]? =
        some { target with songs := some (songs ++ [songData file body nowSong isoNow]) } ∧
      (∀ j, j ≠ k →
        (readUserPlaylist
          (uploadAndAttach srv username (some file) body nowSong nowPlaylist isoNow).2
          username).playlists[j]? = (first :: rest)[j]?) ∧
      (readUserPlaylist
          (uploadAndAttach srv username (some file) body nowSong nowPlaylist isoNow).2
          username).playlists.length = (first :: rest).length := by
  have hpls : (if (readUserPlaylist srv username).playlists.length = 0 then
        (readUserPlaylist srv username).playlists ++
          [{ id := some (jsNumToString nowPlaylist), name := some "My Playlist",
             songs := some [] }]
      else (readUserPlaylist srv username).playlists) = first :: rest := by
    rw [hstored]
    rfl
  have hpushT : pushSong (songData file body nowSong isoNow) target =
      some { target with songs := some (songs ++ [songData file body nowSong isoNow]) } := by
    unfold pushSong
    rw [hsongs]
  have hhas : hasPlaylists srv username = true :=
    hasPlaylists_of_ne_nil srv username (by rw [hstored]; simp)
  rcases htarget with ⟨hgiven, hfound, _⟩ | ⟨hnot, hfirst⟩
  · -- the id is given and names a playlist of the collection
    have hor : orElse body.playlistId first.id = body.playlistId := by
      unfold orElse
      rw [if_pos hgiven]
    have heq := uploadAndAttach_eq srv username file body nowSong nowPlaylist isoNow first rest
      { target with songs := some (songs ++ [songData file body nowSong isoNow]) } hpls
      (by rw [hor, hfound]; exact hpushT) hhas hwrite
    rw [heq]
    refine ⟨rfl, rfl, ?_⟩
    simp only [read_write_same, hor, hfound, Option.isSome_some, if_true]
    obtain ⟨k, hk, hbefore, hmod, hother⟩ := modifyFirst_positions
      (fun p => p.id == body.playlistId)
      (fun _ => { target with
        songs := some (songs ++ [songData file body nowSong isoNow]) })
      (first :: rest) target hfound
    refine ⟨k, hk, ?_, ?_, hmod, hother, length_modifyFirst _ _ _⟩
    · intro i p hi hp
      have := hbefore i p hi hp
      simpa using this
    · intro h
      rcases h with h | h
      · rw [hgiven] at h
        exact Bool.noConfusion h
      · exact Option.noConfusion h
  · -- no id is given, or it names no playlist: the first playlist is the target
    subst hfirst
    have hgetD : ((target :: rest).find?
        (fun (p : Playlist) => p.id == orElse body.playlistId target.id)).getD target =
        target := by
      rcases hnot with hng | hnone
      · have hor : orElse body.playlistId target.id = target.id := by
          unfold orElse
          rw [hng]
          rfl
        rw [hor]
        simp [List.find?]
      · by_cases hgiven : truthy body.playlistId = true
        · have hor : orElse body.playlistId target.id = body.playlistId := by
            unfold orElse
            rw [if_pos hgiven]
          rw [hor, hnone]
          rfl
        · have hor : orElse body.playlistId target.id = target.id := by
            unfold orElse
            rw [if_neg hgiven]
          rw [hor]
          simp [List.find?]
    have heq := uploadAndAttach_eq srv username file body nowSong nowPlaylist isoNow target rest
      { target with songs := some (songs ++ [songData file body nowSong isoNow]) } hpls
      (by rw [hgetD]; exact hpushT) hhas hwrite
    rw [heq]
    refine ⟨rfl, rfl, 0, by simp, ?_, fun _ => rfl, ?_⟩
    · intro i p hi
      exact absurd hi (Nat.not_lt_zero i)
    · simp only [read_write_same]
      have hwritten : (if ((target :: rest).find?
            (fun (p : Playlist) => p.id == orElse body.playlistId target.id)).isSome = true then
          modifyFirst (fun p => p.id == orElse body.playlistId target.id)
            (fun _ => ({ target with
              songs := some (songs ++ [songData file body nowSong isoNow]) } : Playlist))
            (target :: rest)
          else ({ target with
            songs := some (songs ++ [songData file body nowSong isoNow]) } : Playlist) ::
              rest) =
          ({ target with
            songs := some (songs ++ [songData file body nowSong isoNow]) } : Playlist) ::
              rest := by
        split
        · rename_i h
          by_cases hp : (target.id == orElse body.playlistId target.id) = true
          · simp only [modifyFirst, hp, if_true]
          · exfalso
            have hfind : (target :: rest).find?
                (fun (p : Playlist) => p.id == orElse body.playlistId target.id) =
                rest.find? (fun p => p.id == orElse body.playlistId target.id) := by
              simp [List.find?, hp]
            -- the match is in the tail: then the target would not be the first playlist
            cases hf : (target :: rest).find?
                (fun (p : Playlist) => p.id == orElse body.playlistId target.id) with
            | none => rw [hf] at h; exact Bool.noConfusion h
            | some q =>
              rw [hf] at hgetD
              simp only [Option.getD_some] at hgetD
              subst hgetD
              have hq := find?_pred_true
                (fun p => p.id == orElse body.playlistId q.id) hf
              exact hp hq
        · rfl
      rw [hwritten]
      refine ⟨by simp, ?_, by simp⟩
      intro j hj
      cases j with
      | zero => exact absurd rfl hj
      | succ j => simp

/-- Claim C18. The song returned by a successful upload is `songData`: its `type` is
"mp3", its `fileUrl` is "/uploads/" followed by the stored file name, its
`rating` is 0, its `channelTitle` is the supplied artist or "Unknown Artist",
its `duration` the supplied duration or "0:00", and its `title` the supplied
title when one is supplied. -/
theorem uploadAndAttach_item_fields (srv : Server) (username : String)
    (file : Option UploadedFile) (body : UploadBody) (nowSong nowPlaylist : Nat)
    (isoNow : String)
    (hok : (uploadAndAttach srv username file body nowSong nowPlaylist isoNow).1.kind =
      Outcome.success) :
    ∃ f song, file = some f ∧
      (uploadAndAttach srv username file body nowSong nowPlaylist isoNow).1.song = some song ∧
      song = songData f body nowSong isoNow ∧
      song.type = some "mp3" ∧
      song.fileUrl = some ("/uploads/" ++ f.filename) ∧
      song.rating = some 0 ∧
      (truthy body.artist = true → song.channelTitle = body.artist) ∧
      (truthy body.artist = false → song.channelTitle = some "Unknown Artist") ∧
      (truthy body.duration = true → song.duration = body.duration) ∧
      (truthy body.duration = false → song.duration = some "0:00") ∧
      (truthy body.title = true → song.title = body.title) := by
  cases file with
  | none =>
    unfold uploadAndAttach at hok
    simp [Response.kind] at hok
  | some f =>
    refine ⟨f, songData f body nowSong isoNow, rfl, ?_, rfl, rfl, rfl, rfl, ?_, ?_, ?_, ?_, ?_⟩
    · revert hok
      unfold uploadAndAttach
      dsimp only
      repeat' split
      all_goals simp [Response.kind]
    all_goals
      intro h
      simp [songData, orElse, h]

/-- Claim C11 at the scenario: alice removes `v9` from "Gym", then once more. -/
theorem removeItem_removes_matching_witness :
    (removeItem gymSongServer "alice" "1" "v9").1.kind = Outcome.success ∧
    (removeItem gymSongServer "alice" "1" "v9").1.playlist =
      some { gymPlaylist with
        songs := some ([{ songV9 with addedAt := some (.millis 1800) }].filter
          (fun s => s.videoId != some "v9")) } ∧
    (removeItem (removeItem gymSongServer "alice" "1" "v9").2 "alice" "1" "v9").1.kind =
      Outcome.notFound :=
  have h := removeItem_removes_matching gymSongServer "alice" "1" "v9"
    { gymPlaylist with songs := some [{ songV9 with addedAt := some (.millis 1800) }] }
    [{ songV9 with addedAt := some (.millis 1800) }] (by decide) (by decide) (by decide)
  have hp := h.2 ⟨{ songV9 with addedAt := some (.millis 1800) }, by decide, by decide⟩
    (by decide)
  ⟨hp.1, hp.2.1, hp.2.2.2.2.2.2.2⟩

/-- Claim C12 evaluated at the failing input: the song alice uploaded into "Gym" has
the stable identifier "1700", its generated id, yet `removeItem` with "1700"
answers 404 "Item not found in playlist" and the song stays stored. -/
theorem uploaded_item_cannot_be_removed :
    (readUserPlaylist gymUploadServer "alice").playlists.map
        (fun p => (p.songs.getD []).map stableId) = [[some "1700"]] ∧
    (removeItem gymUploadServer "alice" "1" "1700").1 =
      { status := 404, text := "Item not found in playlist" } ∧
    (readUserPlaylist (removeItem gymUploadServer "alice" "1" "1700").2 "alice").playlists.map
        (fun p => (p.songs.getD []).map stableId) = [[some "1700"]] := by
  decide

/-- Claim C13 at three requests of alice: an item without `videoId` for a playlist
that does not exist, an item for a playlist that does not exist, and an item for
her upload-created playlist, which carries no `userId`. -/
theorem addItem_error_decision_witness :
    (addItem gymServer "alice" "9" { id := some "1700", title := some "Song" } 1800).1.kind =
      Outcome.validationError ∧
    (addItem gymServer "alice" "9" songV9 1800).1.kind = Outcome.notFound ∧
    (addItem uploadServer "alice" "1700" songV9 1800).1.kind = Outcome.forbidden :=
  ⟨(addItem_error_decision gymServer "alice" "9" { id := some "1700", title := some "Song" }
      1800).1.mpr (by decide),
   ((addItem_error_decision gymServer "alice" "9" songV9 1800).2.2 (by decide)
      (by decide)).1.mpr (by decide),
   (((addItem_error_decision uploadServer "alice" "1700" songV9 1800).2.2 (by decide)
      (by decide)).2
      { id := some "1700", name := some "My Playlist",
        songs := some [songData demoFile {} 1700 "2026-01-01T00:00:00.000Z"] }
      (by decide)).mpr (by decide)⟩

/-- Claim C14 at a Conflict of `addItem`, an item NotFound of `removeItem` and a
NotFound of `deletePlaylist`. -/
theorem failed_call_writes_nothing_witness :
    readUserPlaylist (addItem gymSongServer "alice" "1" songV9 1900).2 "alice" =
      readUserPlaylist gymSongServer "alice" ∧
    readUserPlaylist (removeItem gymSongServer "alice" "1" "zz").2 "alice" =
      readUserPlaylist gymSongServer "alice" ∧
    readUserPlaylist (deletePlaylist gymSongServer "alice" "7").2 "alice" =
      readUserPlaylist gymSongServer "alice" :=
  have h := failed_call_writes_nothing gymSongServer "alice" "1" "zz" songV9 1900
  have h2 := failed_call_writes_nothing gymSongServer "alice" "7" "zz" songV9 1900
  ⟨(h.1 (by decide)).2, (h.2.1 (by decide)).2, (h2.2.2 (by decide)).2⟩

/-- Claim C15 at the state where alice's only playlist has no `userId`. -/
theorem listPlaylists_backfills_owner_witness :
    (listPlaylists uploadServer "alice").1.kind = Outcome.success ∧
    ∃ shown, (listPlaylists uploadServer "alice").1.playlists = some shown ∧
      shown.length = (readUserPlaylist uploadServer "alice").playlists.length :=
  have h := listPlaylists_backfills_owner uploadServer "alice"
  ⟨h.1, h.2.2.elim fun shown hs => ⟨shown, hs.1, hs.2.1⟩⟩

/-- Claim C16 at alice's first upload on the empty store. -/
theorem uploadAndAttach_creates_my_playlist_witness :
    (readUserPlaylist
        (uploadAndAttach (emptyServer "/srv/app/server") "alice" (some demoFile) {} 1700 1701
          "2026-01-01T00:00:00.000Z").2 "alice").playlists =
      [{ id := some (jsNumToString 1701), name := some "My Playlist",
         songs := some [songData demoFile {} 1700 "2026-01-01T00:00:00.000Z"] }] :=
  (uploadAndAttach_creates_my_playlist (emptyServer "/srv/app/server") "alice" demoFile {}
    1700 1701 "2026-01-01T00:00:00.000Z" (by decide) (by decide) (by decide)).2.2

/-- Claim C17 at an upload of alice into her second playlist "Run". -/
theorem uploadAndAttach_appends_to_target_witness :
    ∃ k : Nat, (readUserPlaylist twoPlaylistServer "alice").playlists[k]? = some runPlaylist ∧
      (readUserPlaylist
          (uploadAndAttach twoPlaylistServer "alice" (some demoFile)
            { playlistId := some "2" } 1700 1701 "2026-01-01T00:00:00.000Z").2
          "alice").playlists[k]? =
        some { runPlaylist with
          songs := some ([songV9] ++
            [songData demoFile { playlistId := some "2" } 1700
              "2026-01-01T00:00:00.000Z"]) } :=
  have h := uploadAndAttach_appends_to_target twoPlaylistServer "alice" demoFile
    { playlistId := some "2" } 1700 1701 "2026-01-01T00:00:00.000Z" gymPlaylist
    [runPlaylist] runPlaylist [songV9] (by decide)
    (Or.inl ⟨by decide, by decide, by decide⟩) rfl (by decide)
  have h0 : (readUserPlaylist twoPlaylistServer "alice").playlists =
      [gymPlaylist, runPlaylist] := by decide
  h.2.2.elim fun k hk => ⟨k, h0 ▸ hk.1, hk.2.2.2.1⟩

/-- Claim C18 at an upload with a title and without artist. -/
theorem uploadAndAttach_item_fields_witness :
    ∃ song,
      (uploadAndAttach gymServer "alice" (some demoFile)
        { title := some "Anthem", playlistId := some "1" } 1700 1701
        "2026-01-01T00:00:00.000Z").1.song = some song ∧
      song.type = some "mp3" ∧ song.rating = some 0 ∧
      song.channelTitle = some "Unknown Artist" ∧ song.title = some "Anthem" :=
  have h := uploadAndAttach_item_fields gymServer "alice" (some demoFile)
    { title := some "Anthem", playlistId := some "1" } 1700 1701 "2026-01-01T00:00:00.000Z"
    (by decide)
  h.elim fun _ h1 => h1.elim fun song hs =>
    ⟨song, hs.2.1, hs.2.2.2.1, hs.2.2.2.2.2.1, hs.2.2.2.2.2.2.2.1 (by decide),
      hs.2.2.2.2.2.2.2.2.2.2 (by decide)⟩

/-- Claim C19 evaluated at the failing input: for the file "my.mp3.remix.mp3",
uploaded without a title, the title is "my.remix.mp3", not the base name
"my.mp3.remix". -/
theorem upload_title_drops_first_mp3_only :
    remixFile.originalname = "my.mp3.remix" ++ ".mp3" ∧
    (songData remixFile {} 1700 "2026-01-01T00:00:00.000Z").title = some "my.remix.mp3" ∧
    ((uploadAndAttach gymServer "alice" (some remixFile) {} 1700 1701
      "2026-01-01T00:00:00.000Z").1.song.map fun song => song.title) =
      some (some "my.remix.mp3") := by
  decide

/-- Claim C20 evaluated at the failing input: the song stored by an upload has no
`addedAt` and an ISO string as `uploadedAt`, so the key that `sortSongs('date')`
subtracts is a string, whereas the key of a song stored by `addItem` is the
number of milliseconds. -/
theorem upload_item_has_no_epoch_milliseconds :
    (readUserPlaylist gymUploadServer "alice").playlists.map
        (fun p => (p.songs.getD []).map fun song => (song.addedAt, song.uploadedAt)) =
      [[(none, some "2026-01-01T00:00:00.000Z")]] ∧
    (readUserPlaylist gymUploadServer "alice").playlists.map
        (fun p => (p.songs.getD []).map dateKey) =
      [[Timestamp.iso "2026-01-01T00:00:00.000Z"]] ∧
    (readUserPlaylist gymSongServer "alice").playlists.map
        (fun p => (p.songs.getD []).map dateKey) = [[Timestamp.millis 1800]] := by
  decide

/-! ## Store reads, registration, search results and rows -/

/-- Claim C23 as amended. `readUserPlaylist` returns the empty collection
`{ playlists := [] }` for every owner whose file is missing or cannot be read or
parsed, and so for every owner of the store right after the start whose file is
not the user list; and for every collection `c`, after a `replaceAll` of the
owner that succeeds with the batch `c.playlists` stamped to `stamped`,
`readUserPlaylist` returns `{ playlists := stamped }`, as it does after any
`writeUserPlaylist` that returns. -/
theorem readUserPlaylist_never_fails (srv : Server) (dirname username : String)
    (c : PlaylistData) :
    (srv.files (getUserPlaylistFile srv username) = none →
      srv.others (getUserPlaylistFile srv username) = false →
      readUserPlaylist srv username = { playlists := [] } ∧
      hasPlaylists srv username = true) ∧
    (getUserPlaylistFile (emptyServer dirname) username ≠ USERS_FILE dirname →
      readUserPlaylist (emptyServer dirname) username = { playlists := [] } ∧
      hasPlaylists (emptyServer dirname) username = true) ∧
    (readUserPlaylist (writeUserPlaylist srv username c) username = c ∧
      hasPlaylists (writeUserPlaylist srv username c) username = true) ∧
    (∀ clock stamped, stampPlaylists username clock 0 c.playlists = some stamped →
      (replaceAll srv username (some c.playlists) clock).1.kind = Outcome.success →
      readUserPlaylist (replaceAll srv username (some c.playlists) clock).2 username =
        { playlists := stamped }) := by
  refine ⟨?_, ?_, ⟨read_write_same srv username c, hasPlaylists_write_same srv username c⟩,
    ?_⟩
  · intro h ho
    unfold readUserPlaylist hasPlaylists
    rw [h, ho]
    exact ⟨rfl, rfl⟩
  · intro hne
    refine ⟨read_emptyServer dirname username, ?_⟩
    unfold hasPlaylists
    have hfiles : (emptyServer dirname).files
        (getUserPlaylistFile (emptyServer dirname) username) = none := rfl
    rw [hfiles]
    have hothers : (emptyServer dirname).others
        (getUserPlaylistFile (emptyServer dirname) username) =
        (getUserPlaylistFile (emptyServer dirname) username == USERS_FILE dirname) := rfl
    simp only [hothers, Bool.not_eq_true', beq_eq_false_iff_ne, ne_eq]
    exact hne
  · intro clock stamped hst hok
    rw [replaceAll_eq_of_stamped srv username c.playlists stamped clock hst
      (replaceAll_success_inv srv username c.playlists clock hok).2]
    exact read_write_same srv username _

/-- Claim C23 as amended, at alice: the store right after the start gives her the
empty collection, and after saving "Gym" she reads back the collection she
saved. -/
theorem readUserPlaylist_never_fails_witness :
    readUserPlaylist (emptyServer "/srv/app/server") "alice" = { playlists := [] } ∧
    readUserPlaylist gymServer "alice" = { playlists := [gymPlaylist] } :=
  have h := readUserPlaylist_never_fails (emptyServer "/srv/app/server") "/srv/app/server"
    "alice" { playlists := [{ id := some "1", name := some "Gym", songs := some [] }] }
  ⟨(h.2.1 (by decide)).1, h.2.2.2 (fun _ => 1700) [gymPlaylist] (by decide) (by decide)⟩

/-- Claim C23 fails as stated: for the registrable owner `../users`, for whom
nothing has been persisted, the file read is the user list, the value returned
has no `playlists` array and `deletePlaylist` answers 500; and for the
registrable owner `a/b` the save fails, so that the load after it returns the
empty collection and not the collection saved. -/
theorem load_returns_user_list_and_save_fails :
    getUserPlaylistFile (emptyServer "/srv/app/server") "../users" =
      USERS_FILE "/srv/app/server" ∧
    hasPlaylists (emptyServer "/srv/app/server") "../users" = false ∧
    (deletePlaylist (emptyServer "/srv/app/server") "../users" "1").1 =
      { status := 500, text := "Error deleting playlist" } ∧
    (replaceAll (emptyServer "/srv/app/server") "a/b"
      (some [{ id := some "1", name := some "Gym", songs := some [] }]) (fun _ => 1700)).1 =
      { status := 500, text := "Error saving playlists" } ∧
    readUserPlaylist (replaceAll (emptyServer "/srv/app/server") "a/b"
      (some [{ id := some "1", name := some "Gym", songs := some [] }]) (fun _ => 1700)).2
      "a/b" = { playlists := [] } := by
  decide

/-- Putting the found playlist back undoes a replacement of it. -/
theorem modifyFirst_restore (pred : Playlist → Bool) (p q : Playlist) (hq : pred q = true) :
    ∀ l : List Playlist, l.find? pred = some p →
      modifyFirst pred (fun _ => p) (modifyFirst pred (fun _ => q) l) = l := by
  intro l
  induction l with
  | nil => intro h; simp at h
  | cons a as ih =>
    intro h
    by_cases ha : pred a = true
    · have hp : a = p := by simpa [List.find?, ha] using h
      subst hp
      simp [modifyFirst, ha, hq]
    · have ha2 : pred a = false := by
        cases hp : pred a
        · rfl
        · exact absurd hp ha
      have h2 : as.find? pred = some p := by simpa [List.find?, ha2] using h
      simp [modifyFirst, ha2, ih h2]

/-- Filtering out the identifier of a freshly appended song gives the old list. -/
theorem filter_append_new (songs : List Song) (stored : Song) (videoId : String)
    (hnew : ∀ s ∈ songs, s.videoId ≠ some videoId) (hv : stored.videoId = some videoId) :
    (songs ++ [stored]).filter (fun s => s.videoId != some videoId) = songs := by
  rw [List.filter_append]
  have h1 : songs.filter (fun s => s.videoId != some videoId) = songs := by
    rw [List.filter_eq_self]
    intro s hs
    simpa using hnew s hs
  have h2 : [stored].filter (fun s => s.videoId != some videoId) = [] := by
    simp [List.filter, hv]
  rw [h1, h2, List.append_nil]

/-- Claim C29 as amended. For the first playlist of the caller's collection with
the requested id, owned by the caller and holding an item sequence, an item with
a non-empty `videoId` that no item of the playlist has, and a document that can
be written: `addItem` succeeds,
`removeItem` of that `videoId` on the resulting server succeeds, and the
caller's stored collection is then equal to the one before `addItem`. -/
theorem addItem_then_removeItem_identity (srv : Server) (username playlistId videoId : String)
    (item : Song) (now : Nat) (playlist : Playlist) (songs : List Song)
    (hv : item.videoId = some videoId)
    (hid : truthy item.videoId = true)
    (hfind : (readUserPlaylist srv username).playlists.find?
      (fun p => p.id == some playlistId) = some playlist)
    (hown : playlist.userId = some username)
    (hsongs : playlist.songs = some songs)
    (hnew : ∀ s ∈ songs, s.videoId ≠ item.videoId)
    (hwrite : writeSucceeds srv username = true) :
    (addItem srv username playlistId item now).1.kind = Outcome.success ∧
    (removeItem (addItem srv username playlistId item now).2 username playlistId
      videoId).1.kind = Outcome.success ∧
    readUserPlaylist
        (removeItem (addItem srv username playlistId item now).2 username playlistId
          videoId).2 username =
      readUserPlaylist srv username := by
  have hpid : (playlist.id == some playlistId) = true :=
    find?_pred_true (fun p => p.id == some playlistId) hfind
  have hadd := addItem_success_eq srv username playlistId item now playlist songs hid hfind
    hown hsongs hnew hwrite
  have hfound := addItem_stored_find srv username playlistId item now playlist songs hid
    hfind hown hsongs hnew hwrite
  have hstored := addItem_stored srv username playlistId item now playlist songs hid hfind
    hown hsongs hnew hwrite
  have hwrite2 : writeSucceeds (addItem srv username playlistId item now).2 username = true := by
    rw [hadd]
    simp only [writeSucceeds_write]
    exact hwrite
  have hrem := removeItem_eq_of_present (addItem srv username playlistId item now).2 username
    playlistId videoId
    { playlist with songs := some (songs ++ [{ item with addedAt := some (.millis now) }]) }
    (songs ++ [{ item with addedAt := some (.millis now) }]) hfound hown rfl
    ⟨{ item with addedAt := some (.millis now) }, by simp, hv⟩ hwrite2
  have hfilter := filter_append_new songs { item with addedAt := some (.millis now) } videoId
    (by intro s hs; rw [← hv]; exact hnew s hs) hv
  refine ⟨by rw [hadd]; rfl, by rw [hrem]; rfl, ?_⟩
  rw [hrem]
  simp only [read_write_same, hfilter, hstored]
  have hback : ({ playlist with songs := some songs } : Playlist) = playlist := by
    cases playlist
    simp only [Playlist.mk.injEq, true_and]
    exact hsongs.symm
  rw [hback, modifyFirst_restore (fun p => p.id == some playlistId) playlist
    { playlist with songs := some (songs ++ [{ item with addedAt := some (.millis now) }]) }
    hpid _ hfind]

/-- Claim C29 at the scenario: alice adds `v9` to "Gym" and removes it again. -/
theorem addItem_then_removeItem_identity_witness :
    readUserPlaylist
        (removeItem (addItem gymServer "alice" "1" songV9 1800).2 "alice" "1" "v9").2
        "alice" = readUserPlaylist gymServer "alice" :=
  (addItem_then_removeItem_identity gymServer "alice" "1" "v9" songV9 1800 gymPlaylist []
    (by decide) (by decide) (by decide) (by decide) (by decide) (by simp) (by decide)).2.2

/-- Claim C21 evaluated at the failing input: alice saves two playlists without id
and `Date.now()` reads 1700 at both; the save succeeds and both stored
playlists have the id "1700". -/
theorem generated_ids_collide :
    (replaceAll (emptyServer "/srv/app/server") "alice"
      (some [{ name := some "Gym", songs := some [] }, { name := some "Run", songs := some [] }])
      (fun _ => 1700)).1.kind = Outcome.success ∧
    (readUserPlaylist sameClockServer "alice").playlists.map (fun p => p.id) =
      [some "1700", some "1700"] ∧
    ¬ ((readUserPlaylist sameClockServer "alice").playlists.map (fun p => p.id)).Nodup := by
  decide

/-- Claim C27 fails as stated: `replaceAll` accepts and stores a
playlist without `songs`; `addItem` and `removeItem` of the owner on that
playlist then answer 500 from the `catch` branch. -/
theorem missing_songs_reach_internal_error :
    (replaceAll (emptyServer "/srv/app/server") "alice"
      (some [{ id := some "1", name := some "Gym" }]) (fun _ => 1700)).1.kind =
        Outcome.success ∧
    (addItem noSongsServer "alice" "1" songV9 1800).1 =
      { status := 500, text := "Error adding item to playlist" } ∧
    (addItem noSongsServer "alice" "1" songV9 1800).1.kind = Outcome.internalError ∧
    (removeItem noSongsServer "alice" "1" "v9").1 =
      { status := 500, text := "Error deleting item from playlist" } ∧
    (removeItem noSongsServer "alice" "1" "v9").1.kind = Outcome.internalError := by
  decide

/-- Claim C22 evaluated at the failing input: registration accepts both "bob" and
"./bob", the two names differ, `getUserPlaylistFile` gives them the same file,
and a save by "./bob" replaces the document of "bob". -/
theorem distinct_usernames_share_a_file :
    (register (fun _ => true) "hash1" [] (registerBody "bob") 1700).1.kind = Outcome.success ∧
    (register (fun _ => true) "hash2"
      (register (fun _ => true) "hash1" [] (registerBody "bob") 1700).2
      (registerBody "./bob") 1701).1.kind = Outcome.success ∧
    "./bob" ≠ "bob" ∧
    getUserPlaylistFile (emptyServer "/srv/app/server") "./bob" =
      getUserPlaylistFile (emptyServer "/srv/app/server") "bob" ∧
    (readUserPlaylist
      (run (emptyServer "/srv/app/server")
        [.replace "bob" (some [{ id := some "1", name := some "Gym", songs := some [] }])
          (fun _ => 1700)]) "bob").playlists.length = 1 ∧
    (readUserPlaylist
      (run (emptyServer "/srv/app/server")
        [.replace "bob" (some [{ id := some "1", name := some "Gym", songs := some [] }])
          (fun _ => 1700),
         .replace "./bob" (some []) (fun _ => 1800)]) "bob").playlists = [] := by
  decide

/-- Claim C30 evaluated at the failing input: with `currentSongs` "Alpha", "Beta",
the filter "beta" and the sort by rating both show "Beta" in row 0, and the
handlers of row 0 act on `currentSongs[0]`, which is "Alpha". -/
theorem row_action_hits_another_song :
    filterSongs asciiLower "beta" [alphaSong, betaSong] = some [betaSong] ∧
    displayedSong [betaSong] 0 = some betaSong ∧
    handledSong [alphaSong, betaSong] 0 = some alphaSong ∧
    sortSongsByRating [alphaSong, betaSong] = [betaSong, alphaSong] ∧
    displayedSong (sortSongsByRating [alphaSong, betaSong]) 0 = some betaSong ∧
    alphaSong ≠ betaSong := by
  decide

/-- A registration either answers 400 and keeps the list, or answers 200 and appends one user with a username that was free. -/
theorem register_cases (validUrl : String → Bool) (hashedPassword : String)
    (users : List User) (body : RegisterBody) (now : Nat) :
    ((register validUrl hashedPassword users body now).1.status = 400 ∧
      (register validUrl hashedPassword users body now).2 = users) ∨
    ((register validUrl hashedPassword users body now).1.status = 200 ∧
      ∃ username user, body.username = some username ∧
        users.find? (fun u => u.username == username) = none ∧
        user.username = username ∧
        (register validUrl hashedPassword users body now).2 = users ++ [user]) := by
  unfold register
  split
  · exact Or.inl ⟨rfl, rfl⟩
  · rename_i hreq
    dsimp only
    split
    · exact Or.inl ⟨rfl, rfl⟩
    · split
      · exact Or.inl ⟨rfl, rfl⟩
      · split
        · exact Or.inl ⟨rfl, rfl⟩
        · rename_i hnone
          refine Or.inr ⟨rfl, body.username.getD "", _, ?_, hnone, rfl, rfl⟩
          cases hu : body.username with
          | none => simp [hu, truthy] at hreq
          | some u => rfl

/-- Claim C26. When the stored usernames are pairwise distinct, they are pairwise
distinct after `register`; a request whose username is already stored is
answered 400 and leaves the user list as it is; and a successful request
appends exactly one user, with the requested username, which no stored user
had. -/
theorem register_keeps_usernames_unique (validUrl : String → Bool) (hashedPassword : String)
    (users : List User) (body : RegisterBody) (now : Nat)
    (hdistinct : (users.map fun u => u.username).Nodup) :
    ((register validUrl hashedPassword users body now).2.map fun u => u.username).Nodup ∧
    ((∃ u ∈ users, body.username = some u.username) →
      (register validUrl hashedPassword users body now).1.status = 400 ∧
      (register validUrl hashedPassword users body now).1.kind ≠ Outcome.success ∧
      (register validUrl hashedPassword users body now).2 = users) ∧
    ((register validUrl hashedPassword users body now).1.kind = Outcome.success →
      ∃ user, body.username = some user.username ∧
        (∀ u ∈ users, u.username ≠ user.username) ∧
        (register validUrl hashedPassword users body now).2 = users ++ [user]) := by
  rcases register_cases validUrl hashedPassword users body now with
    ⟨hst, hsame⟩ | ⟨hst, username, user, hbody, hnone, huser, happ⟩
  · refine ⟨by rw [hsame]; exact hdistinct, fun _ => ⟨hst, ?_, hsame⟩, fun hok => ?_⟩
    · unfold Response.kind
      rw [hst]
      simp only [Nat.reduceEqDiff, if_false, if_true]
      split <;> simp
    · exfalso
      unfold Response.kind at hok
      rw [hst] at hok
      simp only [Nat.reduceEqDiff, if_false, if_true] at hok
      split at hok <;> simp at hok
  · have hfresh : ∀ u ∈ users, u.username ≠ user.username := by
      intro u hu heq
      have := List.find?_eq_none.mp hnone u hu
      rw [huser] at heq
      simp [heq] at this
    refine ⟨?_, fun hex => ?_, fun _ => ⟨user, by rw [hbody, huser], hfresh, happ⟩⟩
    · rw [happ, List.map_append, List.nodup_append]
      refine ⟨hdistinct, by simp, ?_⟩
      intro a ha hb
      simp only [List.map_cons, List.map_nil, List.mem_singleton] at hb
      obtain ⟨u, hu, rfl⟩ := List.mem_map.mp ha
      exact hfresh u hu hb
    · obtain ⟨u, hu, hbu⟩ := hex
      rw [hbody] at hbu
      injection hbu with hbu
      exact absurd (hbu ▸ huser).symm (hfresh u hu)

/-- Claim C26 at the scenario: "bob" registers, and a second registration of "bob"
is answered 400 and changes nothing. -/
theorem register_keeps_usernames_unique_witness :
    (register (fun _ => true) "hash2"
      (register (fun _ => true) "hash1" [] (registerBody "bob") 1700).2
      (registerBody "bob") 1701).1.status = 400 ∧
    (register (fun _ => true) "hash2"
      (register (fun _ => true) "hash1" [] (registerBody "bob") 1700).2
      (registerBody "bob") 1701).2 =
      (register (fun _ => true) "hash1" [] (registerBody "bob") 1700).2 :=
  have h := register_keeps_usernames_unique (fun _ => true) "hash2"
    (register (fun _ => true) "hash1" [] (registerBody "bob") 1700).2
    (registerBody "bob") 1701 (by decide)
  have h2 := h.2.1 (by decide)
  ⟨h2.1, h2.2.2⟩

/-- Claim C28. For every string, `validatePassword` of the page accepts it exactly
when the password checks of the register route report no error; a rejection
of the page always carries a message; and the error of the route is the
server's text for the rule behind the message of the page, so both reject on
the same rule. -/
theorem password_rules_agree (password : String) :
    ((validatePassword password).isValid = true ↔ passwordError password = none) ∧
    ((validatePassword password).isValid = false ↔
      ∃ message, (validatePassword password).message = some message) ∧
    passwordError password =
      (validatePassword password).message.map (serverTextFor password) := by
  unfold validatePassword passwordError
  split
  · refine ⟨by simp, by simp, ?_⟩
    simp [serverTextFor]
  · split
    · refine ⟨by simp, by simp, ?_⟩
      simp only [Option.map_some', serverTextFor]
      rw [if_neg (by decide), if_neg (by decide)]
    · split
      · refine ⟨by simp, by simp, ?_⟩
        simp only [Option.map_some', serverTextFor]
        rw [if_neg (by decide), if_neg (by decide)]
      · split
        · refine ⟨by simp, by simp, ?_⟩
          simp only [Option.map_some', serverTextFor]
          rw [if_neg (by decide)]
          simp
        · exact ⟨by simp, by simp, rfl⟩

/-- Claim C28 at "abc12!", which both accept, and at "abcdef1", which both reject
for the missing non-alphanumeric character. -/
theorem password_rules_agree_witness :
    (validatePassword "abc12!").isValid = true ∧ passwordError "abc12!" = none ∧
    (validatePassword "abcdef1").message =
      some "Password must contain at least one non-alphanumeric character" ∧
    passwordError "abcdef1" =
      some ("Password must contain at least one non-alphanumeric character " ++
        "(e.g., !, @, #, $, etc.)") :=
  ⟨by decide, (password_rules_agree "abc12!").1.mp (by decide), by decide,
    (password_rules_agree "abcdef1").2.2.trans (by decide)⟩

/-- The numeral of `toFixed1` is the number of tenths nearest to the quotient. -/
theorem toFixed1_nearest (tieUp : Bool) (count unit : Nat) (hunit : 0 < unit) :
    ∃ n, toFixed1 tieUp count unit =
        jsNumToString (n / 10) ++ "." ++ jsNumToString (n % 10) ∧
      unit * n ≤ 10 * count + unit / 2 ∧ 10 * count ≤ unit * n + unit / 2 ∧
      (2 * (10 * count % unit) < unit → n = 10 * count / unit) ∧
      (unit < 2 * (10 * count % unit) → n = 10 * count / unit + 1) := by
  have hdiv := Nat.div_add_mod (10 * count) unit
  have hmod := Nat.mod_lt (10 * count) hunit
  have hhalf := Nat.div_add_mod unit 2
  have hhalf2 := Nat.mod_lt unit (show 0 < 2 by decide)
  refine ⟨if 2 * (10 * count % unit) < unit then 10 * count / unit
    else if unit < 2 * (10 * count % unit) then 10 * count / unit + 1
    else if tieUp then 10 * count / unit + 1 else 10 * count / unit, rfl, ?_⟩
  generalize 10 * count / unit = q at *
  generalize 10 * count % unit = r at *
  split
  · refine ⟨?_, ?_, fun _ => rfl, fun h => by omega⟩ <;> nlinarith
  · split
    · refine ⟨?_, ?_, fun h => by omega, fun _ => rfl⟩ <;> nlinarith
    · split
      · refine ⟨?_, ?_, fun h => by omega, fun h => by omega⟩ <;> nlinarith
      · refine ⟨?_, ?_, fun h => by omega, fun h => by omega⟩ <;> nlinarith

/-- Claim C25 as amended. For every count below `2 ^ 53`, the integers a Number
holds exactly, and every choice at exact halves: below 1000 the result is the
decimal numeral; from 1000 up to 999999 it is the
numeral `n / 10`, a point, the digit `n % 10` and "K", where `n` tenths is
nearest to `count / 1000`; from 1000000 on the same with "M" and
`count / 1000000`. The numeric part stays below 1000 for every count below
999950, and every count from 999951 to 999999 is rendered "1000.0K". -/
theorem formatViewCount_rounds (tieUp : Nat → Bool) (count : Nat)
    (_hsafe : count < 2 ^ 53) :
    (count < 1000 → formatViewCount tieUp count = jsNumToString count) ∧
    (1000 ≤ count → count < 1000000 →
      ∃ n, formatViewCount tieUp count =
          jsNumToString (n / 10) ++ "." ++ jsNumToString (n % 10) ++ "K" ∧
        1000 * n ≤ 10 * count + 500 ∧ 10 * count ≤ 1000 * n + 500 ∧
        (count < 999950 → n / 10 < 1000) ∧
        (999950 < count → formatViewCount tieUp count = "1000.0K")) ∧
    (1000000 ≤ count →
      ∃ n, formatViewCount tieUp count =
          jsNumToString (n / 10) ++ "." ++ jsNumToString (n % 10) ++ "M" ∧
        1000000 * n ≤ 10 * count + 500000 ∧ 10 * count ≤ 1000000 * n + 500000) := by
  refine ⟨fun h => ?_, fun h1 h2 => ?_, fun h => ?_⟩
  · unfold formatViewCount
    split
    · subst count; decide
    · rw [if_neg (by omega), if_neg (by omega)]
  · obtain ⟨n, heq, hlo, hhi, hdown, hup⟩ := toFixed1_nearest (tieUp count) count 1000 (by decide)
    have hform : formatViewCount tieUp count = toFixed1 (tieUp count) count 1000 ++ "K" := by
      unfold formatViewCount
      rw [if_neg (by omega), if_neg (by omega), if_pos h1]
    refine ⟨n, by rw [hform, heq], by omega, by omega, fun h => by omega, fun h => ?_⟩
    have hn : n = 10000 := by omega
    rw [hform, heq, hn]
    decide
  · obtain ⟨n, heq, hlo, hhi, -, -⟩ := toFixed1_nearest (tieUp count) count 1000000 (by decide)
    have hform : formatViewCount tieUp count = toFixed1 (tieUp count) count 1000000 ++ "M" := by
      unfold formatViewCount
      rw [if_neg (by omega), if_pos h]
    exact ⟨n, by rw [hform, heq], by omega, by omega⟩

/-- Claim C25 as amended, at the counts 999 and 12345. -/
theorem formatViewCount_rounds_witness :
    formatViewCount (fun _ => false) 999 = jsNumToString 999 ∧
    ∃ n, formatViewCount (fun _ => false) 12345 =
        jsNumToString (n / 10) ++ "." ++ jsNumToString (n % 10) ++ "K" ∧
      1000 * n ≤ 10 * 12345 + 500 ∧ 10 * 12345 ≤ 1000 * n + 500 ∧
      (12345 < 999950 → n / 10 < 1000) ∧
      (999950 < 12345 → formatViewCount (fun _ => false) 12345 = "1000.0K") :=
  ⟨(formatViewCount_rounds (fun _ => false) 999 (by decide)).1 (by decide),
    (formatViewCount_rounds (fun _ => false) 12345 (by decide)).2.1 (by decide) (by decide)⟩

/-- Claim C25 fails as stated: the count 999999 is below one million and is
rendered "1000.0K", whichever way exact halves are rounded; 12345 is rendered
"12.3K". -/
theorem viewCount_below_million_shows_1000 :
    (999999 < 1000000) ∧
    formatViewCount (fun _ => false) 999999 = "1000.0K" ∧
    formatViewCount (fun _ => true) 999999 = "1000.0K" ∧
    formatViewCount (fun _ => false) 12345 = "12.3K" := by
  decide

theorem isDigitChar_digitChar : ∀ k, k < 10 → isDigitChar (Nat.digitChar k) = true := by
  decide

theorem toDigitsCore_all_digits : ∀ (fuel n : Nat) (ds : List Char),
    (∀ c ∈ ds, isDigitChar c = true) →
    ∀ c ∈ Nat.toDigitsCore 10 fuel n ds, isDigitChar c = true := by
  intro fuel
  induction fuel with
  | zero => intro n ds h; simpa [Nat.toDigitsCore] using h
  | succ k ih =>
    intro n ds h
    have hd : ∀ c ∈ Nat.digitChar (n % 10) :: ds, isDigitChar c = true := by
      intro c hc
      rcases List.mem_cons.mp hc with rfl | hc
      · exact isDigitChar_digitChar _ (Nat.mod_lt _ (by decide))
      · exact h c hc
    simp only [Nat.toDigitsCore]
    split
    · exact hd
    · exact ih _ _ hd

theorem toDigits_all_digits (n : Nat) : ∀ c ∈ Nat.toDigits 10 n, isDigitChar c = true :=
  toDigitsCore_all_digits _ _ _ (by simp)

theorem digitChar_value : ∀ k, k < 10 → (Nat.digitChar k).toNat - 0x30 = k := by
  decide

theorem foldl_toDigitsCore : ∀ (fuel n : Nat) (ds : List Char), n < fuel →
    (Nat.toDigitsCore 10 fuel n ds).foldl (fun acc c => acc * 10 + (c.toNat - 0x30)) 0 =
      ds.foldl (fun acc c => acc * 10 + (c.toNat - 0x30)) n := by
  intro fuel
  induction fuel with
  | zero => intro n ds h; omega
  | succ k ih =>
    intro n ds h
    have hv := digitChar_value (n % 10) (Nat.mod_lt _ (by decide))
    simp only [Nat.toDigitsCore]
    split
    · rename_i h0
      simp only [List.foldl_cons, hv]
      congr 1
      omega
    · rename_i h0
      rw [ih _ _ (by omega)]
      simp only [List.foldl_cons, hv]
      congr 1
      omega

theorem decimalValue_toDigits (n : Nat) : decimalValue (Nat.toDigits 10 n) = n :=
  foldl_toDigitsCore _ _ _ (Nat.lt_succ_self n)

theorem toDigits_ne_nil (n : Nat) : Nat.toDigits 10 n ≠ [] := by
  intro h
  have := jsNumToString_ne_empty n
  apply this
  unfold jsNumToString
  rw [h]

theorem isNumeral_toDigits (n : Nat) : isNumeral (Nat.toDigits 10 n) = true := by
  unfold isNumeral
  have h1 := toDigits_ne_nil n
  have h2 := toDigits_all_digits n
  cases h : Nat.toDigits 10 n with
  | nil => exact absurd h h1
  | cons d ds =>
    rw [h] at h2
    simp only [List.isEmpty_cons, Bool.not_false, Bool.true_and, List.all_eq_true]
    exact h2

theorem isNumeral_iff (ds : List Char) :
    isNumeral ds = true ↔ ds ≠ [] ∧ ∀ c ∈ ds, isDigitChar c = true := by
  unfold isNumeral
  cases ds with
  | nil => simp
  | cons d ds => simp

theorem length_toDigitsCore : ∀ (fuel n : Nat) (ds : List Char), fuel ≠ 0 →
    ds.length < (Nat.toDigitsCore 10 fuel n ds).length := by
  intro fuel
  induction fuel with
  | zero => intro n ds h; exact absurd rfl h
  | succ k ih =>
    intro n ds _
    simp only [Nat.toDigitsCore]
    split
    · simp
    · rename_i h0
      cases k with
      | zero => simp [Nat.toDigitsCore]
      | succ j =>
        have := ih (n / 10) (Nat.digitChar (n % 10) :: ds) (by simp)
        simp only [List.length_cons] at this
        omega

theorem jsPadStart2_toDigits (n : Nat) :
    jsPadStart2 (Nat.toDigits 10 n) = (twoDigits n).data := by
  unfold twoDigits jsPadStart2 jsNumToString
  by_cases h : n < 10
  · have h1 : Nat.toDigits 10 n = [Nat.digitChar n] := by
      unfold Nat.toDigits
      simp only [Nat.toDigitsCore]
      rw [if_pos (by omega), Nat.mod_eq_of_lt h]
    rw [if_pos h, h1]
    rfl
  · have h2 : 2 ≤ (Nat.toDigits 10 n).length := by
      unfold Nat.toDigits
      simp only [Nat.toDigitsCore]
      rw [if_neg (by omega)]
      have := length_toDigitsCore n (n / 10) [Nat.digitChar (n % 10)] (by omega)
      simpa using this
    rw [if_neg h, if_neg (by omega)]

theorem toDouble_of_lt (n : Nat) (h : n < 2 ^ 53) : toDouble n = some n := by
  have hshift : doubleShift n 972 0 = some 0 := by
    unfold doubleShift
    rw [if_pos]
    rw [pow_zero, Nat.div_one]
    exact h
  unfold toDouble
  rw [hshift]
  simp [Nat.mod_one]

theorem numberToString_of_lt (n : Nat) (h : n < 2 ^ 53) :
    numberToString (some n) = Nat.toDigits 10 n := by
  simp only [numberToString, if_pos h]

theorem takeWhile_digits_append (ds : List Char) (v : Char) (tail : List Char)
    (hds : ∀ c ∈ ds, isDigitChar c = true) (hv : isDigitChar v = false) :
    (ds ++ v :: tail).takeWhile isDigitChar = ds ∧
    (ds ++ v :: tail).dropWhile isDigitChar = v :: tail := by
  induction ds with
  | nil => simp [List.takeWhile, List.dropWhile, hv]
  | cons d ds ih =>
    have hd := hds d (by simp)
    have := ih (fun c hc => hds c (by simp [hc]))
    simp [List.takeWhile, List.dropWhile, hd, this]

theorem matchUnitGroup_match (unit : Char) (ds tail : List Char)
    (hds : ∀ c ∈ ds, isDigitChar c = true) (hne : ds ≠ [])
    (hunit : isDigitChar unit = false) :
    matchUnitGroup unit (ds ++ unit :: tail) = (some (ds ++ [unit]), tail) := by
  obtain ⟨htake, hdrop⟩ := takeWhile_digits_append ds unit tail hds hunit
  unfold matchUnitGroup
  rw [hdrop]
  simp only [htake]
  rw [if_pos]
  cases ds with
  | nil => exact absurd rfl hne
  | cons d ds => simp

theorem matchUnitGroup_other (unit v : Char) (ds tail : List Char)
    (hds : ∀ c ∈ ds, isDigitChar c = true) (hv : isDigitChar v = false)
    (hne : v ≠ unit) :
    matchUnitGroup unit (ds ++ v :: tail) = (none, ds ++ v :: tail) := by
  obtain ⟨htake, hdrop⟩ := takeWhile_digits_append ds v tail hds hv
  unfold matchUnitGroup
  rw [hdrop]
  simp only []
  rw [if_neg]
  simp [hne]

theorem matchUnitGroup_nil (unit : Char) : matchUnitGroup unit [] = (none, []) := rfl

theorem jsReplaceFirstChars_unit (unit : Char) (ds : List Char)
    (hds : ∀ c ∈ ds, c ≠ unit) :
    jsReplaceFirstChars [unit] [] (ds ++ [unit]) = ds := by
  induction ds with
  | nil => simp [jsReplaceFirstChars, startsWithChars]
  | cons d ds ih =>
    have hd : unit ≠ d := fun h => hds d (by simp) h.symm
    have := ih (fun c hc => hds c (by simp [hc]))
    simp [jsReplaceFirstChars, startsWithChars, hd, this]

theorem unitDigits_some (unit : Char) (ds : List Char) (hunit : isDigitChar unit = false)
    (hds : ∀ c ∈ ds, isDigitChar c = true) (hne : ds ≠ []) :
    unitDigits unit (some (ds ++ [unit])) = ds := by
  unfold unitDigits
  simp only [Option.getD_some]
  rw [jsReplaceFirstChars_unit unit _ (fun c hc h => by
    have := hds c hc
    rw [h, hunit] at this
    exact absurd this (by decide))]
  rw [if_neg]
  cases ds with
  | nil => exact absurd rfl hne
  | cons d ds => simp

theorem jsParseInt_numeral (ds : List Char) (hds : ∀ c ∈ ds, isDigitChar c = true)
    (hsafe : decimalValue ds < 2 ^ 53) : jsParseInt ds = some (decimalValue ds) := by
  unfold jsParseInt
  rw [List.takeWhile_eq_self_iff.mpr hds]
  exact toDouble_of_lt _ hsafe

theorem jsParseInt_unitDigits_some (unit : Char) (ds : List Char)
    (hunit : isDigitChar unit = false) (hnum : isNumeral ds = true)
    (hsafe : decimalValue ds < 2 ^ 53) :
    jsParseInt (unitDigits unit (some (ds ++ [unit]))) = some (decimalValue ds) := by
  have h := (isNumeral_iff ds).mp hnum
  rw [unitDigits_some unit ds hunit h.2 h.1, jsParseInt_numeral ds h.2 hsafe]

theorem jsParseInt_unitDigits_none (unit : Char) :
    jsParseInt (unitDigits unit none) = some 0 := by
  have h : unitDigits unit none = ['0'] := by
    simp [unitDigits, jsReplaceFirstChars]
  rw [h]
  exact jsParseInt_numeral ['0'] (by decide) (by decide)

theorem formatDuration_data (rest : List Char) (a b c : Nat)
    (ha : jsParseInt (unitDigits 'H' (matchUnitGroup 'H' rest).1) = some a)
    (hb : jsParseInt (unitDigits 'M'
      (matchUnitGroup 'M' (matchUnitGroup 'H' rest).2).1) = some b)
    (hc : jsParseInt (unitDigits 'S'
      (matchUnitGroup 'S' (matchUnitGroup 'M' (matchUnitGroup 'H' rest).2).2).1) = some c)
    (hsa : a < 2 ^ 53) (hsb : b < 2 ^ 53) (hsc : c < 2 ^ 53) :
    formatDuration (some (String.mk ('P' :: 'T' :: rest))) = some (clockText a b c) := by
  have hne : (String.mk ('P' :: 'T' :: rest) == "") = false := by
    rw [beq_eq_false_iff_ne]
    intro h
    have := congrArg String.data h
    simp at this
  have hpt : afterFirstPT ('P' :: 'T' :: rest) = some rest := by
    simp [afterFirstPT, startsWithChars]
  unfold formatDuration
  simp only [hne, hpt, Bool.false_eq_true, if_false, ha, hb, hc,
    numberToString_of_lt a hsa, numberToString_of_lt b hsb, numberToString_of_lt c hsc]
  unfold clockText isPositive
  by_cases hpos : 0 < a
  · simp only [hpos, decide_True, if_true]
    congr 1
    apply String.ext
    simp [jsPadStart2_toDigits, jsNumToString, String.data_append]
  · simp only [hpos, decide_False, Bool.false_eq_true, if_false]
    congr 1
    apply String.ext
    simp [jsPadStart2_toDigits, jsNumToString, String.data_append]

theorem isoDuration_data (h m s : Option (List Char)) :
    isoDuration h m s = String.mk ('P' :: 'T' ::
      (unitText 'H' h ++ (unitText 'M' m ++ unitText 'S' s))) := by
  unfold isoDuration
  simp

theorem componentValue_lt (numeral : Option (List Char))
    (h : ∀ ds, numeral = some ds → isNumeral ds = true ∧ decimalValue ds < 2 ^ 53) :
    componentValue numeral < 2 ^ 53 := by
  cases numeral with
  | none => decide
  | some ds => exact (h ds rfl).2

theorem seconds_group (s : Option (List Char))
    (hs : ∀ ds, s = some ds → isNumeral ds = true ∧ decimalValue ds < 2 ^ 53) :
    (∀ unit, unit ≠ 'S' → isDigitChar unit = false →
      matchUnitGroup unit (unitText 'S' s) = (none, unitText 'S' s)) ∧
    jsParseInt (unitDigits 'S' (matchUnitGroup 'S' (unitText 'S' s)).1) =
      some (componentValue s) := by
  have hS : isDigitChar 'S' = false := by decide
  cases s with
  | none => exact ⟨fun unit _ _ => matchUnitGroup_nil unit, jsParseInt_unitDigits_none 'S'⟩
  | some ds =>
    obtain ⟨hnum, hsafe⟩ := hs ds rfl
    have hd := (isNumeral_iff ds).mp hnum
    refine ⟨fun unit hne _ => ?_, ?_⟩
    · exact matchUnitGroup_other unit 'S' ds [] hd.2 hS (fun h => hne h.symm)
    · show jsParseInt (unitDigits 'S' (matchUnitGroup 'S' (ds ++ 'S' :: [])).1) = _
      rw [matchUnitGroup_match 'S' ds [] hd.2 hd.1 hS]
      exact jsParseInt_unitDigits_some 'S' ds hS hnum hsafe

theorem minutes_group (m s : Option (List Char))
    (hm : ∀ ds, m = some ds → isNumeral ds = true ∧ decimalValue ds < 2 ^ 53)
    (hs : ∀ ds, s = some ds → isNumeral ds = true ∧ decimalValue ds < 2 ^ 53) :
    matchUnitGroup 'H' (unitText 'M' m ++ unitText 'S' s) =
      (none, unitText 'M' m ++ unitText 'S' s) ∧
    jsParseInt (unitDigits 'M'
      (matchUnitGroup 'M' (unitText 'M' m ++ unitText 'S' s)).1) = some (componentValue m) ∧
    jsParseInt (unitDigits 'S' (matchUnitGroup 'S'
      (matchUnitGroup 'M' (unitText 'M' m ++ unitText 'S' s)).2).1) =
        some (componentValue s) := by
  have hH : isDigitChar 'H' = false := by decide
  have hM : isDigitChar 'M' = false := by decide
  obtain ⟨hskip, hval⟩ := seconds_group s hs
  cases m with
  | none =>
    show matchUnitGroup 'H' ([] ++ unitText 'S' s) = (none, [] ++ unitText 'S' s) ∧
      jsParseInt (unitDigits 'M' (matchUnitGroup 'M' ([] ++ unitText 'S' s)).1) = _ ∧
      jsParseInt (unitDigits 'S' (matchUnitGroup 'S'
        (matchUnitGroup 'M' ([] ++ unitText 'S' s)).2).1) = _
    rw [List.nil_append, hskip 'M' (by decide) hM]
    exact ⟨hskip 'H' (by decide) hH, jsParseInt_unitDigits_none 'M', hval⟩
  | some ds =>
    obtain ⟨hnum, hsafe⟩ := hm ds rfl
    have hd := (isNumeral_iff ds).mp hnum
    have htext : unitText 'M' (some ds) ++ unitText 'S' s = ds ++ 'M' :: unitText 'S' s := by
      simp [unitText]
    rw [htext, matchUnitGroup_match 'M' ds _ hd.2 hd.1 hM]
    exact ⟨matchUnitGroup_other 'H' 'M' ds _ hd.2 hM (by decide),
      jsParseInt_unitDigits_some 'M' ds hM hnum hsafe, hval⟩

theorem duration_groups (h m s : Option (List Char))
    (hh : ∀ ds, h = some ds → isNumeral ds = true ∧ decimalValue ds < 2 ^ 53)
    (hm : ∀ ds, m = some ds → isNumeral ds = true ∧ decimalValue ds < 2 ^ 53)
    (hs : ∀ ds, s = some ds → isNumeral ds = true ∧ decimalValue ds < 2 ^ 53) :
    jsParseInt (unitDigits 'H' (matchUnitGroup 'H'
      (unitText 'H' h ++ (unitText 'M' m ++ unitText 'S' s))).1) =
        some (componentValue h) ∧
    jsParseInt (unitDigits 'M' (matchUnitGroup 'M' (matchUnitGroup 'H'
      (unitText 'H' h ++ (unitText 'M' m ++ unitText 'S' s))).2).1) =
      some (componentValue m) ∧
    jsParseInt (unitDigits 'S' (matchUnitGroup 'S' (matchUnitGroup 'M' (matchUnitGroup 'H'
      (unitText 'H' h ++ (unitText 'M' m ++ unitText 'S' s))).2).2).1) =
      some (componentValue s) := by
  have hH : isDigitChar 'H' = false := by decide
  obtain ⟨hskip, hvm, hvs⟩ := minutes_group m s hm hs
  cases h with
  | none =>
    show jsParseInt (unitDigits 'H' (matchUnitGroup 'H'
        ([] ++ (unitText 'M' m ++ unitText 'S' s))).1) = _ ∧
      jsParseInt (unitDigits 'M' (matchUnitGroup 'M' (matchUnitGroup 'H'
        ([] ++ (unitText 'M' m ++ unitText 'S' s))).2).1) = _ ∧
      jsParseInt (unitDigits 'S' (matchUnitGroup 'S' (matchUnitGroup 'M' (matchUnitGroup 'H'
        ([] ++ (unitText 'M' m ++ unitText 'S' s))).2).2).1) = _
    rw [List.nil_append, hskip]
    exact ⟨jsParseInt_unitDigits_none 'H', hvm, hvs⟩
  | some ds =>
    obtain ⟨hnum, hsafe⟩ := hh ds rfl
    have hd := (isNumeral_iff ds).mp hnum
    have htext : unitText 'H' (some ds) ++ (unitText 'M' m ++ unitText 'S' s) =
        ds ++ 'H' :: (unitText 'M' m ++ unitText 'S' s) := by
      simp [unitText]
    rw [htext, matchUnitGroup_match 'H' ds _ hd.2 hd.1 hH]
    exact ⟨jsParseInt_unitDigits_some 'H' ds hH hnum hsafe, hvm, hvs⟩

/-- Claim C24 as amended. For the duration text `PT[hH][mM][sS]` in which every
component that is present is written by a decimal numeral, leading zeros
allowed, of a value below `2 ^ 53`, `formatDuration` returns `h:MM:SS` when
`h > 0` and `m:SS` otherwise, an omitted component counting as 0 and minutes and
seconds written with at least two digits; an absent or empty duration gives no
string. -/
theorem formatDuration_isoDuration (h m s : Option (List Char))
    (hh : ∀ ds, h = some ds → isNumeral ds = true ∧ decimalValue ds < 2 ^ 53)
    (hm : ∀ ds, m = some ds → isNumeral ds = true ∧ decimalValue ds < 2 ^ 53)
    (hs : ∀ ds, s = some ds → isNumeral ds = true ∧ decimalValue ds < 2 ^ 53) :
    formatDuration (some (isoDuration h m s)) =
      some (clockText (componentValue h) (componentValue m) (componentValue s)) ∧
    formatDuration none = none ∧ formatDuration (some "") = none := by
  refine ⟨?_, rfl, rfl⟩
  obtain ⟨ha, hb, hc⟩ := duration_groups h m s hh hm hs
  rw [isoDuration_data]
  exact formatDuration_data _ _ _ _ ha hb hc (componentValue_lt h hh)
    (componentValue_lt m hm) (componentValue_lt s hs)

/-- Claim C24 as amended, at "PT4M13S", at "PT1H2M3S" and at "PT04M7S", whose
minutes carry a leading zero. -/
theorem formatDuration_isoDuration_witness :
    formatDuration (some "PT4M13S") = some "4:13" ∧
    formatDuration (some "PT1H2M3S") = some "1:02:03" ∧
    formatDuration (some "PT04M7S") = some "4:07" :=
  ⟨(formatDuration_isoDuration none (some ['4']) (some ['1', '3'])
      (fun _ h => Option.noConfusion h)
      (fun ds h => by injection h with h; subst h; decide)
      (fun ds h => by injection h with h; subst h; decide)).1,
   (formatDuration_isoDuration (some ['1']) (some ['2']) (some ['3'])
      (fun ds h => by injection h with h; subst h; decide)
      (fun ds h => by injection h with h; subst h; decide)
      (fun ds h => by injection h with h; subst h; decide)).1,
   (formatDuration_isoDuration none (some ['0', '4']) (some ['7'])
      (fun _ h => Option.noConfusion h)
      (fun ds h => by injection h with h; subst h; decide)
      (fun ds h => by injection h with h; subst h; decide)).1⟩

set_option maxRecDepth 4000 in
/-- Claim C24 fails as stated: for `s = 9007199254740993`, which is `2 ^ 53 + 1`,
the text "PT9007199254740993S" gives "0:9007199254740992", because `parseInt`
returns the nearest Number; and for `h = 10 ^ 21` the hours are written in
exponent notation. -/
theorem duration_components_lose_precision :
    isoDuration none none (some (Nat.toDigits 10 9007199254740993)) =
      "PT9007199254740993S" ∧
    formatDuration (some "PT9007199254740993S") = some "0:9007199254740992" ∧
    clockText 0 0 9007199254740993 = "0:9007199254740993" ∧
    formatDuration (some "PT1000000000000000000000H") = some "1e+21:00:00" := by
  decide

/-! ## Documents without playlists, failing writes and missing song lists -/

theorem addItem_not_internal (srv : Server) (username playlistId : String) (item : Song)
    (now : Nat) (hhas : hasPlaylists srv username = true)
    (hwrite : writeSucceeds srv username = true)
    (hall : ∀ p ∈ (readUserPlaylist srv username).playlists, p.songs ≠ none) :
    (addItem srv username playlistId item now).1.kind ≠ Outcome.internalError := by
  unfold addItem
  simp only [hhas, hwrite, Bool.not_true, Bool.false_eq_true, if_false]
  split
  · simp [Response.kind]
  · cases hfind : (readUserPlaylist srv username).playlists.find?
        (fun p => p.id == some playlistId) with
    | none => simp [Response.kind]
    | some playlist =>
      dsimp only
      split
      · simp [Response.kind]
      · cases hs : playlist.songs with
        | none => exact absurd hs (hall playlist (List.mem_of_find?_eq_some hfind))
        | some songs =>
          dsimp only
          split <;> simp [Response.kind]

theorem removeItem_not_internal (srv : Server) (username playlistId videoId : String)
    (hhas : hasPlaylists srv username = true)
    (hwrite : writeSucceeds srv username = true)
    (hall : ∀ p ∈ (readUserPlaylist srv username).playlists, p.songs ≠ none) :
    (removeItem srv username playlistId videoId).1.kind ≠ Outcome.internalError := by
  unfold removeItem
  simp only [hhas, hwrite, Bool.not_true, Bool.false_eq_true, if_false]
  cases hfind : (readUserPlaylist srv username).playlists.find?
      (fun p => p.id == some playlistId) with
  | none => simp [Response.kind]
  | some playlist =>
    dsimp only
    split
    · simp [Response.kind]
    · cases hs : playlist.songs with
      | none => exact absurd hs (hall playlist (List.mem_of_find?_eq_some hfind))
      | some songs =>
        dsimp only
        split <;> simp [Response.kind]

theorem stamped_songs (username : String) (clock : Nat → Nat) (batch stamped : List Playlist)
    (hst : stampPlaylists username clock 0 batch = some stamped)
    (hsongs : ∀ p ∈ batch, p.songs ≠ none) : ∀ q ∈ stamped, q.songs ≠ none := by
  have hspec := stampPlaylists_spec username clock batch 0 stamped hst
  intro q hq
  obtain ⟨k, hk⟩ := List.mem_iff_getElem?.mp hq
  have hlt : k < batch.length := by
    have := (List.getElem?_eq_some.mp hk).1
    omega
  have hbk : batch[k]? = some batch[k] := List.getElem?_eq_getElem hlt
  have := hspec.2 k _ hbk
  rw [hk] at this
  injection this with this
  subst this
  exact hsongs batch[k] (List.getElem_mem hlt)

/-- Claim C27 as amended. After a `replaceAll` that succeeds with a batch in which
every playlist has a `songs` sequence, `addItem` and `removeItem` of the same
owner, for every playlist id, item and `videoId`, answer success or one of
ValidationError, NotFound, Forbidden, Conflict, never the 500 of the `catch`
branch. -/
theorem typed_results_with_song_lists (srv : Server) (username : String)
    (batch : List Playlist) (clock : Nat → Nat)
    (hsongs : ∀ p ∈ batch, p.songs ≠ none)
    (hok : (replaceAll srv username (some batch) clock).1.kind = Outcome.success)
    (playlistId videoId : String) (item : Song) (now : Nat) :
    (addItem (replaceAll srv username (some batch) clock).2 username playlistId item
      now).1.kind ≠ Outcome.internalError ∧
    (removeItem (replaceAll srv username (some batch) clock).2 username playlistId
      videoId).1.kind ≠ Outcome.internalError := by
  obtain ⟨⟨stamped, hst⟩, hwrite⟩ := replaceAll_success_inv srv username batch clock hok
  rw [replaceAll_eq_of_stamped srv username batch stamped clock hst hwrite]
  have hall : ∀ p ∈ (readUserPlaylist (writeUserPlaylist srv username
      { playlists := stamped }) username).playlists, p.songs ≠ none := by
    rw [read_write_same]
    exact stamped_songs username clock batch stamped hst hsongs
  have hw2 : writeSucceeds (writeUserPlaylist srv username { playlists := stamped })
      username = true := by
    rw [writeSucceeds_write]
    exact hwrite
  exact ⟨addItem_not_internal _ username playlistId item now
      (hasPlaylists_write_same srv username _) hw2 hall,
    removeItem_not_internal _ username playlistId videoId
      (hasPlaylists_write_same srv username _) hw2 hall⟩

/-- Claim C27 as amended, at alice's playlist "Gym", saved with an empty song list. -/
theorem typed_results_with_song_lists_witness :
    (addItem gymServer "alice" "1" songV9 1800).1.kind ≠ Outcome.internalError ∧
    (removeItem gymServer "alice" "1" "v9").1.kind ≠ Outcome.internalError :=
  typed_results_with_song_lists (emptyServer "/srv/app/server") "alice"
    [{ id := some "1", name := some "Gym", songs := some [] }] (fun _ => 1700)
    (by decide) (by decide) "1" "v9" songV9 1800

/-- Claim C1 fails as stated: alice owns the playlist "1", saved without `songs`,
in which no item carries `v9`, and `addItem` of `v9` answers 500 and stores
nothing; on a disk where the write fails `addItem` to her playlist "Gym" answers
500 as well. -/
theorem addItem_fails_without_song_list :
    (readUserPlaylist noSongsServer "alice").playlists =
      [{ id := some "1", userId := some "alice", name := some "Gym" }] ∧
    (addItem noSongsServer "alice" "1" songV9 1800).1.kind = Outcome.internalError ∧
    readUserPlaylist (addItem noSongsServer "alice" "1" songV9 1800).2 "alice" =
      readUserPlaylist noSongsServer "alice" ∧
    (readUserPlaylist readOnlyGymServer "alice").playlists = [gymPlaylist] ∧
    (addItem readOnlyGymServer "alice" "1" songV9 1800).1 =
      { status := 500, text := "Error adding item to playlist" } := by
  decide

/-- Claim C11 fails as stated: alice owns the playlist "1", saved without `songs`,
so no item of it has the identifier `v9`, and `removeItem` answers 500, not
NotFound. -/
theorem removeItem_fails_without_song_list :
    (readUserPlaylist noSongsServer "alice").playlists =
      [{ id := some "1", userId := some "alice", name := some "Gym" }] ∧
    (removeItem noSongsServer "alice" "1" "v9").1 =
      { status := 500, text := "Error deleting item from playlist" } ∧
    (removeItem noSongsServer "alice" "1" "v9").1.kind ≠ Outcome.notFound := by
  decide

/-- Claim C29 fails as stated: on alice's playlist "1", saved without `songs`, the
`addItem` of a new item does not succeed, and the `removeItem` after it does not
either. -/
theorem add_then_remove_fails_without_song_list :
    (addItem noSongsServer "alice" "1" songV9 1800).1.kind ≠ Outcome.success ∧
    (removeItem (addItem noSongsServer "alice" "1" songV9 1800).2 "alice" "1" "v9").1.kind ≠
      Outcome.success := by
  decide

/-- Claim C17 fails as stated: alice has one playlist, saved without `songs`, and
her upload answers 500 and appends nothing. -/
theorem upload_fails_without_song_list :
    (readUserPlaylist noSongsServer "alice").playlists.length = 1 ∧
    (uploadAndAttach noSongsServer "alice" (some demoFile) {} 1700 1701
      "2026-01-01T00:00:00.000Z").1 = { status := 500, text := "Error uploading file" } ∧
    readUserPlaylist (uploadAndAttach noSongsServer "alice" (some demoFile) {} 1700 1701
      "2026-01-01T00:00:00.000Z").2 "alice" = readUserPlaylist noSongsServer "alice" := by
  decide

/-- Claim C13 fails as stated: for the caller `../users`, whose file is the user
list, no playlist of the caller's collection has the id "1" and the item carries
a `videoId`, yet `addItem` answers 500, not NotFound. -/
theorem addItem_internal_error_for_user_list :
    truthy songV9.videoId = true ∧
    (readUserPlaylist (emptyServer "/srv/app/server") "../users").playlists = [] ∧
    (addItem (emptyServer "/srv/app/server") "../users" "1" songV9 1800).1 =
      { status := 500, text := "Error adding item to playlist" } ∧
    (addItem (emptyServer "/srv/app/server") "../users" "1" songV9 1800).1.kind ≠
      Outcome.notFound := by
  decide

/-- Claim C10 fails as stated: for the caller `../users`, whose file is the user
list, `deletePlaylist` answers 500 "Error deleting playlist", not NotFound, both
where no playlist has the id and where the playlist belongs to alice. -/
theorem deletePlaylist_internal_error_for_user_list :
    (deletePlaylist (emptyServer "/srv/app/server") "../users" "1").1 =
      { status := 500, text := "Error deleting playlist" } ∧
    (deletePlaylist gymServer "../users" "1").1 =
      { status := 500, text := "Error deleting playlist" } ∧
    (deletePlaylist gymServer "../users" "1").1.kind ≠ Outcome.notFound := by
  decide

/-- Claim C16 fails as stated: the owners `a/b` and `../users` have no playlist
stored; the upload of `a/b` answers 500 because the write fails, that of
`../users` because the file read is the user list, and neither stores a
playlist. -/
theorem upload_fails_for_unwritable_or_foreign_file :
    (readUserPlaylist (emptyServer "/srv/app/server") "a/b").playlists = [] ∧
    (uploadAndAttach (emptyServer "/srv/app/server") "a/b" (some demoFile) {} 1700 1701
      "2026-01-01T00:00:00.000Z").1 = { status := 500, text := "Error uploading file" } ∧
    (readUserPlaylist (uploadAndAttach (emptyServer "/srv/app/server") "a/b" (some demoFile)
      {} 1700 1701 "2026-01-01T00:00:00.000Z").2 "a/b").playlists = [] ∧
    (readUserPlaylist (emptyServer "/srv/app/server") "../users").playlists = [] ∧
    (uploadAndAttach (emptyServer "/srv/app/server") "../users" (some demoFile) {} 1700 1701
      "2026-01-01T00:00:00.000Z").1 = { status := 500, text := "Error uploading file" } := by
  decide

end MidWeb
